import Mathlib

/-!
Verification development for the Retevis RT21 family driver
(retevis_rt21.py): five radio models (RT21, RB17A, RB26, RT76,
RT29 UHF/VHF) sharing one channel codec, a GMRS validation layer, a
serial clone protocol and a settings codec.

Bytes are modelled as natural numbers below 256; records as a structure
of sixteen named bytes mirroring the 16-byte channel record every model
uses.  The lbcd / ul16 / sub-byte bit-field semantics of the chirp
bitwise library (which is outside the embedded sources) are modelled
from the specification: lbcd stores packed decimal digit pairs
little-endian, ul16 is a little-endian 16-bit integer, and bit-fields
within a byte are allocated most-significant-first in declaration
order.  Tone frequencies are carried in tenths of Hz as integers (the
driver divides and multiplies by ten at the boundary, with no rounding
for the values in range).
-/

/-- Bit-field read: the `w`-bit field whose least significant bit is
bit `lo` of `b`. -/
def bfGet (b lo w : Nat) : Nat := b / 2 ^ lo % 2 ^ w

/-- Bit-field write: replace the `w`-bit field at bit `lo` of `b` with
`v` (masked to `w` bits, as the bitwise library does on store). -/
def bfSet (b lo w v : Nat) : Nat :=
  b % 2 ^ lo + v % 2 ^ w * 2 ^ lo + b / 2 ^ (lo + w) * 2 ^ (lo + w)





/-! ## Packed decimal and 16-bit little-endian fields -/

/-- One packed-decimal byte: two decimal digits, high digit in the high
nibble. -/
def encBcd (d : Nat) : Nat := d / 10 * 16 + d % 10

/-- Integer reading of one packed-decimal byte (as the bitwise library
converts lbcd bytes, including out-of-range nibbles such as 0xFF which
reads as 165). -/
def decBcd (b : Nat) : Nat := b / 16 * 10 + b % 16


/-- The sixteen raw bytes of one channel record, as projected onto the
memory image by every model of this family. -/
structure Rec where
  b0 : Nat
  b1 : Nat
  b2 : Nat
  b3 : Nat
  b4 : Nat
  b5 : Nat
  b6 : Nat
  b7 : Nat
  b8 : Nat
  b9 : Nat
  b10 : Nat
  b11 : Nat
  b12 : Nat
  b13 : Nat
  b14 : Nat
  b15 : Nat
deriving DecidableEq, Repr

/-- Integer value of the 4-byte lbcd receive frequency field (record
bytes 0-3), in tens of Hz. -/
def rxfreqGet (r : Rec) : Nat :=
  decBcd r.b0 + decBcd r.b1 * 100 + decBcd r.b2 * 10000 + decBcd r.b3 * 1000000

/-- Store an integer (tens of Hz) into the lbcd receive frequency
field. -/
def rxfreqSet (v : Nat) (r : Rec) : Rec :=
  { r with b0 := encBcd (v % 100), b1 := encBcd (v / 100 % 100),
           b2 := encBcd (v / 10000 % 100), b3 := encBcd (v / 1000000 % 100) }

/-- Integer value of the 4-byte lbcd transmit frequency field (record
bytes 4-7), in tens of Hz. -/
def txfreqGet (r : Rec) : Nat :=
  decBcd r.b4 + decBcd r.b5 * 100 + decBcd r.b6 * 10000 + decBcd r.b7 * 1000000

/-- Store an integer (tens of Hz) into the lbcd transmit frequency
field. -/
def txfreqSet (v : Nat) (r : Rec) : Rec :=
  { r with b4 := encBcd (v % 100), b5 := encBcd (v / 100 % 100),
           b6 := encBcd (v / 10000 % 100), b7 := encBcd (v / 1000000 % 100) }

/-- The duplex-off encoding in set_memory: each raw byte of the
transmit frequency field is set to 0xFF. -/
def txfreqRawFF (r : Rec) : Rec :=
  { r with b4 := 255, b5 := 255, b6 := 255, b7 := 255 }

/-- ul16 receive tone field, record bytes 8-9 (little endian). -/
def rxToneGet (r : Rec) : Nat := r.b8 + r.b9 * 256

/-- Store the ul16 receive tone field. -/
def rxToneSet (v : Nat) (r : Rec) : Rec :=
  { r with b8 := v % 256, b9 := v / 256 % 256 }

/-- ul16 transmit tone field, record bytes 10-11 (little endian). -/
def txToneGet (r : Rec) : Nat := r.b10 + r.b11 * 256

/-- Store the ul16 transmit tone field. -/
def txToneSet (v : Nat) (r : Rec) : Rec :=
  { r with b10 := v % 256, b11 := v / 256 % 256 }





/-! ## Radio models -/

/-- The six registered radio classes of the driver.  RT29 UHF and VHF
share the RT29 memory layout and codec branches. -/
inductive ModelName
  | rt21
  | rb17a
  | rb26
  | rt76
  | rt29u
  | rt29v
deriving DecidableEq, Repr

/-- MODEL string comparison used by the RT29 branches of the codec. -/
def isRT29 : ModelName → Bool
  | .rt29u => true
  | .rt29v => true
  | _ => false

/-- The _gmrs class attribute. -/
def gmrsFlag : ModelName → Bool
  | .rb17a => true
  | .rb26 => true
  | .rt76 => true
  | _ => false

/-- The _skipflags class attribute. -/
def skipflagsFlag : ModelName → Bool
  | .rt76 => false
  | _ => true

/-- The _reserved class attribute (reserved record bytes preserved on
write). -/
def reservedFlag : ModelName → Bool
  | .rb26 => true
  | .rt76 => true
  | _ => false

/-- The _upper class attribute: number of channels. -/
def upperOf : ModelName → Nat
  | .rt21 => 16
  | .rb17a => 30
  | .rb26 => 30
  | .rt76 => 30
  | .rt29u => 16
  | .rt29v => 16

/-- Number of entries of POWER_LEVELS for the model. -/
def powerCount (m : ModelName) : Nat := if isRT29 m then 3 else 2

/-- Length of the skipflags byte array declared by the model's memory
format (two bytes for RT21/RT29, four for RB17A/RB26; RT76 has no skip
flags in its features, its layout value is irrelevant here). -/
def skipflagsLen : ModelName → Nat
  | .rt21 => 2
  | .rb17a => 4
  | .rb26 => 4
  | .rt76 => 0
  | .rt29u => 2
  | .rt29v => 2

/-! Per-model bit-field accessors.  Bit positions follow the memory
format declarations, most-significant-first within each byte. -/

/-- Read the wide (bandwidth) bit. -/
def wideGet : ModelName → Rec → Nat
  | .rt21, r => bfGet r.b13 4 1
  | .rb17a, r => bfGet r.b13 0 1
  | .rb26, r => bfGet r.b12 4 1
  | .rt76, r => bfGet r.b12 4 1
  | .rt29u, r => bfGet r.b13 4 1
  | .rt29v, r => bfGet r.b13 4 1

/-- Write the wide (bandwidth) bit. -/
def wideSet : ModelName → Nat → Rec → Rec
  | .rt21, v, r => { r with b13 := bfSet r.b13 4 1 v }
  | .rb17a, v, r => { r with b13 := bfSet r.b13 0 1 v }
  | .rb26, v, r => { r with b12 := bfSet r.b12 4 1 v }
  | .rt76, v, r => { r with b12 := bfSet r.b12 4 1 v }
  | .rt29u, v, r => { r with b13 := bfSet r.b13 4 1 v }
  | .rt29v, v, r => { r with b13 := bfSet r.b13 4 1 v }

/-- Read the highpower bit (all models except RT29, which uses the
2-bit txpower field). -/
def highpowerGet : ModelName → Rec → Nat
  | .rt21, r => bfGet r.b13 5 1
  | .rb17a, r => bfGet r.b13 1 1
  | .rb26, r => bfGet r.b12 5 1
  | .rt76, r => bfGet r.b12 5 1
  | .rt29u, r => bfGet r.b13 5 1
  | .rt29v, r => bfGet r.b13 5 1

/-- Write the highpower bit. -/
def highpowerSet : ModelName → Nat → Rec → Rec
  | .rt21, v, r => { r with b13 := bfSet r.b13 5 1 v }
  | .rb17a, v, r => { r with b13 := bfSet r.b13 1 1 v }
  | .rb26, v, r => { r with b12 := bfSet r.b12 5 1 v }
  | .rt76, v, r => { r with b12 := bfSet r.b12 5 1 v }
  | .rt29u, v, r => { r with b13 := bfSet r.b13 5 1 v }
  | .rt29v, v, r => { r with b13 := bfSet r.b13 5 1 v }

/-- Read the RT29 2-bit txpower field (bits 5-6 of record byte 13). -/
def txpowerGet (r : Rec) : Nat := bfGet r.b13 5 2

/-- Write the RT29 txpower field. -/
def txpowerSet (v : Nat) (r : Rec) : Rec := { r with b13 := bfSet r.b13 5 2 v }

/-- Read the busy-channel-lockout field. -/
def bclGet : ModelName → Rec → Nat
  | .rt21, r => bfGet r.b12 3 2
  | .rb17a, r => bfGet r.b12 4 2
  | .rb26, r => bfGet r.b12 3 1
  | .rt76, r => 0
  | .rt29u, r => bfGet r.b12 3 2
  | .rt29v, r => bfGet r.b12 3 2

/-- Write the busy-channel-lockout field (RT76 has none; its case is
never exercised by the codec). -/
def bclSet : ModelName → Nat → Rec → Rec
  | .rt21, v, r => { r with b12 := bfSet r.b12 3 2 v }
  | .rb17a, v, r => { r with b12 := bfSet r.b12 4 2 v }
  | .rb26, v, r => { r with b12 := bfSet r.b12 3 1 v }
  | .rt76, _, r => r
  | .rt29u, v, r => { r with b12 := bfSet r.b12 3 2 v }
  | .rt29v, v, r => { r with b12 := bfSet r.b12 3 2 v }

/-- Read the 3-bit scramble_type field. -/
def scrambleGet : ModelName → Rec → Nat
  | .rt21, r => bfGet r.b14 4 3
  | .rb17a, r => bfGet r.b12 0 3
  | .rb26, r => 0
  | .rt76, r => 0
  | .rt29u, r => bfGet r.b15 0 3
  | .rt29v, r => bfGet r.b15 0 3

/-- Write the 3-bit scramble_type field. -/
def scrambleSet : ModelName → Nat → Rec → Rec
  | .rt21, v, r => { r with b14 := bfSet r.b14 4 3 v }
  | .rb17a, v, r => { r with b12 := bfSet r.b12 0 3 v }
  | .rb26, _, r => r
  | .rt76, _, r => r
  | .rt29u, v, r => { r with b15 := bfSet r.b15 0 3 v }
  | .rt29v, v, r => { r with b15 := bfSet r.b15 0 3 v }

/-- Read the RT21-only 3-bit scramble_type2 field (bits 0-2 of record
byte 15). -/
def scramble2Get (r : Rec) : Nat := bfGet r.b15 0 3

/-- Write the RT21-only scramble_type2 field. -/
def scramble2Set (v : Nat) (r : Rec) : Rec := { r with b15 := bfSet r.b15 0 3 v }

/-- Read the cdcss mode bit (RB17A: byte 12 bit 3; RT29: byte 13 bit
0). -/
def cdcssGet : ModelName → Rec → Nat
  | .rb17a, r => bfGet r.b12 3 1
  | .rt29u, r => bfGet r.b13 0 1
  | .rt29v, r => bfGet r.b13 0 1
  | _, _ => 0

/-- Write the cdcss mode bit. -/
def cdcssSet : ModelName → Nat → Rec → Rec
  | .rb17a, v, r => { r with b12 := bfSet r.b12 3 1 v }
  | .rt29u, v, r => { r with b13 := bfSet r.b13 0 1 v }
  | .rt29v, v, r => { r with b13 := bfSet r.b13 0 1 v }
  | _, _, r => r

/-- Read the compander bit. -/
def companderGet : ModelName → Rec → Nat
  | .rb17a, r => bfGet r.b12 6 1
  | .rb26, r => bfGet r.b12 7 1
  | .rt76, r => bfGet r.b12 7 1
  | .rt29u, r => bfGet r.b12 5 1
  | .rt29v, r => bfGet r.b12 5 1
  | .rt21, _ => 0

/-- Write the compander bit. -/
def companderSet : ModelName → Nat → Rec → Rec
  | .rb17a, v, r => { r with b12 := bfSet r.b12 6 1 v }
  | .rb26, v, r => { r with b12 := bfSet r.b12 7 1 v }
  | .rt76, v, r => { r with b12 := bfSet r.b12 7 1 v }
  | .rt29u, v, r => { r with b12 := bfSet r.b12 5 1 v }
  | .rt29v, v, r => { r with b12 := bfSet r.b12 5 1 v }
  | .rt21, _, r => r

/-! ## Logical channel model -/

/-- Duplex values of the driver feature list: simplex (empty string),
plus, minus, split, off. -/
inductive Duplex
  | simplex
  | plus
  | minus
  | split
  | offAir
deriving DecidableEq, Repr

/-- Squelch mode (mem.tmode). -/
inductive TMode
  | tnone
  | tone
  | tsql
  | dtcs
  | cross
deriving DecidableEq, Repr

/-- DCS polarity letter. -/
inductive Pol
  | N
  | R
deriving DecidableEq, Repr

/-- Cross-mode label, transmit side then receive side. -/
inductive CrossMode
  | toneTone
  | toneDtcs
  | dtcsTone
  | noneTone
  | noneDtcs
  | dtcsNone
  | dtcsDtcs
deriving DecidableEq, Repr

/-- Per-model extra channel settings built by get_memory; absent
settings are none. -/
structure Extras where
  bcl : Option Nat
  scramble : Option Nat
  cdcss : Option Nat
  compander : Option Nat
deriving DecidableEq, Repr

/-- Logical channel: the fields of the chirp Memory object that this
driver reads and writes.  Tone frequencies (rtone, ctone) are in tenths
of Hz; freq and offset in Hz; power is an index into the model's
POWER_LEVELS (none when unset); skipS is true when mem.skip is the
letter S. -/
structure CMem where
  number : Nat
  empty : Bool
  freq : Nat
  duplex : Duplex
  offset : Nat
  wide : Bool
  tmode : TMode
  rtone : Nat
  ctone : Nat
  dtcs : Nat
  rxDtcs : Nat
  polTx : Pol
  polRx : Pol
  crossMode : CrossMode
  power : Option Nat
  skipS : Bool
  extra : Extras
deriving DecidableEq, Repr

/-! ## Tone codec -/

/-- Reading of the Python expression int of the 3-digit octal string of
v: the octal digits of v re-read as a decimal numeral (used by
_get_dcs). -/
def octDigitsAsDec (v : Nat) : Nat :=
  v / 512 * 1000 + v / 64 % 8 * 100 + v / 8 % 8 * 10 + v % 8

/-- Reading of the Python expression int of the decimal string of c in
base 8: the decimal digits of c re-read as an octal numeral (used by
_set_dcs). -/
def decDigitsAsOct (c : Nat) : Nat :=
  c / 1000 * 512 + c / 100 % 10 * 64 + c / 10 % 10 * 8 + c % 10

/-- _set_dcs: raw tone field value for DCS code c with polarity p. -/
def dcsVal (c : Nat) (p : Pol) : Nat :=
  decDigitsAsOct c + 10240 + (if p = Pol.R then 32768 else 0)

/-- Per-side tone classification used inside _get_tone. -/
inductive SideMode
  | sNone
  | sTone
  | sDtcs
deriving DecidableEq, Repr

/-- Cross-mode label built by _get_tone from the two side modes.  The
pairs (sTone, sNone) and (sNone, sNone) never reach the cross branch
(the first is caught by the Tone branch, the second leaves the mode
untouched); their values here are irrelevant. -/
def crossOf : SideMode → SideMode → CrossMode
  | .sTone, .sTone => .toneTone
  | .sTone, .sDtcs => .toneDtcs
  | .sDtcs, .sTone => .dtcsTone
  | .sDtcs, .sDtcs => .dtcsDtcs
  | .sNone, .sTone => .noneTone
  | .sNone, .sDtcs => .noneDtcs
  | .sDtcs, .sNone => .dtcsNone
  | .sTone, .sNone => .toneTone
  | .sNone, .sNone => .toneTone

/-- Transmit-side decode step of _get_tone: a DCS value stores its
code into mem.dtcs, an analog value stores the tone (tenths of Hz)
into mem.rtone, and the no-tone sentinel leaves the channel as is. -/
def toneTx (t : Nat) (mem0 : CMem) : CMem :=
  if t ≠ 65535 ∧ 8192 < t then { mem0 with dtcs := octDigitsAsDec (t % 2048) }
  else if t ≠ 65535 then { mem0 with rtone := t }
  else mem0

/-- Side classification of one tone field in _get_tone: 0xFFFF means no
tone, a value above 0x2000 is DCS, anything else is an analog tone. -/
def toneSideMode (t : Nat) : SideMode :=
  if t ≠ 65535 ∧ 8192 < t then SideMode.sDtcs
  else if t ≠ 65535 then SideMode.sTone
  else SideMode.sNone

/-- Receive-side decode step of _get_tone (rx_dtcs / ctone). -/
def toneRx (u : Nat) (mem : CMem) : CMem :=
  if u ≠ 65535 ∧ 8192 < u then { mem with rxDtcs := octDigitsAsDec (u % 2048) }
  else if u ≠ 65535 then { mem with ctone := u }
  else mem

/-- Polarity of one DCS tone field: bit 0x8000 set means reversed. -/
def tonePol (v : Nat) : Pol := if v / 32768 % 2 = 1 then Pol.R else Pol.N

/-- Mode classification chain of _get_tone: transmit tone only gives
Tone; equal analog tones give TSQL; matching DCS codes give DTCS; any
other combination with a non-empty side gives Cross with the
transmit-to-receive label; otherwise the mode is left untouched. -/
def toneClassify (txm rxm : SideMode) (mem2 : CMem) : CMem :=
  if txm = SideMode.sTone ∧ rxm = SideMode.sNone then
    { mem2 with tmode := TMode.tone }
  else if txm = rxm ∧ txm = SideMode.sTone ∧ mem2.rtone = mem2.ctone then
    { mem2 with tmode := TMode.tsql }
  else if txm = rxm ∧ txm = SideMode.sDtcs ∧ mem2.dtcs = mem2.rxDtcs then
    { mem2 with tmode := TMode.dtcs }
  else if rxm ≠ SideMode.sNone ∨ txm ≠ SideMode.sNone then
    { mem2 with tmode := TMode.cross, crossMode := crossOf txm rxm }
  else mem2

/-- Embedding of RT21Radio._get_tone: decode the raw tx_tone and
rx_tone fields into the tone-related fields of the logical channel.
The polarity pair is stored only when the resulting mode is DTCS.
(When both sides are empty and the incoming channel already carries
mode DTCS the Python would hit an unbound tpol local; the decoder is
only ever called on a freshly constructed channel, whose mode starts
out as none, so the hoisted polarity defaults here are never
observable.) -/
def getTone (txTone rxTone : Nat) (mem0 : CMem) : CMem :=
  let mem3 := toneClassify (toneSideMode txTone) (toneSideMode rxTone)
    (toneRx rxTone (toneTx txTone mem0))
  if mem3.tmode = TMode.dtcs then
    { mem3 with polTx := tonePol txTone, polRx := tonePol rxTone }
  else mem3

/-- Embedding of RT21Radio._set_tone: the (rx_tone, tx_tone) raw field
values encoded from a logical channel. -/
def toneValues (c : CMem) : Nat × Nat :=
  match c.tmode with
  | .tnone => (65535, 65535)
  | .tone => (65535, c.rtone)
  | .tsql => (c.ctone, c.ctone)
  | .dtcs => (dcsVal c.dtcs c.polRx, dcsVal c.dtcs c.polTx)
  | .cross =>
    match c.crossMode with
    | .toneTone => (c.ctone, c.rtone)
    | .toneDtcs => (dcsVal c.rxDtcs c.polRx, c.rtone)
    | .dtcsTone => (c.ctone, dcsVal c.dtcs c.polTx)
    | .noneTone => (c.ctone, 65535)
    | .noneDtcs => (dcsVal c.rxDtcs c.polRx, 65535)
    | .dtcsNone => (65535, dcsVal c.dtcs c.polTx)
    | .dtcsDtcs => (dcsVal c.rxDtcs c.polRx, dcsVal c.dtcs c.polTx)

/-! ## GMRS frequency table -/

/-- The GMRS_FREQS table in tens of Hz: the value of the Python
expression int(GMRS_FREQS[i] * 100000).  Each table float f lies in
the binade [256, 512) so its representation error is at most 2^-45;
multiplying by 100000 keeps the true product within 100000 * 2^-45,
below half an ulp (2^-28) of the integer target, which is exactly
representable, so every product rounds to the nominal integer and
truncation returns it exactly. -/
def gmrsFreqs : List Nat :=
  [46256250, 46258750, 46261250, 46263750, 46266250, 46268750, 46271250,
   46756250, 46758750, 46761250, 46763750, 46766250, 46768750, 46771250,
   46255000, 46257500, 46260000, 46262500, 46265000, 46267500, 46270000,
   46272500,
   46255000, 46257500, 46260000, 46262500, 46265000, 46267500, 46270000,
   46272500]

/-- GMRS assigned frequency (tens of Hz) for channel n, 1-based. -/
def gmrsFreqT (n : Nat) : Nat := gmrsFreqs.getD (n - 1) 0

/-! ## Record fill patterns -/

/-- set_raw pattern written by set_memory for an empty channel, before
any GMRS frequency forcing.  RB17A: 12 bytes 0xFF then 00 00 FF FF;
RB26/RT76: 13 bytes 0xFF with the three reserved bytes preserved from
the record as read; other models: all 0xFF. -/
def emptyFill (m : ModelName) (prior : Rec) : Rec :=
  match m with
  | .rb17a =>
      Rec.mk 255 255 255 255 255 255 255 255 255 255 255 255 0 0 255 255
  | .rb26 | .rt76 =>
      Rec.mk 255 255 255 255 255 255 255 255 255 255 255 255 255
        prior.b13 prior.b14 prior.b15
  | _ => Rec.mk 255 255 255 255 255 255 255 255 255 255 255 255 255 255 255 255

/-- set_raw pattern written by set_memory before encoding a non-empty
channel.  RB17A: 13 zero bytes then 00 FF FF; RB26/RT76: 13 zero bytes
with reserved bytes preserved; other models: 13 zero bytes then
30 8F F8. -/
def defaultFill (m : ModelName) (prior : Rec) : Rec :=
  match m with
  | .rb17a => Rec.mk 0 0 0 0 0 0 0 0 0 0 0 0 0 0 255 255
  | .rb26 | .rt76 =>
      Rec.mk 0 0 0 0 0 0 0 0 0 0 0 0 0 prior.b13 prior.b14 prior.b15
  | _ => Rec.mk 0 0 0 0 0 0 0 0 0 0 0 0 0 48 143 248

/-- set_raw pattern of the lazy initialization branch of get_memory
(reached only when the whole record reads 0xFF, a case already caught
by the all-ones receive-frequency test, so in fact dead).  RB17A: 13
zero bytes then 04 FF FF; RB26/RT76: 13 zero bytes plus the reserved
bytes read earlier; other models: 13 zero bytes then 30 8F F8. -/
def lazyFill (m : ModelName) (prior : Rec) : Rec :=
  match m with
  | .rb17a => Rec.mk 0 0 0 0 0 0 0 0 0 0 0 0 0 4 255 255
  | .rb26 | .rt76 =>
      Rec.mk 0 0 0 0 0 0 0 0 0 0 0 0 0 prior.b13 prior.b14 prior.b15
  | _ => Rec.mk 0 0 0 0 0 0 0 0 0 0 0 0 0 48 143 248

/-- True when the raw receive-frequency bytes are all 0xFF. -/
def rxRawFF (r : Rec) : Bool :=
  r.b0 == 255 && r.b1 == 255 && r.b2 == 255 && r.b3 == 255

/-- True when the whole 16-byte record reads 0xFF. -/
def recAllFF (r : Rec) : Bool :=
  r.b0 == 255 && r.b1 == 255 && r.b2 == 255 && r.b3 == 255 &&
  r.b4 == 255 && r.b5 == 255 && r.b6 == 255 && r.b7 == 255 &&
  r.b8 == 255 && r.b9 == 255 && r.b10 == 255 && r.b11 == 255 &&
  r.b12 == 255 && r.b13 == 255 && r.b14 == 255 && r.b15 == 255

/-! ## Skip flags -/

/-- The skip-flag update block of set_memory: channel n keyed at bit
(n-1) mod 8 of skipflags byte (n-1) div 8; writing a channel with skip
S clears the bit (the array is a scan-add mask), any other skip value
sets it. -/
def skipUpdate (n : Nat) (skipS : Bool) (sk : List Nat) : List Nat :=
  let b := (n - 1) % 8
  let bytepos := (n - 1) / 8
  let byte := sk.getD bytepos 0
  let byte2 := if skipS then byte &&& (255 - 2 ^ b) else byte ||| 2 ^ b
  sk.set bytepos byte2

/-! ## set_memory -/

/-- The extra-setting application loop of set_memory: each setting
present on the channel is stored through setattr; scramble_type is
stored one less than its displayed value, and on the RT21 the same
value is also stored into scramble_type2.  (Settings are only ever
present for models whose record declares the field; on other models the
Python setattr would fail.) -/
def applyExtras (m : ModelName) (e : Extras) (r0 : Rec) : Rec :=
  let r1 := match e.bcl with
    | some v => bclSet m v r0
    | none => r0
  let r2 := match e.scramble with
    | some v =>
        if m = .rt21 then scramble2Set (v - 1) (scrambleSet m (v - 1) r1)
        else scrambleSet m (v - 1) r1
    | none => r1
  let r3 := match e.cdcss with
    | some v => cdcssSet m v r2
    | none => r2
  match e.compander with
  | some v => companderSet m v r3
  | none => r3

/-- Embedding of RT21Radio.set_memory for one channel: produces the new
16-byte record and the new skipflags array.  prior is the record
previously in the image (consulted only for the reserved bytes of the
RB26/RT76 layouts). -/
def setMem (m : ModelName) (c : CMem) (prior : Rec) (sk : List Nat) :
    Rec × List Nat :=
  if c.empty then
    let r1 := emptyFill m prior
    let r2 :=
      if gmrsFlag m then
        let gf := gmrsFreqT c.number
        let rA :=
          if 22 < c.number then
            let rB := rxfreqSet gf r1
            let rC := txfreqSet (rxfreqGet rB + 500000) rB
            wideSet m 1 rC
          else
            rxfreqSet gf (txfreqSet gf r1)
        if 8 ≤ c.number ∧ c.number ≤ 14 then
          highpowerSet m 0 (wideSet m 0 rA)
        else
          highpowerSet m 1 (wideSet m 1 rA)
      else r1
    (r2, sk)
  else
    let r1 := defaultFill m prior
    let r2 := rxfreqSet (c.freq / 10) r1
    let r3 :=
      match c.duplex with
      | .offAir => txfreqRawFF r2
      | .split => txfreqSet (c.offset / 10) r2
      | .plus => txfreqSet ((c.freq + c.offset) / 10) r2
      | .minus => txfreqSet ((c.freq - c.offset) / 10) r2
      | .simplex => txfreqSet (c.freq / 10) r2
    let r4 := wideSet m (if c.wide then 1 else 0) r3
    let tv := toneValues c
    let r5 := txToneSet tv.2 (rxToneSet tv.1 r4)
    let r6 :=
      if isRT29 m then
        match c.power with
        | some 2 => txpowerSet 2 r5
        | some 1 => txpowerSet 0 r5
        | some 0 => txpowerSet 1 r5
        | _ => r5
      else
        highpowerSet m (if c.power = some 1 then 1 else 0) r5
    let sk2 := if m ≠ ModelName.rt76 then skipUpdate c.number c.skipS sk else sk
    (applyExtras m c.extra r6, sk2)

/-! ## get_memory -/

/-- The extra-settings group built by get_memory for each model. -/
def extrasOf (m : ModelName) (r : Rec) : Extras :=
  match m with
  | .rt21 =>
      { bcl := some (bclGet m r), scramble := some (scrambleGet m r + 1),
        cdcss := none, compander := none }
  | .rb17a =>
      { bcl := some (bclGet m r), scramble := some (scrambleGet m r + 1),
        cdcss := some (cdcssGet m r), compander := some (companderGet m r) }
  | .rt29u | .rt29v =>
      { bcl := some (bclGet m r), scramble := some (scrambleGet m r + 1),
        cdcss := some (cdcssGet m r), compander := some (companderGet m r) }
  | .rb26 =>
      { bcl := some (bclGet m r), scramble := none,
        cdcss := none, compander := some (companderGet m r) }
  | .rt76 =>
      { bcl := none, scramble := none,
        cdcss := none, compander := some (companderGet m r) }

/-- Embedding of RT21Radio.get_memory: decode channel number from a
record and the skipflags array into a logical channel.  mem0 is the
fresh chirp Memory object the method fills in (its untouched fields
flow through to the result). -/
def getMem (m : ModelName) (mem0 : CMem) (r0 : Rec) (sk : List Nat)
    (number : Nat) : CMem :=
  let mem := { mem0 with number := number }
  let freq := rxfreqGet r0 * 10
  if freq = 0 then { mem with freq := 0, empty := true }
  else if rxRawFF r0 then { mem with freq := 0, empty := true }
  else
    let r := if recAllFF r0 then lazyFill m r0 else r0
    let rxv := rxfreqGet r
    let txv := txfreqGet r
    let mem := { mem with freq := freq }
    let mem :=
      if rxv = txv then { mem with duplex := .simplex, offset := 0 }
      else if txv < rxv then
        { mem with duplex := .minus, offset := (rxv - txv) * 10 }
      else { mem with duplex := .plus, offset := (txv - rxv) * 10 }
    let mem := { mem with wide := wideGet m r = 1 }
    let mem := getTone (txToneGet r) (rxToneGet r) mem
    let mem :=
      if isRT29 m then
        match txpowerGet r with
        | 2 => { mem with power := some 2 }
        | 0 => { mem with power := some 1 }
        | 1 => { mem with power := some 0 }
        | _ => mem
      else { mem with power := some (highpowerGet m r) }
    let mem :=
      if m ≠ ModelName.rt76 then
        let byte := sk.getD ((number - 1) / 8) 0
        { mem with skipS := byte / 2 ^ ((number - 1) % 8) % 2 = 0 }
      else mem
    { mem with extra := extrasOf m r }

/-! ## Serial transport

The pyserial pipe is modelled from the specification as a blocking
byte stream: a scripted list of responses, one list entry consumed per
read call (a read on an exhausted script returns the empty string, as
a timed-out serial read does), and a log of every write call. -/

/-- A scripted serial line: pending read responses and the log of
writes performed so far. -/
structure Wire where
  script : List (List Nat)
  writes : List (List Nat)
deriving DecidableEq, Repr

/-- serial.write: append the transmitted bytes to the log. -/
def wireWrite (bs : List Nat) (w : Wire) : Wire :=
  { w with writes := w.writes ++ [bs] }

/-- serial.read n: consume the next scripted response (at most n bytes
of it); an exhausted script yields the empty response. -/
def wireRead (n : Nat) (w : Wire) : List Nat × Wire :=
  match w.script with
  | [] => ([], w)
  | resp :: rest => (resp.take n, { w with script := rest })

/-- Error taxonomy of the protocol engine; each constructor corresponds
to one raise site of the driver (the driver raises errors.RadioError
everywhere, with distinct messages). -/
inductive RErr
  | handshake
  | ident
  | refused
  | blockRead (addr : Nat)
  | blockAck (addr : Nat)
  | blockWrite (addr : Nat)
deriving DecidableEq, Repr

/-- Per-model transport profile: magic handshake string, expected
8-byte identification, memory size, read and write block sizes and
writable ranges, as class attributes of the driver. -/
structure Radio where
  model : ModelName
  magic : List Nat
  fingerprint : List Nat
  memsize : Nat
  blockSize : Nat
  blockSizeUp : Nat
  ranges : List (Nat × Nat)
deriving Repr

/-- The registered radio classes with their transport attributes. -/
def radioOf : ModelName → Radio
  | .rt21 =>
      { model := .rt21, magic := [80, 82, 77, 90, 85, 78, 69],
        fingerprint := [80, 51, 50, 48, 55, 115, 248, 255],
        memsize := 1024, blockSize := 16, blockSizeUp := 16,
        ranges := [(0, 1024)] }
  | .rb17a =>
      { model := .rb17a, magic := [80, 82, 79, 65, 56, 85, 83],
        fingerprint := [80, 51, 50, 49, 55, 115, 248, 255],
        memsize := 768, blockSize := 64, blockSizeUp := 16,
        ranges := [(0, 768)] }
  | .rb26 =>
      { model := .rb26, magic := [80, 72, 79, 71, 82, 1, 48],
        fingerprint := [80, 51, 50, 48, 55, 51, 2, 255],
        memsize := 800, blockSize := 32, blockSizeUp := 16,
        ranges := [(0, 800)] }
  | .rt76 =>
      { model := .rt76, magic := [80, 72, 79, 71, 82, 20, 212],
        fingerprint := [80, 51, 50, 48, 55, 51, 2, 255],
        memsize := 480, blockSize := 32, blockSizeUp := 16,
        ranges := [(0, 480)] }
  | .rt29u =>
      { model := .rt29u, magic := [80, 82, 79, 72, 82, 65, 77],
        fingerprint := [80, 51, 50, 48, 55, 19, 248, 255],
        memsize := 1024, blockSize := 64, blockSizeUp := 16,
        ranges := [(0, 768)] }
  | .rt29v =>
      { model := .rt29v, magic := [80, 82, 79, 72, 82, 65, 77],
        fingerprint := [80, 50, 50, 48, 55, 1, 248, 255],
        memsize := 1024, blockSize := 64, blockSizeUp := 16,
        ranges := [(0, 768)] }

/-- The handshake loop of _enter_programming_mode: up to five
transmissions of the magic; after each, one byte is read, a single
leading null byte is discarded (with one further read), and the loop
exits successfully on the ACK byte 0x06. -/
def enterAttempts (radio : Radio) : Nat → Wire → Bool × Wire
  | 0, w => (false, w)
  | k + 1, w =>
    let w1 := wireWrite radio.magic w
    let p := wireRead 1 w1
    let p2 := if p.1 = [0] then wireRead 1 p.2 else p
    if p2.1 = [6] then (true, p2.2)
    else enterAttempts radio k p2.2

/-- Embedding of _enter_programming_mode: the handshake loop, then the
identification exchange (write 0x02, read 8 bytes, compare with the
fingerprint), then the ACK echo exchange. -/
def enterProg (radio : Radio) (w : Wire) : Option RErr × Wire :=
  match enterAttempts radio 5 w with
  | (false, w1) => (some .handshake, w1)
  | (true, w1) =>
    let w2 := wireWrite [2] w1
    let p := wireRead 8 w2
    if p.1 ≠ radio.fingerprint then (some .ident, p.2)
    else
      let w3 := wireWrite [6] p.2
      let q := wireRead 1 w3
      if q.1 ≠ [6] then (some .refused, q.2) else (none, q.2)

/-- Embedding of _exit_programming_mode: send the single termination
byte E (0x45). -/
def exitProg (w : Wire) : Wire := wireWrite [69] w

/-- Embedding of _read_block: send R + 2-byte big-endian address +
1-byte length, expect the same header tagged W followed by the
payload, then exchange the ACK byte. -/
def readBlock (radio : Radio) (addr : Nat) (w : Wire) :
    Except RErr (List Nat) × Wire :=
  let size := radio.blockSize
  let tail := [addr / 256 % 256, addr % 256, size % 256]
  let w1 := wireWrite (82 :: tail) w
  let p := wireRead (4 + size) w1
  if p.1.take 4 ≠ 87 :: tail then (.error (.blockRead addr), p.2)
  else
    let data := p.1.drop 4
    let w2 := wireWrite [6] p.2
    let q := wireRead 1 w2
    if q.1 ≠ [6] then (.error (.blockAck addr), q.2)
    else (.ok data, q.2)

/-- Embedding of _rb26_read_block: as _read_block, but the trailing ACK
exchange is skipped entirely for the block at address 0. -/
def rb26ReadBlock (radio : Radio) (addr : Nat) (w : Wire) :
    Except RErr (List Nat) × Wire :=
  let size := radio.blockSize
  let tail := [addr / 256 % 256, addr % 256, size % 256]
  let w1 := wireWrite (82 :: tail) w
  let p := wireRead (4 + size) w1
  if p.1.take 4 ≠ 87 :: tail then (.error (.blockRead addr), p.2)
  else
    let data := p.1.drop 4
    if addr ≠ 0 then
      let w2 := wireWrite [6] p.2
      let q := wireRead 1 w2
      if q.1 ≠ [6] then (.error (.blockAck addr), q.2)
      else (.ok data, q.2)
    else (.ok data, p.2)

/-- Embedding of _write_block: send W + address + length + payload from
the image, expect one ACK byte. -/
def writeBlock (radio : Radio) (image : List Nat) (addr : Nat) (w : Wire) :
    Option RErr × Wire :=
  let size := radio.blockSizeUp
  let tail := [addr / 256 % 256, addr % 256, size % 256]
  let data := (image.drop addr).take size
  let w1 := wireWrite (87 :: tail ++ data) w
  let p := wireRead 1 w1
  if p.1 ≠ [6] then (some (.blockWrite addr), p.2) else (none, p.2)

/-- The download loop body over the remaining block addresses. -/
def dlLoop (radio : Radio) : List Nat → List Nat → Wire →
    Except RErr (List Nat) × Wire
  | [], acc, w => (.ok acc, w)
  | addr :: rest, acc, w =>
    let step :=
      if radio.model = ModelName.rb26 ∨ radio.model = ModelName.rt76 then
        rb26ReadBlock radio addr w
      else readBlock radio addr w
    match step with
    | (.error e, w1) => (.error e, w1)
    | (.ok b, w1) => dlLoop radio rest (acc ++ b) w1

/-- Block addresses of the download: 0, BLOCK_SIZE, ... up to
_memsize. -/
def dlAddrs (radio : Radio) : List Nat :=
  (List.range (radio.memsize / radio.blockSize)).map (fun i => i * radio.blockSize)

/-- Embedding of do_download: enter programming mode, read every block,
then send the exit byte and return the assembled image.  An error
anywhere propagates immediately; the exit byte is sent only on the
successful path (the loop is not wrapped in any cleanup handler). -/
def do_download (radio : Radio) (w : Wire) : Except RErr (List Nat) × Wire :=
  match enterProg radio w with
  | (some e, w1) => (.error e, w1)
  | (none, w1) =>
    match dlLoop radio (dlAddrs radio) [] w1 with
    | (.error e, w2) => (.error e, w2)
    | (.ok data, w2) => (.ok data, exitProg w2)

/-- The upload loop body over the remaining block addresses. -/
def ulLoop (radio : Radio) (image : List Nat) : List Nat → Wire →
    Option RErr × Wire
  | [], w => (none, w)
  | addr :: rest, w =>
    match writeBlock radio image addr w with
    | (some e, w1) => (some e, w1)
    | (none, w1) => ulLoop radio image rest w1

/-- Block addresses of the upload: every writable range stepped by
BLOCK_SIZE_UP. -/
def ulAddrs (radio : Radio) : List Nat :=
  radio.ranges.flatMap (fun se =>
    (List.range ((se.2 - se.1) / radio.blockSizeUp)).map
      (fun i => se.1 + i * radio.blockSizeUp))

/-- Embedding of do_upload: enter programming mode, write every block
of every declared range, then send the exit byte.  As with download,
an error propagates immediately and the exit byte is only sent on the
successful path. -/
def do_upload (radio : Radio) (image : List Nat) (w : Wire) :
    Option RErr × Wire :=
  match enterProg radio w with
  | (some e, w1) => (some e, w1)
  | (none, w1) =>
    match ulLoop radio image (ulAddrs radio) w1 with
    | (some e, w2) => (some e, w2)
    | (none, w2) => (none, exitProg w2)

/-! ## GMRS validation -/

/-- The validation messages that validate_memory can append for GMRS
models. -/
inductive VMsg
  | freqMsg
  | simplexMsg
  | duplexMsg
  | offsetMsg
  | nfmMsg
  | txpMsg
deriving DecidableEq, Repr

/-- Embedding of RT21Radio.validate_memory.  base stands for the list
returned by the chirp_common.CloneModeRadio base-class validator,
which is outside the embedded sources; per the specification an
in-bounds channel produces no base violations, so callers pass [].
The power comparison is by power-level label (Low), modelled from the
specification.  The function is pure: the channel is not mutated. -/
def validate_memory (m : ModelName) (base : List VMsg) (c : CMem) :
    List VMsg :=
  if gmrsFlag m then
    let l1 := if c.freq ≠ gmrsFreqT c.number * 10 then base ++ [VMsg.freqMsg]
      else base
    let l2 := if c.number ≤ 22 ∧ c.duplex ≠ Duplex.simplex then
        l1 ++ [VMsg.simplexMsg]
      else l1
    let l3 :=
      if 23 ≤ c.number then
        let la := if c.duplex ≠ Duplex.plus then l2 ++ [VMsg.duplexMsg] else l2
        if c.offset ≠ 5000000 then la ++ [VMsg.offsetMsg] else la
      else l2
    if 8 ≤ c.number ∧ c.number ≤ 14 then
      let lb := if c.wide then l3 ++ [VMsg.nfmMsg] else l3
      if c.power ≠ some 0 then lb ++ [VMsg.txpMsg] else lb
    else l3
  else base

/-! ## Function-key settings lookup -/

/-- PF1_VALUES: raw byte values parallel to the PF1 choice list of the
RT21. -/
def PF1_VALUES : List Nat := [15, 4, 6, 8, 12]

/-- PF1_17A_VALUES: raw byte values parallel to the PF1 choice list of
the RB17A. -/
def PF1_17A_VALUES : List Nat := [15, 4, 6, 8]

/-- PFKEY_VALUES: raw byte values parallel to the PF key choice list of
the RT29. -/
def PFKEY_VALUES : List Nat := [15, 4, 6, 8, 9, 10]

/-- TOPKEY_VALUES: raw byte values parallel to the top-key choice list
of the RB17A. -/
def TOPKEY_VALUES : List Nat := [255, 12]

/-- get_settings, RT21 pf1 branch: if the stored raw value appears in
PF1_VALUES its index is used; otherwise the driver evaluates
LIST_DTMF_SPECIAL_VALUES.index(0x04), but no LIST_DTMF_SPECIAL_VALUES
name exists anywhere in the module, so the fallback path raises a
NameError instead of producing a default index.  That failure is
modelled as the error value. -/
def pf1IndexRT21 (v : Nat) : Except Unit Nat :=
  match PF1_VALUES.indexOf? v with
  | some i => .ok i
  | none => .error ()

/-- get_settings, RB17A pf1 branch: same shape as the RT21 branch, with
the same undefined LIST_DTMF_SPECIAL_VALUES fallback, modelled as the
error value. -/
def pf1IndexRB17A (v : Nat) : Except Unit Nat :=
  match PF1_17A_VALUES.indexOf? v with
  | some i => .ok i
  | none => .error ()

/-- get_settings, RT29 pf1/pf2 branch: index lookup with the working
fallback PFKEY_VALUES.index(0x04). -/
def pfkeyIndexRT29 (v : Nat) : Nat :=
  match PFKEY_VALUES.indexOf? v with
  | some i => i
  | none => (PFKEY_VALUES.indexOf? 4).getD 0

/-- get_settings, RB17A topkey branch: index lookup with the working
fallback TOPKEY_VALUES.index(0x0C). -/
def topkeyIndexRB17A (v : Nat) : Nat :=
  match TOPKEY_VALUES.indexOf? v with
  | some i => i
  | none => (TOPKEY_VALUES.indexOf? 12).getD 0

/-! ## Concrete fixtures for witnesses and counterexamples -/

/-- A fresh logical channel in the state a newly constructed chirp
Memory object has before get_memory fills it in: no squelch mode, no
power, not empty.  Used as the mem0 argument of getMem in concrete
instances. -/
def freshMem0 : CMem :=
  { number := 0, empty := false, freq := 0, duplex := .simplex,
    offset := 600000, wide := true, tmode := .tnone, rtone := 885,
    ctone := 885, dtcs := 23, rxDtcs := 23, polTx := .N, polRx := .N,
    crossMode := .toneTone, power := none, skipS := false,
    extra := ⟨none, none, none, none⟩ }

/-- An all-zero prior record. -/
def recZero : Rec := Rec.mk 0 0 0 0 0 0 0 0 0 0 0 0 0 0 0 0


/-- The stored record of the duplex example: receive 146.52 MHz,
transmit 146.92 MHz, no tones, default RT29 flag bytes. -/
def recD5 : Rec := Rec.mk 0 32 101 20 0 32 105 20 255 255 255 255 0 48 143 248

/-- The concrete failing-download script: the handshake and
identification succeed, blocks one and two are served correctly, and
the response for the third block (address 0x20) is garbage. -/
def dlScriptFail : List (List Nat) :=
  [[6], [80, 51, 50, 48, 55, 115, 248, 255], [6],
   87 :: 0 :: 0 :: 16 :: List.replicate 16 0, [6],
   87 :: 0 :: 16 :: 16 :: List.replicate 16 0, [6],
   List.replicate 20 0]

/-- Valid DCS code: at most three digits, each an octal digit (the
driver prints the code in decimal and re-reads it as octal, so this is
exactly the domain on which the two readings invert each other). -/
def validDcs (c : Nat) : Prop :=
  c < 1000 ∧ c / 100 % 10 < 8 ∧ c / 10 % 10 < 8 ∧ c % 10 < 8

instance (c : Nat) : Decidable (validDcs c) := by
  unfold validDcs
  infer_instance

/-! ## Canonical channels

The round-trip holds on channels in the image of the decoder: fields
not selected by the squelch mode agree with the fresh-channel values,
frequencies are multiples of 10 Hz in packed-decimal range, duplex is
none/plus/minus, DCS codes are octal-digit numerals, cross
combinations do not alias the TSQL/DTCS states, and extras fit their
stored field widths. -/

/-- Basic bounds: non-empty, channel number in range, frequency a
positive multiple of 10 Hz below the 8-digit packed-decimal limit. -/
def baseOk (m : ModelName) (c : CMem) : Bool :=
  (c.empty == false) && decide (1 ≤ c.number)
    && decide (c.number ≤ upperOf m) && (c.freq % 10 == 0)
    && decide (0 < c.freq) && decide (c.freq < 1000000000)

/-- Duplex bounds: none with offset 0, or plus/minus with a positive
offset that is a multiple of 10 Hz and keeps the transmit value in
packed-decimal range; split and off do not survive the decoder. -/
def duplexOk (c : CMem) : Bool :=
  match c.duplex with
  | Duplex.simplex => c.offset == 0
  | Duplex.plus =>
      decide (0 < c.offset) && (c.offset % 10 == 0)
        && decide (c.freq + c.offset < 1000000000)
  | Duplex.minus =>
      decide (0 < c.offset) && (c.offset % 10 == 0)
        && decide (c.offset ≤ c.freq)
  | _ => false

/-- Tone bounds: the fields selected by the squelch mode are in range
and in decoder-canonical form; the unselected fields hold the fresh
channel values. -/
def toneOk (d0 c : CMem) : Bool :=
  match c.tmode with
  | TMode.tnone =>
      (c.rtone == d0.rtone) && (c.ctone == d0.ctone)
        && (c.dtcs == d0.dtcs) && (c.rxDtcs == d0.rxDtcs)
        && (c.polTx == d0.polTx) && (c.polRx == d0.polRx)
        && (c.crossMode == d0.crossMode)
  | TMode.tone =>
      decide (c.rtone ≤ 8192) && (c.ctone == d0.ctone)
        && (c.dtcs == d0.dtcs) && (c.rxDtcs == d0.rxDtcs)
        && (c.polTx == d0.polTx) && (c.polRx == d0.polRx)
        && (c.crossMode == d0.crossMode)
  | TMode.tsql =>
      decide (c.ctone ≤ 8192) && (c.rtone == c.ctone)
        && (c.dtcs == d0.dtcs) && (c.rxDtcs == d0.rxDtcs)
        && (c.polTx == d0.polTx) && (c.polRx == d0.polRx)
        && (c.crossMode == d0.crossMode)
  | TMode.dtcs =>
      decide (validDcs c.dtcs) && (c.rxDtcs == c.dtcs)
        && (c.rtone == d0.rtone) && (c.ctone == d0.ctone)
        && (c.crossMode == d0.crossMode)
  | TMode.cross =>
      ((c.polTx == d0.polTx) && (c.polRx == d0.polRx)) &&
      match c.crossMode with
      | CrossMode.toneTone =>
          decide (c.rtone ≤ 8192) && decide (c.ctone ≤ 8192)
            && (c.rtone != c.ctone)
            && (c.dtcs == d0.dtcs) && (c.rxDtcs == d0.rxDtcs)
      | CrossMode.toneDtcs =>
          decide (c.rtone ≤ 8192) && decide (validDcs c.rxDtcs)
            && (c.ctone == d0.ctone) && (c.dtcs == d0.dtcs)
      | CrossMode.dtcsTone =>
          decide (validDcs c.dtcs) && decide (c.ctone ≤ 8192)
            && (c.rtone == d0.rtone) && (c.rxDtcs == d0.rxDtcs)
      | CrossMode.noneTone =>
          decide (c.ctone ≤ 8192) && (c.rtone == d0.rtone)
            && (c.dtcs == d0.dtcs) && (c.rxDtcs == d0.rxDtcs)
      | CrossMode.noneDtcs =>
          decide (validDcs c.rxDtcs) && (c.rtone == d0.rtone)
            && (c.ctone == d0.ctone) && (c.dtcs == d0.dtcs)
      | CrossMode.dtcsNone =>
          decide (validDcs c.dtcs) && (c.rtone == d0.rtone)
            && (c.ctone == d0.ctone) && (c.rxDtcs == d0.rxDtcs)
      | CrossMode.dtcsDtcs =>
          decide (validDcs c.dtcs) && decide (validDcs c.rxDtcs)
            && (c.dtcs != c.rxDtcs) && (c.rtone == d0.rtone)
            && (c.ctone == d0.ctone)

/-- Power bound: an index into the model's POWER_LEVELS. -/
def powerOk (m : ModelName) (c : CMem) : Bool :=
  match c.power with
  | some i => decide (i < powerCount m)
  | none => false

/-- Skip flag: free for the models with a skip array; on the RT76 the
driver never reads or writes it, so it must hold the fresh value. -/
def skipOk (m : ModelName) (d0 c : CMem) : Bool :=
  if m = ModelName.rt76 then c.skipS == d0.skipS else true

/-- Extras: exactly the settings get_memory builds for the model,
within the widths of their stored fields (and within the choice lists
indexed by get_memory). -/
def extrasOkB (m : ModelName) (e : Extras) : Bool :=
  match m, e.bcl, e.scramble, e.cdcss, e.compander with
  | ModelName.rt21, some b, some s, none, none =>
      decide (b < 3) && decide (1 ≤ s) && decide (s ≤ 8)
  | ModelName.rb17a, some b, some s, some v, some q =>
      decide (b < 3) && decide (1 ≤ s) && decide (s ≤ 8)
        && decide (v < 2) && decide (q < 2)
  | ModelName.rt29u, some b, some s, some v, some q =>
      decide (b < 3) && decide (1 ≤ s) && decide (s ≤ 8)
        && decide (v < 2) && decide (q < 2)
  | ModelName.rt29v, some b, some s, some v, some q =>
      decide (b < 3) && decide (1 ≤ s) && decide (s ≤ 8)
        && decide (v < 2) && decide (q < 2)
  | ModelName.rb26, some b, none, none, some q =>
      decide (b < 2) && decide (q < 2)
  | ModelName.rt76, none, none, none, some q =>
      decide (q < 2)
  | _, _, _, _, _ => false

/-- A channel in the image of the decoder for model m, relative to the
fresh channel d0 the decoder starts from. -/
def canonB (m : ModelName) (d0 c : CMem) : Bool :=
  baseOk m c && duplexOk c && toneOk d0 c && powerOk m c
    && skipOk m d0 c && extrasOkB m c.extra


/-! ## Helper lemmas -/

theorem bf_get_set_self (b lo w v : Nat) :
    bfGet (bfSet b lo w v) lo w = v % 2 ^ w := by
  unfold bfGet bfSet
  have hlo : 0 < 2 ^ lo := Nat.pos_pow_of_pos lo (by norm_num)
  have hw : 0 < 2 ^ w := Nat.pos_pow_of_pos w (by norm_num)
  have h1 : b % 2 ^ lo + v % 2 ^ w * 2 ^ lo + b / 2 ^ (lo + w) * 2 ^ (lo + w)
      = b % 2 ^ lo + (v % 2 ^ w + b / 2 ^ (lo + w) * 2 ^ w) * 2 ^ lo := by
    rw [pow_add]; ring
  rw [h1, Nat.add_mul_div_right _ _ hlo,
    Nat.div_eq_of_lt (Nat.mod_lt _ hlo), Nat.zero_add,
    Nat.add_mul_mod_self_right]
  exact Nat.mod_eq_of_lt (Nat.mod_lt _ hw)

theorem bf_get_set_above (b lo w v lo2 w2 : Nat) (h : lo + w ≤ lo2) :
    bfGet (bfSet b lo w v) lo2 w2 = bfGet b lo2 w2 := by
  unfold bfGet bfSet
  obtain ⟨d, hd⟩ := Nat.exists_eq_add_of_le h
  have hlw : 0 < 2 ^ (lo + w) := Nat.pos_pow_of_pos _ (by norm_num)
  have hlo : 0 < 2 ^ lo := Nat.pos_pow_of_pos lo (by norm_num)
  have hw : 0 < 2 ^ w := Nat.pos_pow_of_pos w (by norm_num)
  have hless : b % 2 ^ lo + v % 2 ^ w * 2 ^ lo < 2 ^ (lo + w) := by
    have h1 : b % 2 ^ lo < 2 ^ lo := Nat.mod_lt _ hlo
    have h2 : v % 2 ^ w < 2 ^ w := Nat.mod_lt _ hw
    have h3 : v % 2 ^ w * 2 ^ lo ≤ (2 ^ w - 1) * 2 ^ lo :=
      Nat.mul_le_mul_right _ (by omega)
    have h4 : 2 ^ (lo + w) = 2 ^ lo * 2 ^ w := by rw [pow_add]
    have h5 : (2 ^ w - 1) * 2 ^ lo + 2 ^ lo = 2 ^ w * 2 ^ lo := by
      rw [Nat.sub_mul, Nat.one_mul]
      have : 2 ^ lo ≤ 2 ^ w * 2 ^ lo := Nat.le_mul_of_pos_left _ hw
      omega
    have h6 : 2 ^ lo * 2 ^ w = 2 ^ w * 2 ^ lo := by ring
    omega
  have hXdiv : (b % 2 ^ lo + v % 2 ^ w * 2 ^ lo + b / 2 ^ (lo + w) * 2 ^ (lo + w))
      / 2 ^ (lo + w) = b / 2 ^ (lo + w) := by
    rw [Nat.add_mul_div_right _ _ hlw, Nat.div_eq_of_lt hless, Nat.zero_add]
  have hsplit : 2 ^ lo2 = 2 ^ (lo + w) * 2 ^ d := by rw [hd, pow_add]
  rw [hsplit, ← Nat.div_div_eq_div_mul, hXdiv, Nat.div_div_eq_div_mul, ← hsplit]

theorem nat_div_mod_view (a lo2 w2 : Nat) :
    a / 2 ^ lo2 % 2 ^ w2 = a % 2 ^ (lo2 + w2) / 2 ^ lo2 := by
  rw [pow_add]
  exact (Nat.mod_mul_right_div_self a _ _).symm

theorem bf_get_set_below (b lo w v lo2 w2 : Nat) (h : lo2 + w2 ≤ lo) :
    bfGet (bfSet b lo w v) lo2 w2 = bfGet b lo2 w2 := by
  unfold bfGet bfSet
  have hdvd1 : (2 ^ (lo2 + w2) : Nat) ∣ 2 ^ lo := pow_dvd_pow 2 h
  have hdvd2 : (2 ^ (lo2 + w2) : Nat) ∣ 2 ^ (lo + w) :=
    pow_dvd_pow 2 (le_trans h (Nat.le_add_right lo w))
  obtain ⟨k1, hk1⟩ := hdvd1
  obtain ⟨k2, hk2⟩ := hdvd2
  rw [nat_div_mod_view, nat_div_mod_view]
  congr 1
  conv_lhs => rw [hk1, hk2]
  rw [show b % (2 ^ (lo2 + w2) * k1) + v % 2 ^ w * (2 ^ (lo2 + w2) * k1)
      + b / (2 ^ (lo2 + w2) * k2) * (2 ^ (lo2 + w2) * k2)
    = b % (2 ^ (lo2 + w2) * k1)
      + (v % 2 ^ w * k1 + b / (2 ^ (lo2 + w2) * k2) * k2) * 2 ^ (lo2 + w2) by ring]
  rw [Nat.add_mul_mod_self_right, ← hk1, Nat.mod_mod_of_dvd _ ⟨k1, hk1⟩]

theorem dec_enc_bcd (d : Nat) (h : d < 100) : decBcd (encBcd d) = d := by
  unfold decBcd encBcd
  omega

theorem rxfreq_get_set (v : Nat) (r : Rec) (h : v < 100000000) :
    rxfreqGet (rxfreqSet v r) = v := by
  unfold rxfreqGet rxfreqSet
  simp only
  rw [dec_enc_bcd _ (by omega), dec_enc_bcd _ (by omega),
    dec_enc_bcd _ (by omega), dec_enc_bcd _ (by omega)]
  omega

theorem txfreq_get_set (v : Nat) (r : Rec) (h : v < 100000000) :
    txfreqGet (txfreqSet v r) = v := by
  unfold txfreqGet txfreqSet
  simp only
  rw [dec_enc_bcd _ (by omega), dec_enc_bcd _ (by omega),
    dec_enc_bcd _ (by omega), dec_enc_bcd _ (by omega)]
  omega

theorem rxtone_get_set (v : Nat) (r : Rec) (h : v < 65536) :
    rxToneGet (rxToneSet v r) = v := by
  unfold rxToneGet rxToneSet
  simp only
  omega

theorem txtone_get_set (v : Nat) (r : Rec) (h : v < 65536) :
    txToneGet (txToneSet v r) = v := by
  unfold txToneGet txToneSet
  simp only
  omega

theorem list_getD_set_self (l : List Nat) (i a : Nat) (h : i < l.length) :
    (l.set i a).getD i 0 = a := by
  induction l generalizing i with
  | nil => simp at h
  | cons x xs ih =>
    cases i with
    | zero => rfl
    | succ j =>
      simp only [List.set, List.getD, List.get?]
      have := ih j (by simpa using h)
      simpa [List.getD] using this

theorem list_getD_set_ne (l : List Nat) (i j a : Nat) (h : j ≠ i) :
    (l.set i a).getD j 0 = l.getD j 0 := by
  induction l generalizing i j with
  | nil => rfl
  | cons x xs ih =>
    cases i with
    | zero =>
      cases j with
      | zero => exact absurd rfl h
      | succ k => rfl
    | succ i2 =>
      cases j with
      | zero => rfl
      | succ k =>
        simpa [List.getD] using ih i2 k (by omega)

theorem list_length_set (l : List Nat) (i a : Nat) :
    (l.set i a).length = l.length := List.length_set l i a

/-- Bit b of the byte after the skip-flag update: cleared when the
channel is written with skip S, set otherwise. -/
theorem skipUpdate_target_bit (n : Nat) (s : Bool) (sk : List Nat)
    (h2 : (n - 1) / 8 < sk.length) :
    ((skipUpdate n s sk).getD ((n - 1) / 8) 0).testBit ((n - 1) % 8) = !s := by
  have hb : (n - 1) % 8 < 8 := Nat.mod_lt _ (by norm_num)
  unfold skipUpdate
  simp only
  rw [list_getD_set_self _ _ _ h2]
  cases s with
  | true =>
    rw [if_pos rfl, Nat.testBit_land]
    have hmask : (255 - 2 ^ ((n - 1) % 8)).testBit ((n - 1) % 8) = false := by
      interval_cases h : ((n - 1) % 8) <;> decide
    simp [hmask]
  | false =>
    rw [if_neg (by decide), Nat.testBit_lor]
    have hmask : (2 ^ ((n - 1) % 8)).testBit ((n - 1) % 8) = true := by
      simp [Nat.testBit_two_pow_self]
    simp [hmask]

/-- All other bits of the target byte are unchanged by the skip-flag
update. -/
theorem skipUpdate_other_bits (n : Nat) (s : Bool) (sk : List Nat)
    (h2 : (n - 1) / 8 < sk.length) (k : Nat) (hk : k < 8)
    (hne : k ≠ (n - 1) % 8) :
    ((skipUpdate n s sk).getD ((n - 1) / 8) 0).testBit k
      = (sk.getD ((n - 1) / 8) 0).testBit k := by
  have hb : (n - 1) % 8 < 8 := Nat.mod_lt _ (by norm_num)
  unfold skipUpdate
  simp only
  rw [list_getD_set_self _ _ _ h2]
  cases s with
  | true =>
    rw [if_pos rfl, Nat.testBit_land]
    have hmask : (255 - 2 ^ ((n - 1) % 8)).testBit k = true := by
      interval_cases h : ((n - 1) % 8) <;> interval_cases k <;>
        first | rfl | omega
    simp [hmask]
  | false =>
    rw [if_neg (by decide), Nat.testBit_lor]
    have hmask : (2 ^ ((n - 1) % 8)).testBit k = false :=
      Nat.testBit_two_pow_of_ne (by omega)
    simp [hmask]

/-! ## Claim C7 -/

/-- C7 counterexample: writing channel 9 with skip S does not set bit 0
of skip byte index 1 — it clears it.  Starting from an all-ones
skip-flag array, the updated byte 1 is 0xFE, whose bit 0 is clear,
while it was set before the update. -/
theorem skip_set_bit_counterexample :
    skipUpdate 9 true [255, 255] = [255, 254] ∧
    (((skipUpdate 9 true [255, 255]).getD 1 0).testBit 0 = false) ∧
    (([255, 255].getD 1 0 : Nat).testBit 0 = true) := by
  refine ⟨?_, ?_, ?_⟩ <;> decide

/-- C7 amended: the skip flag of channel n lives at bit (n-1) mod 8 of
skip-flag byte (n-1) div 8, but with inverted polarity: writing a
channel with skip S clears that bit and writing it without skip sets
it (the array is a scan-add mask).  The update leaves every other bit
of the target byte, every other byte, and the array length unchanged;
set_memory performs it exactly when the model is not the RT76 and the
channel is non-empty, and the RT76 path leaves the array untouched. -/
theorem skip_flag_update_amended (n : Nat) (s : Bool) (sk : List Nat)
    (h2 : (n - 1) / 8 < sk.length) :
    (((skipUpdate n s sk).getD ((n - 1) / 8) 0).testBit ((n - 1) % 8) = !s) ∧
    (∀ k, k < 8 → k ≠ (n - 1) % 8 →
      ((skipUpdate n s sk).getD ((n - 1) / 8) 0).testBit k
        = (sk.getD ((n - 1) / 8) 0).testBit k) ∧
    (∀ j, j ≠ (n - 1) / 8 → (skipUpdate n s sk).getD j 0 = sk.getD j 0) ∧
    ((skipUpdate n s sk).length = sk.length) ∧
    (∀ (c : CMem) (prior : Rec) (sk2 : List Nat),
      (setMem ModelName.rt76 c prior sk2).2 = sk2) ∧
    (∀ (m : ModelName) (c : CMem) (prior : Rec) (sk2 : List Nat),
      c.empty = false → m ≠ ModelName.rt76 →
      (setMem m c prior sk2).2 = skipUpdate c.number c.skipS sk2) := by
  refine ⟨skipUpdate_target_bit n s sk h2,
    fun k hk hne => skipUpdate_other_bits n s sk h2 k hk hne, ?_, ?_, ?_, ?_⟩
  · intro j hj
    unfold skipUpdate
    simp only
    exact list_getD_set_ne _ _ _ _ hj
  · unfold skipUpdate
    simp only
    exact list_length_set _ _ _
  · intro c prior sk2
    unfold setMem
    by_cases hc : c.empty <;> simp [hc]
  · intro m c prior sk2 hc hm
    unfold setMem
    simp [hc, hm]

/-- C7 witness for the amended theorem: channel 9, skip S, on a 2-byte
all-ones array: bit 0 of byte 1 reads false afterwards, bits 1-7 of
byte 1 and all of byte 0 are unchanged. -/
theorem skip_flag_update_amended_witness :
    (1 : Nat) < ([255, 255] : List Nat).length ∧
    ((((skipUpdate 9 true [255, 255]).getD 1 0).testBit 0 = !true) ∧
    (∀ k, k < 8 → k ≠ (9 - 1) % 8 →
      ((skipUpdate 9 true [255, 255]).getD 1 0).testBit k
        = (([255, 255] : List Nat).getD 1 0).testBit k) ∧
    (∀ j, j ≠ (9 - 1) / 8 →
      (skipUpdate 9 true [255, 255]).getD j 0 = ([255, 255] : List Nat).getD j 0) ∧
    ((skipUpdate 9 true [255, 255]).length = ([255, 255] : List Nat).length) ∧
    (∀ (c : CMem) (prior : Rec) (sk2 : List Nat),
      (setMem ModelName.rt76 c prior sk2).2 = sk2) ∧
    (∀ (m : ModelName) (c : CMem) (prior : Rec) (sk2 : List Nat),
      c.empty = false → m ≠ ModelName.rt76 →
      (setMem m c prior sk2).2 = skipUpdate c.number c.skipS sk2)) :=
  ⟨by decide, skip_flag_update_amended 9 true [255, 255] (by decide)⟩

/-! ## Claim C8 -/

/-- C8: on the GMRS-restricted RB17A, channel 10 (in the 8-14 narrow
low-power range) at its assigned frequency 467.6125 MHz, simplex and
narrow, validates to exactly one violation — the power message — when
its power is the high level (index 1), and to the empty list when its
power is low (index 0); validate_memory is a pure function of the
channel, so the channel itself is never mutated. -/
theorem gmrs_validation_channel10 :
    validate_memory ModelName.rb17a []
      { freshMem0 with
        number := 10
        freq := 467612500
        duplex := Duplex.simplex
        offset := 0
        wide := false
        power := some 1 } = [VMsg.txpMsg] ∧
    validate_memory ModelName.rb17a []
      { freshMem0 with
        number := 10
        freq := 467612500
        duplex := Duplex.simplex
        offset := 0
        wide := false
        power := some 0 } = [] := by
  refine ⟨?_, ?_⟩ <;> rfl

/-! ## Claim C9 -/

/-- C9: decoding a stored function-key value that matches the values
table yields its index, but the RT21 and RB17A pf1 fallback paths do
not substitute a default — they evaluate an undefined name
(LIST_DTMF_SPECIAL_VALUES) and raise a NameError, modelled here as the
error value.  The RT29 pf-key and RB17A top-key branches do fall back
to a default index as documented (0x04 at index 1, 0x0C at index 1). -/
theorem pf1_lookup_fallback_errors :
    pf1IndexRT21 0 = Except.error () ∧
    pf1IndexRB17A 0 = Except.error () ∧
    pf1IndexRT21 4 = Except.ok 1 ∧
    pf1IndexRB17A 8 = Except.ok 3 ∧
    pfkeyIndexRT29 0 = 1 ∧
    topkeyIndexRB17A 0 = 1 := by
  refine ⟨?_, ?_, ?_, ?_, ?_, ?_⟩ <;> rfl

/-! ## Claim C10 -/

/-- C10: for the RT21, after set_memory of any non-empty channel the
record's scramble_type2 field equals its scramble_type field: the
default fill 30 8F F8 leaves both zero, and a scramble_type extra
setting with displayed value v writes v - 1 into both. -/
theorem rt21_scramble2_matches_scramble (c : CMem) (prior : Rec)
    (sk : List Nat) (hc : c.empty = false) :
    scramble2Get (setMem ModelName.rt21 c prior sk).1
      = scrambleGet ModelName.rt21 (setMem ModelName.rt21 c prior sk).1 := by
  unfold setMem
  simp only [hc, Bool.false_eq_true, if_false]
  rcases hce : c.extra with ⟨b, s, cd, co⟩
  cases b <;> cases s <;> cases cd <;> cases co <;>
    cases hd : c.duplex <;>
    simp only [applyExtras, isRT29, scramble2Get, scrambleGet, scramble2Set,
      scrambleSet, bclSet, cdcssSet, companderSet, highpowerSet, wideSet,
      txToneSet, rxToneSet, txfreqSet, txfreqRawFF, rxfreqSet, defaultFill,
      Bool.false_eq_true, if_false, bfGet, bfSet] <;>
    (try norm_num) <;>
    omega

/-- C10 witness: a concrete non-empty RT21 channel. -/
theorem rt21_scramble2_matches_scramble_witness :
    ({ freshMem0 with number := 1, freq := 462562500 } : CMem).empty = false ∧
    scramble2Get
      (setMem ModelName.rt21
        { freshMem0 with number := 1, freq := 462562500 } recZero [0, 0]).1
    = scrambleGet ModelName.rt21
      (setMem ModelName.rt21
        { freshMem0 with number := 1, freq := 462562500 } recZero [0, 0]).1 :=
  ⟨rfl, rt21_scramble2_matches_scramble
    { freshMem0 with number := 1, freq := 462562500 } recZero [0, 0] rfl⟩

theorem toneTx_duplex (t : Nat) (mem : CMem) :
    (toneTx t mem).duplex = mem.duplex := by
  unfold toneTx
  split_ifs <;> rfl

theorem toneRx_duplex (u : Nat) (mem : CMem) :
    (toneRx u mem).duplex = mem.duplex := by
  unfold toneRx
  split_ifs <;> rfl

theorem toneClassify_duplex (txm rxm : SideMode) (mem : CMem) :
    (toneClassify txm rxm mem).duplex = mem.duplex := by
  unfold toneClassify
  split_ifs <;> rfl

theorem toneTx_offset (t : Nat) (mem : CMem) :
    (toneTx t mem).offset = mem.offset := by
  unfold toneTx
  split_ifs <;> rfl

theorem toneRx_offset (u : Nat) (mem : CMem) :
    (toneRx u mem).offset = mem.offset := by
  unfold toneRx
  split_ifs <;> rfl

theorem toneClassify_offset (txm rxm : SideMode) (mem : CMem) :
    (toneClassify txm rxm mem).offset = mem.offset := by
  unfold toneClassify
  split_ifs <;> rfl

/-- _get_tone never touches the duplex field. -/
theorem getTone_duplex (t u : Nat) (mem : CMem) :
    (getTone t u mem).duplex = mem.duplex := by
  unfold getTone
  dsimp only
  split <;>
    simp only [toneClassify_duplex, toneRx_duplex, toneTx_duplex]

/-- _get_tone never touches the offset field. -/
theorem getTone_offset (t u : Nat) (mem : CMem) :
    (getTone t u mem).offset = mem.offset := by
  unfold getTone
  dsimp only
  split <;>
    simp only [toneClassify_offset, toneRx_offset, toneTx_offset]

/-- A record whose receive frequency field is not all-ones is not an
all-ones record. -/
theorem recAllFF_false_of_rxRawFF (r : Rec) (h : rxRawFF r = false) :
    recAllFF r = false := by
  unfold rxRawFF at h
  unfold recAllFF
  simp only [Bool.and_eq_false_iff, beq_eq_false_iff_ne, ne_eq] at h ⊢
  tauto

/-! ## Claim C5 -/

/-- C5: when get_memory decodes a non-empty channel (the stored receive
frequency is neither zero nor the all-ones sentinel), equal stored
receive and transmit values give duplex none with offset 0; a transmit
value below the receive value gives duplex minus; a transmit value
above gives duplex plus; in the unequal cases the offset is the
absolute difference of the stored tens-of-Hz values scaled by ten to
Hz. -/
theorem decode_duplex_offset (m : ModelName) (mem0 : CMem) (r : Rec)
    (sk : List Nat) (n : Nat) (h0 : rxfreqGet r ≠ 0)
    (h1 : rxRawFF r = false) :
    (rxfreqGet r = txfreqGet r →
      (getMem m mem0 r sk n).duplex = Duplex.simplex ∧
      (getMem m mem0 r sk n).offset = 0) ∧
    (txfreqGet r < rxfreqGet r →
      (getMem m mem0 r sk n).duplex = Duplex.minus ∧
      (getMem m mem0 r sk n).offset = (rxfreqGet r - txfreqGet r) * 10) ∧
    (rxfreqGet r < txfreqGet r →
      (getMem m mem0 r sk n).duplex = Duplex.plus ∧
      (getMem m mem0 r sk n).offset = (txfreqGet r - rxfreqGet r) * 10) := by
  have hall : recAllFF r = false := recAllFF_false_of_rxRawFF r h1
  unfold getMem
  rw [if_neg (by omega)]
  simp only [h1, hall, Bool.false_eq_true, if_false]
  refine ⟨fun hcmp => ?_, fun hcmp => ?_, fun hcmp => ?_⟩ <;>
    (constructor <;>
      (repeat' split) <;>
      (try simp only [getTone_duplex, getTone_offset]) <;>
      first | rfl | omega)



/-- C5 witness: the concrete record decodes with duplex plus and offset
400000 Hz on the RT29 VHF. -/
theorem decode_duplex_offset_witness :
    rxfreqGet recD5 ≠ 0 ∧ rxRawFF recD5 = false ∧
    (getMem ModelName.rt29v freshMem0 recD5 [0, 0] 1).duplex = Duplex.plus ∧
    (getMem ModelName.rt29v freshMem0 recD5 [0, 0] 1).offset = 400000 := by
  have h := decode_duplex_offset ModelName.rt29v freshMem0 recD5 [0, 0] 1
    (by decide) (by decide)
  have h2 := h.2.2 (by decide)
  exact ⟨by decide, by decide, h2.1, by rw [h2.2]; decide⟩

/-! ## Tone codec case lemmas -/


theorem decDigitsAsOct_lt (c : Nat) (h : validDcs c) :
    decDigitsAsOct c < 512 := by
  unfold validDcs at h
  unfold decDigitsAsOct
  omega

theorem oct_dec_roundtrip (c : Nat) (h : validDcs c) :
    octDigitsAsDec (decDigitsAsOct c) = c := by
  obtain ⟨h3, h2, h1, h0⟩ := h
  have ha : c / 100 < 8 := by omega
  have e1 : decDigitsAsOct c
      = c / 100 * 64 + c / 10 % 10 * 8 + c % 10 := by
    unfold decDigitsAsOct
    omega
  have h512 : (c / 100 * 64 + c / 10 % 10 * 8 + c % 10) / 512 = 0 := by
    omega
  have h64 : (c / 100 * 64 + c / 10 % 10 * 8 + c % 10) / 64 % 8 = c / 100 := by
    omega
  have h8 : (c / 100 * 64 + c / 10 % 10 * 8 + c % 10) / 8 % 8
      = c / 10 % 10 := by
    omega
  have hm : (c / 100 * 64 + c / 10 % 10 * 8 + c % 10) % 8 = c % 10 := by
    omega
  rw [e1]
  unfold octDigitsAsDec
  rw [h512, h64, h8, hm]
  omega

theorem dcsVal_dtcs_side (c : Nat) (p : Pol) (h : validDcs c) :
    8192 < dcsVal c p ∧ dcsVal c p ≠ 65535 := by
  have := decDigitsAsOct_lt c h
  unfold dcsVal
  cases p
  · rw [if_neg (by decide)]
    omega
  · rw [if_pos rfl]
    omega

theorem dcsVal_mod (c : Nat) (p : Pol) (h : validDcs c) :
    dcsVal c p % 2048 = decDigitsAsOct c % 2048 := by
  have := decDigitsAsOct_lt c h
  unfold dcsVal
  cases p
  · rw [if_neg (by decide)]
    omega
  · rw [if_pos rfl]
    omega

theorem dcsVal_code (c : Nat) (p : Pol) (h : validDcs c) :
    octDigitsAsDec (dcsVal c p % 2048) = c := by
  rw [dcsVal_mod c p h]
  have := decDigitsAsOct_lt c h
  rw [Nat.mod_eq_of_lt (by omega)]
  exact oct_dec_roundtrip c h

theorem dcsVal_pol (c : Nat) (p : Pol) (h : validDcs c) :
    tonePol (dcsVal c p) = p := by
  have := decDigitsAsOct_lt c h
  unfold tonePol dcsVal
  cases p
  · rw [show (if Pol.N = Pol.R then (32768 : Nat) else 0) = 0 from rfl]
    rw [if_neg (by omega)]
  · rw [show (if Pol.R = Pol.R then (32768 : Nat) else 0) = 32768 from rfl]
    rw [if_pos (by omega)]

theorem toneSideMode_none : toneSideMode 65535 = SideMode.sNone := by
  unfold toneSideMode
  rw [if_neg (by omega), if_neg (by omega)]

theorem toneSideMode_tone (t : Nat) (h : t ≤ 8192) :
    toneSideMode t = SideMode.sTone := by
  unfold toneSideMode
  rw [if_neg (by omega), if_pos (by omega)]

theorem toneSideMode_dtcs (t : Nat) (h1 : 8192 < t) (h2 : t ≠ 65535) :
    toneSideMode t = SideMode.sDtcs := by
  unfold toneSideMode
  rw [if_pos ⟨h2, h1⟩]

theorem toneTx_none (mem : CMem) : toneTx 65535 mem = mem := by
  unfold toneTx
  rw [if_neg (by omega), if_neg (by omega)]

theorem toneTx_tone (t : Nat) (mem : CMem) (h : t ≤ 8192) :
    toneTx t mem = { mem with rtone := t } := by
  unfold toneTx
  rw [if_neg (by omega), if_pos (by omega)]

theorem toneTx_dtcs (t : Nat) (mem : CMem) (h1 : 8192 < t) (h2 : t ≠ 65535) :
    toneTx t mem = { mem with dtcs := octDigitsAsDec (t % 2048) } := by
  unfold toneTx
  rw [if_pos ⟨h2, h1⟩]

theorem toneRx_none (mem : CMem) : toneRx 65535 mem = mem := by
  unfold toneRx
  rw [if_neg (by omega), if_neg (by omega)]

theorem toneRx_tone (u : Nat) (mem : CMem) (h : u ≤ 8192) :
    toneRx u mem = { mem with ctone := u } := by
  unfold toneRx
  rw [if_neg (by omega), if_pos (by omega)]

theorem toneRx_dtcs (u : Nat) (mem : CMem) (h1 : 8192 < u) (h2 : u ≠ 65535) :
    toneRx u mem = { mem with rxDtcs := octDigitsAsDec (u % 2048) } := by
  unfold toneRx
  rw [if_pos ⟨h2, h1⟩]

theorem toneClassify_nn (mem : CMem) :
    toneClassify SideMode.sNone SideMode.sNone mem = mem := by
  unfold toneClassify
  rw [if_neg (fun hc => absurd hc.1 (by decide)),
    if_neg (fun hc => absurd hc.2.1 (by decide)),
    if_neg (fun hc => absurd hc.2.1 (by decide)),
    if_neg (fun hc => hc.elim (absurd · (by decide)) (absurd · (by decide)))]

theorem toneClassify_tn (mem : CMem) :
    toneClassify SideMode.sTone SideMode.sNone mem
      = { mem with tmode := TMode.tone } := by
  unfold toneClassify
  rw [if_pos ⟨rfl, rfl⟩]

theorem toneClassify_tt_eq (mem : CMem) (h : mem.rtone = mem.ctone) :
    toneClassify SideMode.sTone SideMode.sTone mem
      = { mem with tmode := TMode.tsql } := by
  unfold toneClassify
  rw [if_neg (fun hc => absurd hc.2 (by decide)), if_pos ⟨rfl, rfl, h⟩]

theorem toneClassify_tt_ne (mem : CMem) (h : mem.rtone ≠ mem.ctone) :
    toneClassify SideMode.sTone SideMode.sTone mem
      = { mem with tmode := TMode.cross, crossMode := CrossMode.toneTone } := by
  unfold toneClassify
  rw [if_neg (fun hc => absurd hc.2 (by decide)),
    if_neg (fun hc => h hc.2.2),
    if_neg (fun hc => absurd hc.2.1 (by decide)),
    if_pos (Or.inl (by decide))]
  rfl

theorem toneClassify_dd_eq (mem : CMem) (h : mem.dtcs = mem.rxDtcs) :
    toneClassify SideMode.sDtcs SideMode.sDtcs mem
      = { mem with tmode := TMode.dtcs } := by
  unfold toneClassify
  rw [if_neg (fun hc => absurd hc.1 (by decide)),
    if_neg (fun hc => absurd hc.2.1 (by decide)),
    if_pos ⟨rfl, rfl, h⟩]

theorem toneClassify_dd_ne (mem : CMem) (h : mem.dtcs ≠ mem.rxDtcs) :
    toneClassify SideMode.sDtcs SideMode.sDtcs mem
      = { mem with tmode := TMode.cross, crossMode := CrossMode.dtcsDtcs } := by
  unfold toneClassify
  rw [if_neg (fun hc => absurd hc.1 (by decide)),
    if_neg (fun hc => absurd hc.2.1 (by decide)),
    if_neg (fun hc => h hc.2.2),
    if_pos (Or.inl (by decide))]
  rfl

theorem toneClassify_td (mem : CMem) :
    toneClassify SideMode.sTone SideMode.sDtcs mem
      = { mem with tmode := TMode.cross, crossMode := CrossMode.toneDtcs } := by
  unfold toneClassify
  rw [if_neg (fun hc => absurd hc.2 (by decide)),
    if_neg (fun hc => absurd hc.1 (by decide)),
    if_neg (fun hc => absurd hc.2.1 (by decide)),
    if_pos (Or.inl (by decide))]
  rfl

theorem toneClassify_dt (mem : CMem) :
    toneClassify SideMode.sDtcs SideMode.sTone mem
      = { mem with tmode := TMode.cross, crossMode := CrossMode.dtcsTone } := by
  unfold toneClassify
  rw [if_neg (fun hc => absurd hc.1 (by decide)),
    if_neg (fun hc => absurd hc.1 (by decide)),
    if_neg (fun hc => absurd hc.1 (by decide)),
    if_pos (Or.inl (by decide))]
  rfl

theorem toneClassify_nt (mem : CMem) :
    toneClassify SideMode.sNone SideMode.sTone mem
      = { mem with tmode := TMode.cross, crossMode := CrossMode.noneTone } := by
  unfold toneClassify
  rw [if_neg (fun hc => absurd hc.1 (by decide)),
    if_neg (fun hc => absurd hc.2.1 (by decide)),
    if_neg (fun hc => absurd hc.1 (by decide)),
    if_pos (Or.inl (by decide))]
  rfl

theorem toneClassify_nd (mem : CMem) :
    toneClassify SideMode.sNone SideMode.sDtcs mem
      = { mem with tmode := TMode.cross, crossMode := CrossMode.noneDtcs } := by
  unfold toneClassify
  rw [if_neg (fun hc => absurd hc.1 (by decide)),
    if_neg (fun hc => absurd hc.2.1 (by decide)),
    if_neg (fun hc => absurd hc.1 (by decide)),
    if_pos (Or.inl (by decide))]
  rfl

theorem toneClassify_dn (mem : CMem) :
    toneClassify SideMode.sDtcs SideMode.sNone mem
      = { mem with tmode := TMode.cross, crossMode := CrossMode.dtcsNone } := by
  unfold toneClassify
  rw [if_neg (fun hc => absurd hc.1 (by decide)),
    if_neg (fun hc => absurd hc.2.1 (by decide)),
    if_neg (fun hc => absurd hc.1 (by decide)),
    if_pos (Or.inr (by decide))]
  rfl

theorem getTone_case_none (mem : CMem) (h : mem.tmode ≠ TMode.dtcs) :
    getTone 65535 65535 mem = mem := by
  unfold getTone
  dsimp only
  rw [toneSideMode_none, toneTx_none, toneRx_none, toneClassify_nn,
    if_neg h]

theorem getTone_case_tone (t : Nat) (mem : CMem) (h : t ≤ 8192) :
    getTone t 65535 mem = { mem with tmode := TMode.tone, rtone := t } := by
  unfold getTone
  dsimp only
  rw [toneSideMode_tone t h, toneSideMode_none, toneTx_tone t mem h,
    toneRx_none, toneClassify_tn, if_neg (by simp)]

theorem getTone_case_tsql (t : Nat) (mem : CMem) (h : t ≤ 8192) :
    getTone t t mem
      = { mem with tmode := TMode.tsql, rtone := t, ctone := t } := by
  unfold getTone
  dsimp only
  rw [toneSideMode_tone t h, toneTx_tone t mem h, toneRx_tone t _ h,
    toneClassify_tt_eq _ rfl, if_neg (by simp)]

theorem getTone_case_dtcs (tv rv : Nat) (mem : CMem) (ht1 : 8192 < tv)
    (ht2 : tv ≠ 65535) (hr1 : 8192 < rv) (hr2 : rv ≠ 65535)
    (hcode : octDigitsAsDec (tv % 2048) = octDigitsAsDec (rv % 2048)) :
    getTone tv rv mem
      = { mem with tmode := TMode.dtcs, dtcs := octDigitsAsDec (tv % 2048),
                   rxDtcs := octDigitsAsDec (rv % 2048),
                   polTx := tonePol tv, polRx := tonePol rv } := by
  unfold getTone
  dsimp only
  rw [toneSideMode_dtcs tv ht1 ht2, toneSideMode_dtcs rv hr1 hr2,
    toneTx_dtcs tv mem ht1 ht2, toneRx_dtcs rv _ hr1 hr2,
    toneClassify_dd_eq _ hcode, if_pos rfl]

theorem getTone_case_toneTone (t u : Nat) (mem : CMem) (ht : t ≤ 8192)
    (hu : u ≤ 8192) (hne : t ≠ u) :
    getTone t u mem
      = { mem with tmode := TMode.cross, crossMode := CrossMode.toneTone,
                   rtone := t, ctone := u } := by
  unfold getTone
  dsimp only
  rw [toneSideMode_tone t ht, toneSideMode_tone u hu, toneTx_tone t mem ht,
    toneRx_tone u _ hu, toneClassify_tt_ne _ hne, if_neg (by simp)]

theorem getTone_case_toneDtcs (t rv : Nat) (mem : CMem) (ht : t ≤ 8192)
    (hr1 : 8192 < rv) (hr2 : rv ≠ 65535) :
    getTone t rv mem
      = { mem with tmode := TMode.cross, crossMode := CrossMode.toneDtcs,
                   rtone := t, rxDtcs := octDigitsAsDec (rv % 2048) } := by
  unfold getTone
  dsimp only
  rw [toneSideMode_tone t ht, toneSideMode_dtcs rv hr1 hr2,
    toneTx_tone t mem ht, toneRx_dtcs rv _ hr1 hr2, toneClassify_td,
    if_neg (by simp)]

theorem getTone_case_dtcsTone (tv u : Nat) (mem : CMem) (ht1 : 8192 < tv)
    (ht2 : tv ≠ 65535) (hu : u ≤ 8192) :
    getTone tv u mem
      = { mem with tmode := TMode.cross, crossMode := CrossMode.dtcsTone,
                   dtcs := octDigitsAsDec (tv % 2048), ctone := u } := by
  unfold getTone
  dsimp only
  rw [toneSideMode_dtcs tv ht1 ht2, toneSideMode_tone u hu,
    toneTx_dtcs tv mem ht1 ht2, toneRx_tone u _ hu, toneClassify_dt,
    if_neg (by simp)]

theorem getTone_case_noneTone (u : Nat) (mem : CMem) (hu : u ≤ 8192) :
    getTone 65535 u mem
      = { mem with tmode := TMode.cross, crossMode := CrossMode.noneTone,
                   ctone := u } := by
  unfold getTone
  dsimp only
  rw [toneSideMode_none, toneSideMode_tone u hu, toneTx_none,
    toneRx_tone u _ hu, toneClassify_nt, if_neg (by simp)]

theorem getTone_case_noneDtcs (rv : Nat) (mem : CMem) (hr1 : 8192 < rv)
    (hr2 : rv ≠ 65535) :
    getTone 65535 rv mem
      = { mem with tmode := TMode.cross, crossMode := CrossMode.noneDtcs,
                   rxDtcs := octDigitsAsDec (rv % 2048) } := by
  unfold getTone
  dsimp only
  rw [toneSideMode_none, toneSideMode_dtcs rv hr1 hr2, toneTx_none,
    toneRx_dtcs rv _ hr1 hr2, toneClassify_nd, if_neg (by simp)]

theorem getTone_case_dtcsNone (tv : Nat) (mem : CMem) (ht1 : 8192 < tv)
    (ht2 : tv ≠ 65535) :
    getTone tv 65535 mem
      = { mem with tmode := TMode.cross, crossMode := CrossMode.dtcsNone,
                   dtcs := octDigitsAsDec (tv % 2048) } := by
  unfold getTone
  dsimp only
  rw [toneSideMode_dtcs tv ht1 ht2, toneSideMode_none,
    toneTx_dtcs tv mem ht1 ht2, toneRx_none, toneClassify_dn,
    if_neg (by simp)]

theorem getTone_case_dtcsDtcs (tv rv : Nat) (mem : CMem) (ht1 : 8192 < tv)
    (ht2 : tv ≠ 65535) (hr1 : 8192 < rv) (hr2 : rv ≠ 65535)
    (hne : octDigitsAsDec (tv % 2048) ≠ octDigitsAsDec (rv % 2048)) :
    getTone tv rv mem
      = { mem with tmode := TMode.cross, crossMode := CrossMode.dtcsDtcs,
                   dtcs := octDigitsAsDec (tv % 2048),
                   rxDtcs := octDigitsAsDec (rv % 2048) } := by
  unfold getTone
  dsimp only
  rw [toneSideMode_dtcs tv ht1 ht2, toneSideMode_dtcs rv hr1 hr2,
    toneTx_dtcs tv mem ht1 ht2, toneRx_dtcs rv _ hr1 hr2,
    toneClassify_dd_ne _ hne, if_neg (by simp)]

/-! ## Claim C6 -/

/-- C6: _get_tone classifies the channel from the two 16-bit tone
fields (0xFFFF no tone, values above 0x2000 a DCS code read from the
low 11 bits plus the 0x8000 polarity bit, other values an analog tone
in tenths of Hz): a transmit tone alone gives mode Tone; equal analog
tones on both sides give TSQL; DCS on both sides with matching codes
gives DTCS with a per-side polarity pair; every other combination with
at least one non-empty side gives Cross with the transmit-to-receive
label — in particular transmit tone 1000 with receive DCS code 23
gives Cross with label Tone to DTCS. -/
theorem tone_decode_classification :
    (∀ (mem : CMem) (t : Nat), t ≤ 8192 →
      getTone t 65535 mem = { mem with tmode := TMode.tone, rtone := t }) ∧
    (∀ (mem : CMem) (t : Nat), t ≤ 8192 →
      getTone t t mem
        = { mem with tmode := TMode.tsql, rtone := t, ctone := t }) ∧
    (∀ (mem : CMem) (tv rv : Nat), 8192 < tv → tv ≠ 65535 → 8192 < rv →
      rv ≠ 65535 → octDigitsAsDec (tv % 2048) = octDigitsAsDec (rv % 2048) →
      getTone tv rv mem
        = { mem with tmode := TMode.dtcs, dtcs := octDigitsAsDec (tv % 2048),
                     rxDtcs := octDigitsAsDec (rv % 2048),
                     polTx := tonePol tv, polRx := tonePol rv }) ∧
    (∀ (mem : CMem) (t u : Nat), t ≤ 8192 → u ≤ 8192 → t ≠ u →
      getTone t u mem
        = { mem with tmode := TMode.cross, crossMode := CrossMode.toneTone,
                     rtone := t, ctone := u }) ∧
    (∀ (mem : CMem) (t rv : Nat), t ≤ 8192 → 8192 < rv → rv ≠ 65535 →
      getTone t rv mem
        = { mem with tmode := TMode.cross, crossMode := CrossMode.toneDtcs,
                     rtone := t, rxDtcs := octDigitsAsDec (rv % 2048) }) ∧
    (∀ (mem : CMem) (tv u : Nat), 8192 < tv → tv ≠ 65535 → u ≤ 8192 →
      getTone tv u mem
        = { mem with tmode := TMode.cross, crossMode := CrossMode.dtcsTone,
                     dtcs := octDigitsAsDec (tv % 2048), ctone := u }) ∧
    (∀ (mem : CMem) (u : Nat), u ≤ 8192 →
      getTone 65535 u mem
        = { mem with tmode := TMode.cross, crossMode := CrossMode.noneTone,
                     ctone := u }) ∧
    (∀ (mem : CMem) (rv : Nat), 8192 < rv → rv ≠ 65535 →
      getTone 65535 rv mem
        = { mem with tmode := TMode.cross, crossMode := CrossMode.noneDtcs,
                     rxDtcs := octDigitsAsDec (rv % 2048) }) ∧
    (∀ (mem : CMem) (tv : Nat), 8192 < tv → tv ≠ 65535 →
      getTone tv 65535 mem
        = { mem with tmode := TMode.cross, crossMode := CrossMode.dtcsNone,
                     dtcs := octDigitsAsDec (tv % 2048) }) ∧
    (∀ (mem : CMem) (tv rv : Nat), 8192 < tv → tv ≠ 65535 → 8192 < rv →
      rv ≠ 65535 → octDigitsAsDec (tv % 2048) ≠ octDigitsAsDec (rv % 2048) →
      getTone tv rv mem
        = { mem with tmode := TMode.cross, crossMode := CrossMode.dtcsDtcs,
                     dtcs := octDigitsAsDec (tv % 2048),
                     rxDtcs := octDigitsAsDec (rv % 2048) }) ∧
    getTone 1000 (dcsVal 23 Pol.N) freshMem0
      = { freshMem0 with tmode := TMode.cross,
                         crossMode := CrossMode.toneDtcs,
                         rtone := 1000, rxDtcs := 23 } := by
  refine ⟨fun mem t h => getTone_case_tone t mem h,
    fun mem t h => getTone_case_tsql t mem h,
    fun mem tv rv h1 h2 h3 h4 h5 => getTone_case_dtcs tv rv mem h1 h2 h3 h4 h5,
    fun mem t u h1 h2 h3 => getTone_case_toneTone t u mem h1 h2 h3,
    fun mem t rv h1 h2 h3 => getTone_case_toneDtcs t rv mem h1 h2 h3,
    fun mem tv u h1 h2 h3 => getTone_case_dtcsTone tv u mem h1 h2 h3,
    fun mem u h => getTone_case_noneTone u mem h,
    fun mem rv h1 h2 => getTone_case_noneDtcs rv mem h1 h2,
    fun mem tv h1 h2 => getTone_case_dtcsNone tv mem h1 h2,
    fun mem tv rv h1 h2 h3 h4 h5 =>
      getTone_case_dtcsDtcs tv rv mem h1 h2 h3 h4 h5,
    by decide⟩

/-- C6 witness: the general classification at concrete values — tone
1000 alone gives Tone, 1000 on both sides gives TSQL, DCS 23 both
sides gives DTCS with polarity NR when the receive side carries the
inverted bit. -/
theorem tone_decode_classification_witness :
    getTone 1000 65535 freshMem0
      = { freshMem0 with tmode := TMode.tone, rtone := 1000 } ∧
    getTone 1000 1000 freshMem0
      = { freshMem0 with tmode := TMode.tsql, rtone := 1000,
                         ctone := 1000 } ∧
    getTone (dcsVal 23 Pol.N) (dcsVal 23 Pol.R) freshMem0
      = { freshMem0 with tmode := TMode.dtcs, dtcs := 23, rxDtcs := 23,
                         polTx := Pol.N, polRx := Pol.R } := by
  have h := tone_decode_classification
  refine ⟨h.1 freshMem0 1000 (by decide), h.2.1 freshMem0 1000 (by decide), ?_⟩
  have h3 := h.2.2.1 freshMem0 (dcsVal 23 Pol.N) (dcsVal 23 Pol.R)
    (by decide) (by decide) (by decide) (by decide) (by decide)
  rw [h3]
  decide

/-! ## Transport lemmas -/

theorem wireRead_writes (n : Nat) (w : Wire) :
    (wireRead n w).2.writes = w.writes := by
  rcases w with ⟨s, ws⟩
  cases s <;> rfl

theorem wireWrite_writes (bs : List Nat) (w : Wire) :
    (wireWrite bs w).writes = w.writes ++ [bs] := rfl

theorem count_append_ne (l : List (List Nat)) (a b : List Nat) (h : b ≠ a) :
    (l ++ [b]).count a = l.count a := by
  rw [List.count_append]
  simp [List.count_singleton, h]

theorem cons82_ne (l : List Nat) : (82 :: l) ≠ [69] := by simp

theorem cons87_ne (l : List Nat) : (87 :: l) ≠ [69] := by simp

theorem enterAttempts_magic (r : Radio) (k : Nat) (w : Wire) :
    ((enterAttempts r k w).2).writes.count r.magic
      ≤ w.writes.count r.magic + k := by
  induction k generalizing w with
  | zero => simp [enterAttempts]
  | succ k ih =>
    unfold enterAttempts
    dsimp only
    by_cases h0 : (wireRead 1 (wireWrite r.magic w)).1 = [0]
    · rw [if_pos h0]
      split
      · simp only [wireRead_writes, wireWrite_writes, List.count_append]
        simp [List.count_singleton]
      · have := ih ((wireRead 1 (wireRead 1 (wireWrite r.magic w)).2).2)
        simp only [wireRead_writes, wireWrite_writes,
          List.count_append] at this ⊢
        simp [List.count_singleton] at this ⊢
        omega
    · rw [if_neg h0]
      split
      · simp only [wireRead_writes, wireWrite_writes, List.count_append]
        simp [List.count_singleton]
      · have := ih ((wireRead 1 (wireWrite r.magic w)).2)
        simp only [wireRead_writes, wireWrite_writes,
          List.count_append] at this ⊢
        simp [List.count_singleton] at this ⊢
        omega

theorem enterProg_magic_le (m : ModelName) (script : List (List Nat)) :
    ((enterProg (radioOf m) ⟨script, []⟩).2).writes.count (radioOf m).magic
      ≤ 5 := by
  have hm2 : ([2] : List Nat) ≠ (radioOf m).magic := by cases m <;> decide
  have hm6 : ([6] : List Nat) ≠ (radioOf m).magic := by cases m <;> decide
  have hatt := enterAttempts_magic (radioOf m) 5 ⟨script, []⟩
  unfold enterProg
  rcases henter : enterAttempts (radioOf m) 5 ⟨script, []⟩ with ⟨b, w1⟩
  rw [henter] at hatt
  simp only [List.count_nil, Nat.zero_add] at hatt
  cases b
  · exact hatt
  · dsimp only
    split
    · simp only [wireRead_writes, wireWrite_writes]
      rw [count_append_ne _ _ _ hm2]
      exact hatt
    · split <;>
      · simp only [wireRead_writes, wireWrite_writes]
        rw [count_append_ne _ _ _ hm6, count_append_ne _ _ _ hm2]
        exact hatt

theorem enterAttempts_countE (r : Radio) (k : Nat) (w : Wire)
    (hm : r.magic ≠ [69]) :
    ((enterAttempts r k w).2).writes.count [69] = w.writes.count [69] := by
  induction k generalizing w with
  | zero => rfl
  | succ k ih =>
    unfold enterAttempts
    dsimp only
    by_cases h0 : (wireRead 1 (wireWrite r.magic w)).1 = [0]
    · rw [if_pos h0]
      split
      · simp only [wireRead_writes, wireWrite_writes]
        rw [count_append_ne _ _ _ hm]
      · have := ih ((wireRead 1 (wireRead 1 (wireWrite r.magic w)).2).2)
        simp only [wireRead_writes, wireWrite_writes] at this
        rw [count_append_ne _ _ _ hm] at this
        exact this
    · rw [if_neg h0]
      split
      · simp only [wireRead_writes, wireWrite_writes]
        rw [count_append_ne _ _ _ hm]
      · have := ih ((wireRead 1 (wireWrite r.magic w)).2)
        simp only [wireRead_writes, wireWrite_writes] at this
        rw [count_append_ne _ _ _ hm] at this
        exact this

theorem enterProg_countE (r : Radio) (w : Wire) (hm : r.magic ≠ [69]) :
    ((enterProg r w).2).writes.count [69] = w.writes.count [69] := by
  have hatt := enterAttempts_countE r 5 w hm
  unfold enterProg
  rcases henter : enterAttempts r 5 w with ⟨b, w1⟩
  rw [henter] at hatt
  cases b
  · exact hatt
  · dsimp only
    split
    · simp only [wireRead_writes, wireWrite_writes]
      rw [count_append_ne _ _ _ (by decide)]
      exact hatt
    · split <;>
      · simp only [wireRead_writes, wireWrite_writes]
        rw [count_append_ne _ _ _ (by decide), count_append_ne _ _ _ (by decide)]
        exact hatt

theorem readBlock_countE (r : Radio) (addr : Nat) (w : Wire) :
    ((readBlock r addr w).2).writes.count [69] = w.writes.count [69] := by
  unfold readBlock
  dsimp only
  split
  · simp only [wireRead_writes, wireWrite_writes]
    rw [count_append_ne _ _ _ (cons82_ne _)]
  · split <;>
    · simp only [wireRead_writes, wireWrite_writes]
      rw [count_append_ne _ _ _ (by decide), count_append_ne _ _ _ (cons82_ne _)]

theorem rb26ReadBlock_countE (r : Radio) (addr : Nat) (w : Wire) :
    ((rb26ReadBlock r addr w).2).writes.count [69] = w.writes.count [69] := by
  unfold rb26ReadBlock
  dsimp only
  split
  · simp only [wireRead_writes, wireWrite_writes]
    rw [count_append_ne _ _ _ (cons82_ne _)]
  · split
    · split <;>
      · simp only [wireRead_writes, wireWrite_writes]
        rw [count_append_ne _ _ _ (by decide),
          count_append_ne _ _ _ (cons82_ne _)]
    · simp only [wireRead_writes, wireWrite_writes]
      rw [count_append_ne _ _ _ (cons82_ne _)]

theorem writeBlock_countE (r : Radio) (img : List Nat) (addr : Nat)
    (w : Wire) :
    ((writeBlock r img addr w).2).writes.count [69]
      = w.writes.count [69] := by
  unfold writeBlock
  dsimp only
  split <;>
  · simp only [wireRead_writes, wireWrite_writes]
    rw [count_append_ne _ _ _ (by simp)]

theorem dlLoop_countE (r : Radio) (addrs : List Nat) (acc : List Nat)
    (w : Wire) :
    ((dlLoop r addrs acc w).2).writes.count [69] = w.writes.count [69] := by
  induction addrs generalizing acc w with
  | nil => rfl
  | cons a rest ih =>
    unfold dlLoop
    dsimp only
    split
    · next e w1 heq =>
        by_cases hc : r.model = ModelName.rb26 ∨ r.model = ModelName.rt76
        · rw [if_pos hc] at heq
          have hcount := rb26ReadBlock_countE r a w
          rw [heq] at hcount
          exact hcount
        · rw [if_neg hc] at heq
          have hcount := readBlock_countE r a w
          rw [heq] at hcount
          exact hcount
    · next b w1 heq =>
        rw [ih]
        by_cases hc : r.model = ModelName.rb26 ∨ r.model = ModelName.rt76
        · rw [if_pos hc] at heq
          have hcount := rb26ReadBlock_countE r a w
          rw [heq] at hcount
          exact hcount
        · rw [if_neg hc] at heq
          have hcount := readBlock_countE r a w
          rw [heq] at hcount
          exact hcount

theorem ulLoop_countE (r : Radio) (img : List Nat) (addrs : List Nat)
    (w : Wire) :
    ((ulLoop r img addrs w).2).writes.count [69] = w.writes.count [69] := by
  induction addrs generalizing w with
  | nil => rfl
  | cons a rest ih =>
    unfold ulLoop
    split
    · next e w1 heq =>
        have hcount := writeBlock_countE r img a w
        rw [heq] at hcount
        exact hcount
    · next w1 heq =>
        rw [ih]
        have hcount := writeBlock_countE r img a w
        rw [heq] at hcount
        exact hcount

/-! ## Claim C4 -/

/-- C4: the handshake transmits the magic at most five times on any
transport behaviour; a transport that withholds the ACK on the first
three attempts, then answers a null byte followed by the ACK on the
fourth, succeeds after exactly four transmissions (the null byte is
discarded and one further byte is read); a transport that withholds
the ACK on all five attempts makes the whole download fail with the
handshake error after exactly five magic transmissions and nothing
else written — in particular no block-read command is ever issued. -/
theorem enter_programming_mode_contract :
    (∀ (m : ModelName) (script : List (List Nat)),
      ((enterProg (radioOf m) ⟨script, []⟩).2).writes.count
        (radioOf m).magic ≤ 5) ∧
    enterProg (radioOf ModelName.rt21)
      ⟨[[170], [170], [170], [0], [6],
        [80, 51, 50, 48, 55, 115, 248, 255], [6]], []⟩
      = (none,
        ⟨[], [[80, 82, 77, 90, 85, 78, 69], [80, 82, 77, 90, 85, 78, 69],
              [80, 82, 77, 90, 85, 78, 69], [80, 82, 77, 90, 85, 78, 69],
              [2], [6]]⟩) ∧
    (do_download (radioOf ModelName.rt21)
      ⟨[[170], [170], [170], [170], [170],
        87 :: 0 :: 0 :: 16 :: List.replicate 16 0, [6]], []⟩).1
      = Except.error RErr.handshake ∧
    (do_download (radioOf ModelName.rt21)
      ⟨[[170], [170], [170], [170], [170],
        87 :: 0 :: 0 :: 16 :: List.replicate 16 0, [6]], []⟩).2.writes
      = [[80, 82, 77, 90, 85, 78, 69], [80, 82, 77, 90, 85, 78, 69],
         [80, 82, 77, 90, 85, 78, 69], [80, 82, 77, 90, 85, 78, 69],
         [80, 82, 77, 90, 85, 78, 69]] := by
  refine ⟨enterProg_magic_le, by decide, by rfl, by decide⟩

/-! ## Claim C1 -/



/-- C1 counterexample: a transport failing on the third block of the
RT21 download propagates the block-read error, and the termination
byte E is written zero times, not exactly once — do_download has no
cleanup path that exits programming mode on error. -/
theorem download_midfail_no_exit_byte :
    (do_download (radioOf ModelName.rt21) ⟨dlScriptFail, []⟩).1
      = Except.error (RErr.blockRead 32) ∧
    ((do_download (radioOf ModelName.rt21) ⟨dlScriptFail, []⟩).2).writes.count
      [69] = 0 ∧
    ((do_download (radioOf ModelName.rt21) ⟨dlScriptFail, []⟩).2).writes.count
      [69] ≠ 1 := by
  refine ⟨by rfl, by decide, by decide⟩

/-- C1 amended: for every model and every transport behaviour, the
exit-programming byte E is written exactly once when the download or
the upload completes, and zero times when any error propagates — the
error is raised without attempting to exit programming mode. -/
theorem download_upload_exit_byte_count (m : ModelName)
    (script : List (List Nat)) (image : List Nat) :
    (((do_download (radioOf m) ⟨script, []⟩).2).writes.count [69]
      = match (do_download (radioOf m) ⟨script, []⟩).1 with
        | Except.ok _ => 1
        | Except.error _ => 0) ∧
    (((do_upload (radioOf m) image ⟨script, []⟩).2).writes.count [69]
      = match (do_upload (radioOf m) image ⟨script, []⟩).1 with
        | none => 1
        | some _ => 0) := by
  have hm : (radioOf m).magic ≠ [69] := by cases m <;> decide
  constructor
  · unfold do_download
    rcases hE : enterProg (radioOf m) ⟨script, []⟩ with ⟨oe, w1⟩
    have h1 : w1.writes.count [69] = 0 := by
      have := enterProg_countE (radioOf m) ⟨script, []⟩ hm
      rw [hE] at this
      simpa using this
    cases oe
    · dsimp only
      rcases hloop : dlLoop (radioOf m) (dlAddrs (radioOf m)) [] w1
        with ⟨res2, w2⟩
      have h2 : w2.writes.count [69] = 0 := by
        have := dlLoop_countE (radioOf m) (dlAddrs (radioOf m)) [] w1
        rw [hloop] at this
        rw [this]
        exact h1
      cases res2
      · exact h2
      · dsimp only [exitProg]
        rw [wireWrite_writes, List.count_append]
        simp [h2]
    · exact h1
  · unfold do_upload
    rcases hE : enterProg (radioOf m) ⟨script, []⟩ with ⟨oe, w1⟩
    have h1 : w1.writes.count [69] = 0 := by
      have := enterProg_countE (radioOf m) ⟨script, []⟩ hm
      rw [hE] at this
      simpa using this
    cases oe
    · dsimp only
      rcases hloop : ulLoop (radioOf m) image (ulAddrs (radioOf m)) w1
        with ⟨res2, w2⟩
      have h2 : w2.writes.count [69] = 0 := by
        have := ulLoop_countE (radioOf m) image (ulAddrs (radioOf m)) w1
        rw [hloop] at this
        rw [this]
        exact h1
      cases res2
      · dsimp only [exitProg]
        rw [wireWrite_writes, List.count_append]
        simp [h2]
      · exact h2
    · exact h1

/-! ## Claim C2 -/

/-- C2 counterexample: on the GMRS-restricted RB17A, writing an empty
channel 1 and decoding it back does not give an empty channel — the
empty-channel write forces the receive frequency to the channel's GMRS
assignment, so the decoder sees a non-zero, non-sentinel frequency and
returns a non-empty channel at 462.5625 MHz. -/
theorem gmrs_empty_write_decodes_nonempty :
    (getMem ModelName.rb17a freshMem0
      (setMem ModelName.rb17a { freshMem0 with number := 1, empty := true }
        recZero [0, 0, 0, 0]).1
      (setMem ModelName.rb17a { freshMem0 with number := 1, empty := true }
        recZero [0, 0, 0, 0]).2 1).empty = false ∧
    (getMem ModelName.rb17a freshMem0
      (setMem ModelName.rb17a { freshMem0 with number := 1, empty := true }
        recZero [0, 0, 0, 0]).1
      (setMem ModelName.rb17a { freshMem0 with number := 1, empty := true }
        recZero [0, 0, 0, 0]).2 1).freq = 462562500 := by
  refine ⟨by decide, by decide⟩

/-- C2 amended: for the models without the GMRS restriction (RT21 and
both RT29 variants) writing an empty channel and decoding it back
yields an empty channel, for every channel number, prior record
content and skip-flag state; for the GMRS-restricted variants the
empty-channel write forces the record frequency to the channel's fixed
assignment and, in the 8-14 range, narrow bandwidth and low power, so
the decoder reports a non-empty channel instead (concrete RB17A
channel 10 shown). -/
theorem empty_write_roundtrip_amended (c : CMem) (prior : Rec)
    (sk : List Nat) (mem0 : CMem) (n : Nat) (hc : c.empty = true) :
    (getMem ModelName.rt21 mem0 (setMem ModelName.rt21 c prior sk).1
      (setMem ModelName.rt21 c prior sk).2 n).empty = true ∧
    (getMem ModelName.rt29u mem0 (setMem ModelName.rt29u c prior sk).1
      (setMem ModelName.rt29u c prior sk).2 n).empty = true ∧
    (getMem ModelName.rt29v mem0 (setMem ModelName.rt29v c prior sk).1
      (setMem ModelName.rt29v c prior sk).2 n).empty = true ∧
    rxfreqGet (setMem ModelName.rb17a
      { freshMem0 with number := 10, empty := true } recZero [0, 0, 0, 0]).1
      = gmrsFreqT 10 ∧
    wideGet ModelName.rb17a (setMem ModelName.rb17a
      { freshMem0 with number := 10, empty := true } recZero [0, 0, 0, 0]).1
      = 0 ∧
    highpowerGet ModelName.rb17a (setMem ModelName.rb17a
      { freshMem0 with number := 10, empty := true } recZero [0, 0, 0, 0]).1
      = 0 ∧
    (getMem ModelName.rb17a freshMem0 (setMem ModelName.rb17a
      { freshMem0 with number := 10, empty := true } recZero [0, 0, 0, 0]).1
      (setMem ModelName.rb17a { freshMem0 with number := 10, empty := true }
        recZero [0, 0, 0, 0]).2 10).empty = false := by
  refine ⟨?_, ?_, ?_, by decide, by decide, by decide, by decide⟩ <;>
  · unfold setMem
    rw [if_pos hc]
    dsimp only
    rw [if_neg (by decide)]
    have he : ∀ p : Rec,
        emptyFill ModelName.rt21 p
          = Rec.mk 255 255 255 255 255 255 255 255 255 255 255 255 255 255
              255 255 ∧
        emptyFill ModelName.rt29u p
          = Rec.mk 255 255 255 255 255 255 255 255 255 255 255 255 255 255
              255 255 ∧
        emptyFill ModelName.rt29v p
          = Rec.mk 255 255 255 255 255 255 255 255 255 255 255 255 255 255
              255 255 := fun p => ⟨rfl, rfl, rfl⟩
    first
      | rw [(he prior).1]
      | rw [(he prior).2.1]
      | rw [(he prior).2.2]
    unfold getMem
    rw [if_neg (by decide), if_pos (by decide)]

/-- C2 amended witness: a concrete empty channel on the RT21. -/
theorem empty_write_roundtrip_amended_witness :
    ({ freshMem0 with number := 1, empty := true } : CMem).empty = true ∧
    (getMem ModelName.rt21 freshMem0
      (setMem ModelName.rt21 { freshMem0 with number := 1, empty := true }
        recZero [0, 0]).1
      (setMem ModelName.rt21 { freshMem0 with number := 1, empty := true }
        recZero [0, 0]).2 1).empty = true :=
  ⟨rfl, (empty_write_roundtrip_amended
    { freshMem0 with number := 1, empty := true } recZero [0, 0] freshMem0 1
    rfl).1⟩

/-! ## Round-trip helper lemmas -/

theorem cmem_ext (a b : CMem) (h1 : a.number = b.number)
    (h2 : a.empty = b.empty) (h3 : a.freq = b.freq)
    (h4 : a.duplex = b.duplex) (h5 : a.offset = b.offset)
    (h6 : a.wide = b.wide) (h7 : a.tmode = b.tmode)
    (h8 : a.rtone = b.rtone) (h9 : a.ctone = b.ctone)
    (h10 : a.dtcs = b.dtcs) (h11 : a.rxDtcs = b.rxDtcs)
    (h12 : a.polTx = b.polTx) (h13 : a.polRx = b.polRx)
    (h14 : a.crossMode = b.crossMode) (h15 : a.power = b.power)
    (h16 : a.skipS = b.skipS) (h17 : a.extra = b.extra) : a = b := by
  cases a
  cases b
  simp only at h1 h2 h3 h4 h5 h6 h7 h8 h9 h10 h11 h12 h13 h14 h15 h16 h17
  subst h1 h2 h3 h4 h5 h6 h7 h8 h9 h10 h11 h12 h13 h14 h15 h16 h17
  rfl

theorem bcd4_roundtrip (v : Nat) (h : v < 100000000) :
    decBcd (encBcd (v % 100)) + decBcd (encBcd (v / 100 % 100)) * 100
      + decBcd (encBcd (v / 10000 % 100)) * 10000
      + decBcd (encBcd (v / 1000000 % 100)) * 1000000 = v := by
  rw [dec_enc_bcd _ (by omega), dec_enc_bcd _ (by omega),
    dec_enc_bcd _ (by omega), dec_enc_bcd _ (by omega)]
  omega

theorem ul16_reassemble (v : Nat) (h : v < 65536) :
    v % 256 + v / 256 % 256 * 256 = v := by
  omega

theorem encBcd_ne255 (x : Nat) : (encBcd (x % 100) == 255) = false := by
  simp only [beq_eq_false_iff_ne, ne_eq]
  unfold encBcd
  omega

theorem skip_decode_eq (n : Nat) (s : Bool) (sk : List Nat)
    (h2 : (n - 1) / 8 < sk.length) :
    decide ((skipUpdate n s sk).getD ((n - 1) / 8) 0
      / 2 ^ ((n - 1) % 8) % 2 = 0) = s := by
  have h := skipUpdate_target_bit n s sk h2
  rw [Nat.testBit_to_div_mod] at h
  cases s <;> simp only [Bool.not_true, Bool.not_false] at h <;>
    simp only [decide_eq_true_eq, decide_eq_false_iff_not] at h ⊢ <;>
    omega

/-! ## Byte-region commutation lemmas for the encode chain -/

theorem applyExtras_low (m : ModelName) (e : Extras) (r : Rec) :
    (applyExtras m e r).b0 = r.b0 ∧ (applyExtras m e r).b1 = r.b1 ∧
    (applyExtras m e r).b2 = r.b2 ∧ (applyExtras m e r).b3 = r.b3 ∧
    (applyExtras m e r).b4 = r.b4 ∧ (applyExtras m e r).b5 = r.b5 ∧
    (applyExtras m e r).b6 = r.b6 ∧ (applyExtras m e r).b7 = r.b7 ∧
    (applyExtras m e r).b8 = r.b8 ∧ (applyExtras m e r).b9 = r.b9 ∧
    (applyExtras m e r).b10 = r.b10 ∧ (applyExtras m e r).b11 = r.b11 := by
  rcases e with ⟨eb, es, ec, eo⟩
  cases eo <;> cases ec <;> cases es <;> cases eb <;> cases m <;>
    simp [applyExtras, bclSet, scrambleSet, scramble2Set, cdcssSet,
      companderSet]

theorem rxfreqGet_txfreqSet (v : Nat) (r : Rec) :
    rxfreqGet (txfreqSet v r) = rxfreqGet r := rfl

theorem rxfreqGet_txfreqRawFF (r : Rec) :
    rxfreqGet (txfreqRawFF r) = rxfreqGet r := rfl

theorem rxfreqGet_wideSet (m : ModelName) (v : Nat) (r : Rec) :
    rxfreqGet (wideSet m v r) = rxfreqGet r := by cases m <;> rfl

theorem rxfreqGet_rxToneSet (v : Nat) (r : Rec) :
    rxfreqGet (rxToneSet v r) = rxfreqGet r := rfl

theorem rxfreqGet_txToneSet (v : Nat) (r : Rec) :
    rxfreqGet (txToneSet v r) = rxfreqGet r := rfl

theorem rxfreqGet_highpowerSet (m : ModelName) (v : Nat) (r : Rec) :
    rxfreqGet (highpowerSet m v r) = rxfreqGet r := by cases m <;> rfl

theorem rxfreqGet_txpowerSet (v : Nat) (r : Rec) :
    rxfreqGet (txpowerSet v r) = rxfreqGet r := rfl

theorem rxfreqGet_applyExtras (m : ModelName) (e : Extras) (r : Rec) :
    rxfreqGet (applyExtras m e r) = rxfreqGet r := by
  have h := applyExtras_low m e r
  unfold rxfreqGet
  rw [h.1, h.2.1, h.2.2.1, h.2.2.2.1]

theorem rxRawFF_txfreqSet (v : Nat) (r : Rec) :
    rxRawFF (txfreqSet v r) = rxRawFF r := rfl

theorem rxRawFF_txfreqRawFF (r : Rec) :
    rxRawFF (txfreqRawFF r) = rxRawFF r := rfl

theorem rxRawFF_wideSet (m : ModelName) (v : Nat) (r : Rec) :
    rxRawFF (wideSet m v r) = rxRawFF r := by cases m <;> rfl

theorem rxRawFF_rxToneSet (v : Nat) (r : Rec) :
    rxRawFF (rxToneSet v r) = rxRawFF r := rfl

theorem rxRawFF_txToneSet (v : Nat) (r : Rec) :
    rxRawFF (txToneSet v r) = rxRawFF r := rfl

theorem rxRawFF_highpowerSet (m : ModelName) (v : Nat) (r : Rec) :
    rxRawFF (highpowerSet m v r) = rxRawFF r := by cases m <;> rfl

theorem rxRawFF_txpowerSet (v : Nat) (r : Rec) :
    rxRawFF (txpowerSet v r) = rxRawFF r := rfl

theorem rxRawFF_applyExtras (m : ModelName) (e : Extras) (r : Rec) :
    rxRawFF (applyExtras m e r) = rxRawFF r := by
  have h := applyExtras_low m e r
  unfold rxRawFF
  rw [h.1, h.2.1, h.2.2.1, h.2.2.2.1]

theorem rxRawFF_rxfreqSet (v : Nat) (r : Rec) :
    rxRawFF (rxfreqSet v r) = false := by
  unfold rxRawFF rxfreqSet
  dsimp only
  rw [encBcd_ne255, Bool.false_and, Bool.false_and, Bool.false_and]

theorem txfreqGet_wideSet (m : ModelName) (v : Nat) (r : Rec) :
    txfreqGet (wideSet m v r) = txfreqGet r := by cases m <;> rfl

theorem txfreqGet_rxToneSet (v : Nat) (r : Rec) :
    txfreqGet (rxToneSet v r) = txfreqGet r := rfl

theorem txfreqGet_txToneSet (v : Nat) (r : Rec) :
    txfreqGet (txToneSet v r) = txfreqGet r := rfl

theorem txfreqGet_highpowerSet (m : ModelName) (v : Nat) (r : Rec) :
    txfreqGet (highpowerSet m v r) = txfreqGet r := by cases m <;> rfl

theorem txfreqGet_txpowerSet (v : Nat) (r : Rec) :
    txfreqGet (txpowerSet v r) = txfreqGet r := rfl

theorem txfreqGet_applyExtras (m : ModelName) (e : Extras) (r : Rec) :
    txfreqGet (applyExtras m e r) = txfreqGet r := by
  have h := applyExtras_low m e r
  unfold txfreqGet
  rw [h.2.2.2.2.1, h.2.2.2.2.2.1, h.2.2.2.2.2.2.1, h.2.2.2.2.2.2.2.1]

theorem wideGet_rxToneSet (m : ModelName) (v : Nat) (r : Rec) :
    wideGet m (rxToneSet v r) = wideGet m r := by cases m <;> rfl

theorem wideGet_txToneSet (m : ModelName) (v : Nat) (r : Rec) :
    wideGet m (txToneSet v r) = wideGet m r := by cases m <;> rfl

theorem wideGet_highpowerSet (m : ModelName) (v : Nat) (r : Rec) :
    wideGet m (highpowerSet m v r) = wideGet m r := by
  cases m <;> dsimp only [wideGet, highpowerSet] <;>
    simp [bf_get_set_above, bf_get_set_below]

theorem wideGet_txpowerSet (m : ModelName) (v : Nat) (r : Rec) :
    wideGet m (txpowerSet v r) = wideGet m r := by
  cases m <;> dsimp only [wideGet, txpowerSet] <;>
    first
      | rfl
      | simp [bf_get_set_above, bf_get_set_below]

theorem wideGet_applyExtras (m : ModelName) (e : Extras) (r : Rec) :
    wideGet m (applyExtras m e r) = wideGet m r := by
  rcases e with ⟨eb, es, ec, eo⟩
  cases eo <;> cases ec <;> cases es <;> cases eb <;> cases m <;>
    dsimp only [applyExtras, wideGet, bclSet, scrambleSet, scramble2Set,
      cdcssSet, companderSet] <;>
    first
      | rfl
      | simp [bf_get_set_above, bf_get_set_below]

theorem wideGet_wideSet (m : ModelName) (v : Nat) (r : Rec) :
    wideGet m (wideSet m v r) = v % 2 := by
  cases m <;> dsimp only [wideGet, wideSet] <;>
    simp [bf_get_set_self]

theorem rxToneGet_txToneSet (v : Nat) (r : Rec) :
    rxToneGet (txToneSet v r) = rxToneGet r := rfl

theorem rxToneGet_highpowerSet (m : ModelName) (v : Nat) (r : Rec) :
    rxToneGet (highpowerSet m v r) = rxToneGet r := by cases m <;> rfl

theorem rxToneGet_txpowerSet (v : Nat) (r : Rec) :
    rxToneGet (txpowerSet v r) = rxToneGet r := rfl

theorem rxToneGet_applyExtras (m : ModelName) (e : Extras) (r : Rec) :
    rxToneGet (applyExtras m e r) = rxToneGet r := by
  have h := applyExtras_low m e r
  unfold rxToneGet
  rw [h.2.2.2.2.2.2.2.2.1, h.2.2.2.2.2.2.2.2.2.1]

theorem txToneGet_highpowerSet (m : ModelName) (v : Nat) (r : Rec) :
    txToneGet (highpowerSet m v r) = txToneGet r := by cases m <;> rfl

theorem txToneGet_txpowerSet (v : Nat) (r : Rec) :
    txToneGet (txpowerSet v r) = txToneGet r := rfl

theorem txToneGet_applyExtras (m : ModelName) (e : Extras) (r : Rec) :
    txToneGet (applyExtras m e r) = txToneGet r := by
  have h := applyExtras_low m e r
  unfold txToneGet
  rw [h.2.2.2.2.2.2.2.2.2.2.1, h.2.2.2.2.2.2.2.2.2.2.2]

theorem highpowerGet_highpowerSet (m : ModelName) (v : Nat) (r : Rec) :
    highpowerGet m (highpowerSet m v r) = v % 2 := by
  cases m <;> dsimp only [highpowerGet, highpowerSet] <;>
    simp [bf_get_set_self]

theorem highpowerGet_applyExtras (m : ModelName) (e : Extras) (r : Rec) :
    highpowerGet m (applyExtras m e r) = highpowerGet m r := by
  rcases e with ⟨eb, es, ec, eo⟩
  cases eo <;> cases ec <;> cases es <;> cases eb <;> cases m <;>
    dsimp only [applyExtras, highpowerGet, bclSet, scrambleSet, scramble2Set,
      cdcssSet, companderSet] <;>
    first
      | rfl
      | simp [bf_get_set_above, bf_get_set_below]

theorem txpowerGet_txpowerSet (v : Nat) (r : Rec) :
    txpowerGet (txpowerSet v r) = v % 4 := by
  dsimp only [txpowerGet, txpowerSet]
  simp [bf_get_set_self]

theorem txpowerGet_applyExtras (m : ModelName) (e : Extras) (r : Rec) :
    txpowerGet (applyExtras m e r) = txpowerGet r := by
  rcases e with ⟨eb, es, ec, eo⟩
  cases eo <;> cases ec <;> cases es <;> cases eb <;> cases m <;>
    dsimp only [applyExtras, txpowerGet, bclSet, scrambleSet, scramble2Set,
      cdcssSet, companderSet] <;>
    first
      | rfl
      | simp [bf_get_set_above, bf_get_set_below]

theorem dcsVal_lt (c : Nat) (p : Pol) (h : validDcs c) :
    dcsVal c p < 65536 := by
  have := decDigitsAsOct_lt c h
  unfold dcsVal
  cases p
  · rw [if_neg (by decide)]
    omega
  · rw [if_pos rfl]
    omega

theorem toneValues_lt (d0 c : CMem) (htone : toneOk d0 c = true) :
    (toneValues c).1 < 65536 ∧ (toneValues c).2 < 65536 := by
  unfold toneOk at htone
  unfold toneValues
  cases htm : c.tmode <;> rw [htm] at htone <;> dsimp only
  case tnone => exact ⟨by norm_num, by norm_num⟩
  case tone =>
    simp only [Bool.and_eq_true, beq_iff_eq, decide_eq_true_eq] at htone
    obtain ⟨⟨⟨⟨⟨⟨ha, _⟩, _⟩, _⟩, _⟩, _⟩, _⟩ := htone
    exact ⟨by norm_num, by omega⟩
  case tsql =>
    simp only [Bool.and_eq_true, beq_iff_eq, decide_eq_true_eq] at htone
    obtain ⟨⟨⟨⟨⟨⟨ha, _⟩, _⟩, _⟩, _⟩, _⟩, _⟩ := htone
    exact ⟨by omega, by omega⟩
  case dtcs =>
    simp only [Bool.and_eq_true, beq_iff_eq, decide_eq_true_eq] at htone
    obtain ⟨⟨⟨⟨hv, _⟩, _⟩, _⟩, _⟩ := htone
    exact ⟨dcsVal_lt _ _ hv, dcsVal_lt _ _ hv⟩
  case cross =>
    cases hcm : c.crossMode <;> rw [hcm] at htone <;> dsimp only <;>
      simp only [Bool.and_eq_true, beq_iff_eq, decide_eq_true_eq,
        bne_iff_ne] at htone
    case toneTone =>
      obtain ⟨_, ⟨⟨⟨ha, hb⟩, _⟩, _⟩, _⟩ := htone
      exact ⟨by omega, by omega⟩
    case toneDtcs =>
      obtain ⟨_, ⟨⟨ha, hb⟩, _⟩, _⟩ := htone
      exact ⟨dcsVal_lt _ _ hb, by omega⟩
    case dtcsTone =>
      obtain ⟨_, ⟨⟨ha, hb⟩, _⟩, _⟩ := htone
      exact ⟨by omega, dcsVal_lt _ _ ha⟩
    case noneTone =>
      obtain ⟨_, ⟨⟨ha, _⟩, _⟩, _⟩ := htone
      exact ⟨by omega, by norm_num⟩
    case noneDtcs =>
      obtain ⟨_, ⟨⟨ha, _⟩, _⟩, _⟩ := htone
      exact ⟨dcsVal_lt _ _ ha, by norm_num⟩
    case dtcsNone =>
      obtain ⟨_, ⟨⟨ha, _⟩, _⟩, _⟩ := htone
      exact ⟨by norm_num, dcsVal_lt _ _ ha⟩
    case dtcsDtcs =>
      obtain ⟨_, ⟨⟨⟨⟨ha, hb⟩, _⟩, _⟩, _⟩⟩ := htone
      exact ⟨dcsVal_lt _ _ hb, dcsVal_lt _ _ ha⟩

theorem tone_roundtrip (d0 c mem : CMem)
    (h2 : mem.rtone = d0.rtone) (h3 : mem.ctone = d0.ctone)
    (h4 : mem.dtcs = d0.dtcs) (h5 : mem.rxDtcs = d0.rxDtcs)
    (h6 : mem.polTx = d0.polTx) (h7 : mem.polRx = d0.polRx)
    (h8 : mem.crossMode = d0.crossMode) (h1 : mem.tmode = d0.tmode)
    (hd0t : d0.tmode = TMode.tnone) (htone : toneOk d0 c = true) :
    getTone (toneValues c).2 (toneValues c).1 mem
      = { mem with tmode := c.tmode, rtone := c.rtone, ctone := c.ctone,
                   dtcs := c.dtcs, rxDtcs := c.rxDtcs, polTx := c.polTx,
                   polRx := c.polRx, crossMode := c.crossMode } := by
  unfold toneOk at htone
  unfold toneValues
  cases htm : c.tmode <;> rw [htm] at htone <;> dsimp only
  case tnone =>
    simp only [Bool.and_eq_true, beq_iff_eq] at htone
    obtain ⟨⟨⟨⟨⟨⟨hrt, hct⟩, hdt⟩, hrd⟩, hpt⟩, hpr⟩, hcm7⟩ := htone
    rw [getTone_case_none mem (by rw [h1, hd0t]; decide)]
    exact cmem_ext _ _ rfl rfl rfl rfl rfl rfl
      (by dsimp only; rw [h1, hd0t]) (by dsimp only; rw [h2, hrt])
      (by dsimp only; rw [h3, hct]) (by dsimp only; rw [h4, hdt])
      (by dsimp only; rw [h5, hrd]) (by dsimp only; rw [h6, hpt])
      (by dsimp only; rw [h7, hpr]) (by dsimp only; rw [h8, hcm7])
      rfl rfl rfl
  case tone =>
    simp only [Bool.and_eq_true, beq_iff_eq, decide_eq_true_eq] at htone
    obtain ⟨⟨⟨⟨⟨⟨ha, hct⟩, hdt⟩, hrd⟩, hpt⟩, hpr⟩, hcm7⟩ := htone
    rw [getTone_case_tone c.rtone mem ha]
    exact cmem_ext _ _ rfl rfl rfl rfl rfl rfl rfl rfl
      (by dsimp only; rw [h3, hct]) (by dsimp only; rw [h4, hdt])
      (by dsimp only; rw [h5, hrd]) (by dsimp only; rw [h6, hpt])
      (by dsimp only; rw [h7, hpr]) (by dsimp only; rw [h8, hcm7])
      rfl rfl rfl
  case tsql =>
    simp only [Bool.and_eq_true, beq_iff_eq, decide_eq_true_eq] at htone
    obtain ⟨⟨⟨⟨⟨⟨ha, heq⟩, hdt⟩, hrd⟩, hpt⟩, hpr⟩, hcm7⟩ := htone
    rw [getTone_case_tsql c.ctone mem ha]
    exact cmem_ext _ _ rfl rfl rfl rfl rfl rfl rfl
      (by dsimp only; rw [heq]) rfl (by dsimp only; rw [h4, hdt])
      (by dsimp only; rw [h5, hrd]) (by dsimp only; rw [h6, hpt])
      (by dsimp only; rw [h7, hpr]) (by dsimp only; rw [h8, hcm7])
      rfl rfl rfl
  case dtcs =>
    simp only [Bool.and_eq_true, beq_iff_eq, decide_eq_true_eq] at htone
    obtain ⟨⟨⟨⟨hv, hrd⟩, hrt⟩, hct⟩, hcm7⟩ := htone
    have hs1 := dcsVal_dtcs_side c.dtcs c.polTx hv
    have hs2 := dcsVal_dtcs_side c.dtcs c.polRx hv
    rw [getTone_case_dtcs _ _ mem hs1.1 hs1.2 hs2.1 hs2.2
      (by rw [dcsVal_code _ _ hv, dcsVal_code _ _ hv])]
    exact cmem_ext _ _ rfl rfl rfl rfl rfl rfl rfl
      (by dsimp only; rw [h2, hrt]) (by dsimp only; rw [h3, hct])
      (by dsimp only; rw [dcsVal_code _ _ hv])
      (by dsimp only; rw [dcsVal_code _ _ hv, hrd])
      (by dsimp only; rw [dcsVal_pol _ _ hv])
      (by dsimp only; rw [dcsVal_pol _ _ hv])
      (by dsimp only; rw [h8, hcm7]) rfl rfl rfl
  case cross =>
    cases hcm : c.crossMode <;> rw [hcm] at htone <;> dsimp only <;>
      simp only [Bool.and_eq_true, beq_iff_eq, decide_eq_true_eq,
        bne_iff_ne] at htone
    case toneTone =>
      obtain ⟨⟨hpt, hpr⟩, ⟨⟨⟨ha, hb⟩, hne⟩, hdt⟩, hrd⟩ := htone
      rw [getTone_case_toneTone c.rtone c.ctone mem ha hb hne]
      exact cmem_ext _ _ rfl rfl rfl rfl rfl rfl rfl rfl rfl
        (by dsimp only; rw [h4, hdt]) (by dsimp only; rw [h5, hrd])
        (by dsimp only; rw [h6, hpt]) (by dsimp only; rw [h7, hpr])
        rfl rfl rfl rfl
    case toneDtcs =>
      obtain ⟨⟨hpt, hpr⟩, ⟨⟨ha, hb⟩, hct⟩, hdt⟩ := htone
      have hs2 := dcsVal_dtcs_side c.rxDtcs c.polRx hb
      rw [getTone_case_toneDtcs c.rtone _ mem ha hs2.1 hs2.2]
      exact cmem_ext _ _ rfl rfl rfl rfl rfl rfl rfl rfl
        (by dsimp only; rw [h3, hct]) (by dsimp only; rw [h4, hdt])
        (by dsimp only; rw [dcsVal_code _ _ hb])
        (by dsimp only; rw [h6, hpt]) (by dsimp only; rw [h7, hpr])
        rfl rfl rfl rfl
    case dtcsTone =>
      obtain ⟨⟨hpt, hpr⟩, ⟨⟨ha, hb⟩, hrt⟩, hrd⟩ := htone
      have hs1 := dcsVal_dtcs_side c.dtcs c.polTx ha
      rw [getTone_case_dtcsTone _ c.ctone mem hs1.1 hs1.2 hb]
      exact cmem_ext _ _ rfl rfl rfl rfl rfl rfl rfl
        (by dsimp only; rw [h2, hrt]) rfl
        (by dsimp only; rw [dcsVal_code _ _ ha])
        (by dsimp only; rw [h5, hrd])
        (by dsimp only; rw [h6, hpt]) (by dsimp only; rw [h7, hpr])
        rfl rfl rfl rfl
    case noneTone =>
      obtain ⟨⟨hpt, hpr⟩, ⟨⟨ha, hrt⟩, hdt⟩, hrd⟩ := htone
      rw [getTone_case_noneTone c.ctone mem ha]
      exact cmem_ext _ _ rfl rfl rfl rfl rfl rfl rfl
        (by dsimp only; rw [h2, hrt]) rfl
        (by dsimp only; rw [h4, hdt]) (by dsimp only; rw [h5, hrd])
        (by dsimp only; rw [h6, hpt]) (by dsimp only; rw [h7, hpr])
        rfl rfl rfl rfl
    case noneDtcs =>
      obtain ⟨⟨hpt, hpr⟩, ⟨⟨ha, hrt⟩, hct⟩, hdt⟩ := htone
      have hs2 := dcsVal_dtcs_side c.rxDtcs c.polRx ha
      rw [getTone_case_noneDtcs _ mem hs2.1 hs2.2]
      exact cmem_ext _ _ rfl rfl rfl rfl rfl rfl rfl
        (by dsimp only; rw [h2, hrt]) (by dsimp only; rw [h3, hct])
        (by dsimp only; rw [h4, hdt])
        (by dsimp only; rw [dcsVal_code _ _ ha])
        (by dsimp only; rw [h6, hpt]) (by dsimp only; rw [h7, hpr])
        rfl rfl rfl rfl
    case dtcsNone =>
      obtain ⟨⟨hpt, hpr⟩, ⟨⟨ha, hrt⟩, hct⟩, hrd⟩ := htone
      have hs1 := dcsVal_dtcs_side c.dtcs c.polTx ha
      rw [getTone_case_dtcsNone _ mem hs1.1 hs1.2]
      exact cmem_ext _ _ rfl rfl rfl rfl rfl rfl rfl
        (by dsimp only; rw [h2, hrt]) (by dsimp only; rw [h3, hct])
        (by dsimp only; rw [dcsVal_code _ _ ha])
        (by dsimp only; rw [h5, hrd])
        (by dsimp only; rw [h6, hpt]) (by dsimp only; rw [h7, hpr])
        rfl rfl rfl rfl
    case dtcsDtcs =>
      obtain ⟨⟨hpt, hpr⟩, ⟨⟨⟨⟨ha, hb⟩, hne⟩, hrt⟩, hct⟩⟩ := htone
      have hs1 := dcsVal_dtcs_side c.dtcs c.polTx ha
      have hs2 := dcsVal_dtcs_side c.rxDtcs c.polRx hb
      rw [getTone_case_dtcsDtcs _ _ mem hs1.1 hs1.2 hs2.1 hs2.2
        (by rw [dcsVal_code _ _ ha, dcsVal_code _ _ hb]; exact hne)]
      exact cmem_ext _ _ rfl rfl rfl rfl rfl rfl rfl
        (by dsimp only; rw [h2, hrt]) (by dsimp only; rw [h3, hct])
        (by dsimp only; rw [dcsVal_code _ _ ha])
        (by dsimp only; rw [dcsVal_code _ _ hb])
        (by dsimp only; rw [h6, hpt]) (by dsimp only; rw [h7, hpr])
        rfl rfl rfl rfl

set_option maxHeartbeats 1000000 in
theorem getMem_canonical_decode (m : ModelName) (d0 c : CMem) (r : Rec)
    (sk2 : List Nat)
    (hd0e : d0.empty = false) (hd0t : d0.tmode = TMode.tnone)
    (hemp : c.empty = false) (hf0 : 0 < c.freq)
    (hfrx : rxfreqGet r * 10 = c.freq)
    (hff : rxRawFF r = false)
    (hdux : (if rxfreqGet r = txfreqGet r then
               ((Duplex.simplex : Duplex), (0 : Nat))
             else if txfreqGet r < rxfreqGet r then
               (Duplex.minus, (rxfreqGet r - txfreqGet r) * 10)
             else (Duplex.plus, (txfreqGet r - rxfreqGet r) * 10))
            = (c.duplex, c.offset))
    (hw : wideGet m r = (if c.wide then 1 else 0))
    (hrt : rxToneGet r = (toneValues c).1)
    (htt : txToneGet r = (toneValues c).2)
    (htone : toneOk d0 c = true)
    (hpw : (if isRT29 m = true then
             match txpowerGet r with
             | 2 => some 2
             | 0 => some 1
             | 1 => some 0
             | _ => d0.power
           else some (highpowerGet m r)) = c.power)
    (hskp : (if m ≠ ModelName.rt76 then
              decide (sk2.getD ((c.number - 1) / 8) 0
                / 2 ^ ((c.number - 1) % 8) % 2 = 0)
            else d0.skipS) = c.skipS)
    (hex : extrasOf m r = c.extra) :
    getMem m d0 r sk2 c.number = c := by
  have hdup_rec :
      (if rxfreqGet r = txfreqGet r then
         { d0 with number := c.number, freq := c.freq,
                   duplex := Duplex.simplex, offset := 0 }
       else if txfreqGet r < rxfreqGet r then
         { d0 with number := c.number, freq := c.freq,
                   duplex := Duplex.minus,
                   offset := (rxfreqGet r - txfreqGet r) * 10 }
       else { d0 with number := c.number, freq := c.freq,
                      duplex := Duplex.plus,
                      offset := (txfreqGet r - rxfreqGet r) * 10 })
      = { d0 with number := c.number, freq := c.freq,
                  duplex := c.duplex, offset := c.offset } := by
    by_cases h1 : rxfreqGet r = txfreqGet r
    · rw [if_pos h1] at hdux ⊢
      simp only [Prod.mk.injEq] at hdux
      rw [hdux.1, hdux.2]
    · rw [if_neg h1] at hdux ⊢
      by_cases h2 : txfreqGet r < rxfreqGet r
      · rw [if_pos h2] at hdux ⊢
        simp only [Prod.mk.injEq] at hdux
        rw [hdux.1, hdux.2]
      · rw [if_neg h2] at hdux ⊢
        simp only [Prod.mk.injEq] at hdux
        rw [hdux.1, hdux.2]
  unfold getMem
  rw [hfrx, recAllFF_false_of_rxRawFF r hff, hff]
  rw [if_neg (show ¬ (false = true) from by decide)]
  dsimp only
  rw [if_neg (show ¬ (c.freq = 0) from by omega)]
  rw [if_neg (show ¬ (false = true) from by decide)]
  rw [hdup_rec]
  dsimp only
  rw [htt, hrt]
  rw [tone_roundtrip d0 c
    { d0 with number := c.number, freq := c.freq, duplex := c.duplex,
              offset := c.offset, wide := decide (wideGet m r = 1) }
    rfl rfl rfl rfl rfl rfl rfl rfl hd0t htone]
  by_cases h29 : isRT29 m = true
  · rw [if_pos h29] at hpw ⊢
    rcases hv : txpowerGet r with _ | _ | _ | n <;>
      rw [hv] at hpw <;>
      simp only [] at hpw ⊢ <;>
      (by_cases h76 : m = ModelName.rt76
       · rw [if_neg (not_not_intro h76)] at hskp ⊢
         apply cmem_ext <;> dsimp only <;>
           first
             | rfl
             | exact hpw
             | exact hskp
             | exact hex
             | rw [hd0e, hemp]
             | (rw [hw]; cases c.wide <;> simp)
       · rw [if_pos h76] at hskp ⊢
         apply cmem_ext <;> dsimp only <;>
           first
             | rfl
             | exact hpw
             | exact hskp
             | exact hex
             | rw [hd0e, hemp]
             | (rw [hw]; cases c.wide <;> simp))
  · rw [if_neg h29] at hpw ⊢
    by_cases h76 : m = ModelName.rt76
    · rw [if_neg (not_not_intro h76)] at hskp ⊢
      apply cmem_ext <;> dsimp only <;>
        first
          | rfl
          | exact hpw
          | exact hskp
          | exact hex
          | rw [hd0e, hemp]
          | (rw [hw]; cases c.wide <;> simp)
    · rw [if_pos h76] at hskp ⊢
      apply cmem_ext <;> dsimp only <;>
        first
          | rfl
          | exact hpw
          | exact hskp
          | exact hex
          | rw [hd0e, hemp]
          | (rw [hw]; cases c.wide <;> simp)

theorem extrasOf_rt21 (b s : Nat) (r : Rec) (hb : b < 3) (hs1 : 1 ≤ s)
    (hs8 : s ≤ 8) :
    extrasOf ModelName.rt21
      (applyExtras ModelName.rt21 ⟨some b, some s, none, none⟩ r)
      = ⟨some b, some s, none, none⟩ := by
  simp only [extrasOf, applyExtras, reduceIte, bclGet, scrambleGet, bclSet,
    scrambleSet, scramble2Set]
  simp [bf_get_set_self, bf_get_set_above, bf_get_set_below,
    Extras.mk.injEq]
  constructor <;> omega

theorem extrasOf_rb17a (b s v q : Nat) (r : Rec) (hb : b < 3) (hs1 : 1 ≤ s)
    (hs8 : s ≤ 8) (hv : v < 2) (hq : q < 2) :
    extrasOf ModelName.rb17a
      (applyExtras ModelName.rb17a ⟨some b, some s, some v, some q⟩ r)
      = ⟨some b, some s, some v, some q⟩ := by
  simp only [extrasOf, applyExtras, reduceIte, bclGet, scrambleGet, cdcssGet,
    companderGet, bclSet, scrambleSet, cdcssSet, companderSet]
  simp [bf_get_set_self, bf_get_set_above, bf_get_set_below,
    Extras.mk.injEq]
  refine ⟨by omega, by omega, by omega, by omega⟩

theorem extrasOf_rb26 (b q : Nat) (r : Rec) (hb : b < 2) (hq : q < 2) :
    extrasOf ModelName.rb26
      (applyExtras ModelName.rb26 ⟨some b, none, none, some q⟩ r)
      = ⟨some b, none, none, some q⟩ := by
  simp only [extrasOf, applyExtras, reduceIte, bclGet, companderGet,
    bclSet, companderSet]
  simp [bf_get_set_self, bf_get_set_above, bf_get_set_below,
    Extras.mk.injEq]
  constructor <;> omega

theorem extrasOf_rt76 (q : Nat) (r : Rec) (hq : q < 2) :
    extrasOf ModelName.rt76
      (applyExtras ModelName.rt76 ⟨none, none, none, some q⟩ r)
      = ⟨none, none, none, some q⟩ := by
  simp only [extrasOf, applyExtras, reduceIte, companderGet, companderSet]
  simp [bf_get_set_self, Extras.mk.injEq]
  omega

theorem extrasOf_rt29u (b s v q : Nat) (r : Rec) (hb : b < 3) (hs1 : 1 ≤ s)
    (hs8 : s ≤ 8) (hv : v < 2) (hq : q < 2) :
    extrasOf ModelName.rt29u
      (applyExtras ModelName.rt29u ⟨some b, some s, some v, some q⟩ r)
      = ⟨some b, some s, some v, some q⟩ := by
  simp only [extrasOf, applyExtras, reduceIte, bclGet, scrambleGet, cdcssGet,
    companderGet, bclSet, scrambleSet, cdcssSet, companderSet]
  simp [bf_get_set_self, bf_get_set_above, bf_get_set_below,
    Extras.mk.injEq]
  refine ⟨by omega, by omega, by omega, by omega⟩

theorem extrasOf_rt29v (b s v q : Nat) (r : Rec) (hb : b < 3) (hs1 : 1 ≤ s)
    (hs8 : s ≤ 8) (hv : v < 2) (hq : q < 2) :
    extrasOf ModelName.rt29v
      (applyExtras ModelName.rt29v ⟨some b, some s, some v, some q⟩ r)
      = ⟨some b, some s, some v, some q⟩ := by
  simp only [extrasOf, applyExtras, reduceIte, bclGet, scrambleGet, cdcssGet,
    companderGet, bclSet, scrambleSet, cdcssSet, companderSet]
  simp [bf_get_set_self, bf_get_set_above, bf_get_set_below,
    Extras.mk.injEq]
  refine ⟨by omega, by omega, by omega, by omega⟩

theorem roundtrip_rt21 (d0 c : CMem) (prior : Rec) (sk : List Nat)
    (hd0e : d0.empty = false) (hd0t : d0.tmode = TMode.tnone)
    (hsk : sk.length = 2)
    (hc : canonB ModelName.rt21 d0 c = true) :
    getMem ModelName.rt21 d0 (setMem ModelName.rt21 c prior sk).1
      (setMem ModelName.rt21 c prior sk).2 c.number = c := by
  unfold canonB at hc
  simp only [Bool.and_eq_true] at hc
  obtain ⟨⟨⟨⟨⟨hbase, hdup⟩, htone⟩, hpow⟩, hskip⟩, hext⟩ := hc
  unfold baseOk at hbase
  simp only [Bool.and_eq_true, beq_iff_eq, decide_eq_true_eq] at hbase
  obtain ⟨⟨⟨⟨⟨hemp, hn1⟩, hn2⟩, hf10⟩, hf0⟩, hfM⟩ := hbase
  rcases hce : c.extra with ⟨eb, es, ec, eo⟩
  unfold extrasOkB at hext
  rw [hce] at hext
  rcases eb with _ | b
  · simp at hext
  rcases es with _ | s
  · simp at hext
  rcases ec with _ | v
  swap
  · simp at hext
  rcases eo with _ | q
  swap
  · simp at hext
  simp only [Bool.and_eq_true, decide_eq_true_eq] at hext
  obtain ⟨⟨hb3, hs1⟩, hs8⟩ := hext
  unfold powerOk at hpow
  rcases hp : c.power with _ | i
  · rw [hp] at hpow
    simp at hpow
  rw [hp] at hpow
  simp only [decide_eq_true_eq] at hpow
  replace hpow : i < 2 := hpow
  replace hn2 : c.number ≤ 16 := hn2
  unfold duplexOk at hdup
  cases hd : c.duplex <;> rw [hd] at hdup <;> dsimp only at hdup
  case offAir => exact absurd hdup (by decide)
  case split => exact absurd hdup (by decide)
  case simplex =>
    simp only [beq_iff_eq] at hdup
    have hg : (setMem ModelName.rt21 c prior sk).1
        = applyExtras ModelName.rt21 c.extra
            (highpowerSet ModelName.rt21 (if c.power = some 1 then 1 else 0)
              (txToneSet (toneValues c).2
                (rxToneSet (toneValues c).1
                  (wideSet ModelName.rt21 (if c.wide then 1 else 0)
                    (txfreqSet (c.freq / 10)
                      (rxfreqSet (c.freq / 10)
                        (defaultFill ModelName.rt21 prior)))))))
        ∧ (setMem ModelName.rt21 c prior sk).2
            = skipUpdate c.number c.skipS sk := by
      unfold setMem
      rw [hemp, hd]
      exact ⟨rfl, rfl⟩
    rw [hg.1, hg.2]
    refine getMem_canonical_decode ModelName.rt21 d0 c _ _ hd0e hd0t hemp hf0
      ?_ ?_ ?_ ?_ ?_ ?_ htone ?_ ?_ ?_
    · rw [rxfreqGet_applyExtras, rxfreqGet_highpowerSet, rxfreqGet_txToneSet,
        rxfreqGet_rxToneSet, rxfreqGet_wideSet, rxfreqGet_txfreqSet,
        rxfreq_get_set (c.freq / 10) _ (by omega)]
      omega
    · rw [rxRawFF_applyExtras, rxRawFF_highpowerSet, rxRawFF_txToneSet,
        rxRawFF_rxToneSet, rxRawFF_wideSet, rxRawFF_txfreqSet,
        rxRawFF_rxfreqSet]
    · rw [rxfreqGet_applyExtras, rxfreqGet_highpowerSet, rxfreqGet_txToneSet,
        rxfreqGet_rxToneSet, rxfreqGet_wideSet, rxfreqGet_txfreqSet,
        rxfreq_get_set (c.freq / 10) _ (by omega),
        txfreqGet_applyExtras, txfreqGet_highpowerSet, txfreqGet_txToneSet,
        txfreqGet_rxToneSet, txfreqGet_wideSet,
        txfreq_get_set (c.freq / 10) _ (by omega)]
      rw [if_pos rfl, hd, hdup]
    · rw [wideGet_applyExtras, wideGet_highpowerSet, wideGet_txToneSet,
        wideGet_rxToneSet, wideGet_wideSet]
      cases c.wide <;> rfl
    · rw [rxToneGet_applyExtras, rxToneGet_highpowerSet, rxToneGet_txToneSet,
        rxtone_get_set _ _ (toneValues_lt d0 c htone).1]
    · rw [txToneGet_applyExtras, txToneGet_highpowerSet,
        txtone_get_set _ _ (toneValues_lt d0 c htone).2]
    · rw [if_neg (show ¬ (isRT29 ModelName.rt21 = true) from by decide)]
      rw [highpowerGet_applyExtras, highpowerGet_highpowerSet, hp]
      interval_cases i <;> rfl
    · rw [if_pos (show ModelName.rt21 ≠ ModelName.rt76 from by decide)]
      exact skip_decode_eq c.number c.skipS sk (by omega)
    · rw [hce]
      exact extrasOf_rt21 b s _ hb3 hs1 hs8
  case plus =>
    simp only [Bool.and_eq_true, beq_iff_eq, decide_eq_true_eq] at hdup
    obtain ⟨⟨ho1, ho2⟩, ho3⟩ := hdup
    have hg : (setMem ModelName.rt21 c prior sk).1
        = applyExtras ModelName.rt21 c.extra
            (highpowerSet ModelName.rt21 (if c.power = some 1 then 1 else 0)
              (txToneSet (toneValues c).2
                (rxToneSet (toneValues c).1
                  (wideSet ModelName.rt21 (if c.wide then 1 else 0)
                    (txfreqSet ((c.freq + c.offset) / 10)
                      (rxfreqSet (c.freq / 10)
                        (defaultFill ModelName.rt21 prior)))))))
        ∧ (setMem ModelName.rt21 c prior sk).2
            = skipUpdate c.number c.skipS sk := by
      unfold setMem
      rw [hemp, hd]
      exact ⟨rfl, rfl⟩
    rw [hg.1, hg.2]
    refine getMem_canonical_decode ModelName.rt21 d0 c _ _ hd0e hd0t hemp hf0
      ?_ ?_ ?_ ?_ ?_ ?_ htone ?_ ?_ ?_
    · rw [rxfreqGet_applyExtras, rxfreqGet_highpowerSet, rxfreqGet_txToneSet,
        rxfreqGet_rxToneSet, rxfreqGet_wideSet, rxfreqGet_txfreqSet,
        rxfreq_get_set (c.freq / 10) _ (by omega)]
      omega
    · rw [rxRawFF_applyExtras, rxRawFF_highpowerSet, rxRawFF_txToneSet,
        rxRawFF_rxToneSet, rxRawFF_wideSet, rxRawFF_txfreqSet,
        rxRawFF_rxfreqSet]
    · rw [rxfreqGet_applyExtras, rxfreqGet_highpowerSet, rxfreqGet_txToneSet,
        rxfreqGet_rxToneSet, rxfreqGet_wideSet, rxfreqGet_txfreqSet,
        rxfreq_get_set (c.freq / 10) _ (by omega),
        txfreqGet_applyExtras, txfreqGet_highpowerSet, txfreqGet_txToneSet,
        txfreqGet_rxToneSet, txfreqGet_wideSet,
        txfreq_get_set ((c.freq + c.offset) / 10) _ (by omega)]
      rw [if_neg (by omega), if_neg (by omega), hd]
      simp only [Prod.mk.injEq, true_and]
      omega
    · rw [wideGet_applyExtras, wideGet_highpowerSet, wideGet_txToneSet,
        wideGet_rxToneSet, wideGet_wideSet]
      cases c.wide <;> rfl
    · rw [rxToneGet_applyExtras, rxToneGet_highpowerSet, rxToneGet_txToneSet,
        rxtone_get_set _ _ (toneValues_lt d0 c htone).1]
    · rw [txToneGet_applyExtras, txToneGet_highpowerSet,
        txtone_get_set _ _ (toneValues_lt d0 c htone).2]
    · rw [if_neg (show ¬ (isRT29 ModelName.rt21 = true) from by decide)]
      rw [highpowerGet_applyExtras, highpowerGet_highpowerSet, hp]
      interval_cases i <;> rfl
    · rw [if_pos (show ModelName.rt21 ≠ ModelName.rt76 from by decide)]
      exact skip_decode_eq c.number c.skipS sk (by omega)
    · rw [hce]
      exact extrasOf_rt21 b s _ hb3 hs1 hs8
  case minus =>
    simp only [Bool.and_eq_true, beq_iff_eq, decide_eq_true_eq] at hdup
    obtain ⟨⟨ho1, ho2⟩, ho3⟩ := hdup
    have hg : (setMem ModelName.rt21 c prior sk).1
        = applyExtras ModelName.rt21 c.extra
            (highpowerSet ModelName.rt21 (if c.power = some 1 then 1 else 0)
              (txToneSet (toneValues c).2
                (rxToneSet (toneValues c).1
                  (wideSet ModelName.rt21 (if c.wide then 1 else 0)
                    (txfreqSet ((c.freq - c.offset) / 10)
                      (rxfreqSet (c.freq / 10)
                        (defaultFill ModelName.rt21 prior)))))))
        ∧ (setMem ModelName.rt21 c prior sk).2
            = skipUpdate c.number c.skipS sk := by
      unfold setMem
      rw [hemp, hd]
      exact ⟨rfl, rfl⟩
    rw [hg.1, hg.2]
    refine getMem_canonical_decode ModelName.rt21 d0 c _ _ hd0e hd0t hemp hf0
      ?_ ?_ ?_ ?_ ?_ ?_ htone ?_ ?_ ?_
    · rw [rxfreqGet_applyExtras, rxfreqGet_highpowerSet, rxfreqGet_txToneSet,
        rxfreqGet_rxToneSet, rxfreqGet_wideSet, rxfreqGet_txfreqSet,
        rxfreq_get_set (c.freq / 10) _ (by omega)]
      omega
    · rw [rxRawFF_applyExtras, rxRawFF_highpowerSet, rxRawFF_txToneSet,
        rxRawFF_rxToneSet, rxRawFF_wideSet, rxRawFF_txfreqSet,
        rxRawFF_rxfreqSet]
    · rw [rxfreqGet_applyExtras, rxfreqGet_highpowerSet, rxfreqGet_txToneSet,
        rxfreqGet_rxToneSet, rxfreqGet_wideSet, rxfreqGet_txfreqSet,
        rxfreq_get_set (c.freq / 10) _ (by omega),
        txfreqGet_applyExtras, txfreqGet_highpowerSet, txfreqGet_txToneSet,
        txfreqGet_rxToneSet, txfreqGet_wideSet,
        txfreq_get_set ((c.freq - c.offset) / 10) _ (by omega)]
      rw [if_neg (by omega), if_pos (by omega), hd]
      simp only [Prod.mk.injEq, true_and]
      omega
    · rw [wideGet_applyExtras, wideGet_highpowerSet, wideGet_txToneSet,
        wideGet_rxToneSet, wideGet_wideSet]
      cases c.wide <;> rfl
    · rw [rxToneGet_applyExtras, rxToneGet_highpowerSet, rxToneGet_txToneSet,
        rxtone_get_set _ _ (toneValues_lt d0 c htone).1]
    · rw [txToneGet_applyExtras, txToneGet_highpowerSet,
        txtone_get_set _ _ (toneValues_lt d0 c htone).2]
    · rw [if_neg (show ¬ (isRT29 ModelName.rt21 = true) from by decide)]
      rw [highpowerGet_applyExtras, highpowerGet_highpowerSet, hp]
      interval_cases i <;> rfl
    · rw [if_pos (show ModelName.rt21 ≠ ModelName.rt76 from by decide)]
      exact skip_decode_eq c.number c.skipS sk (by omega)
    · rw [hce]
      exact extrasOf_rt21 b s _ hb3 hs1 hs8


theorem roundtrip_rb17a (d0 c : CMem) (prior : Rec) (sk : List Nat)
    (hd0e : d0.empty = false) (hd0t : d0.tmode = TMode.tnone)
    (hsk : sk.length = 4)
    (hc : canonB ModelName.rb17a d0 c = true) :
    getMem ModelName.rb17a d0 (setMem ModelName.rb17a c prior sk).1
      (setMem ModelName.rb17a c prior sk).2 c.number = c := by
  unfold canonB at hc
  simp only [Bool.and_eq_true] at hc
  obtain ⟨⟨⟨⟨⟨hbase, hdup⟩, htone⟩, hpow⟩, hskip⟩, hext⟩ := hc
  unfold baseOk at hbase
  simp only [Bool.and_eq_true, beq_iff_eq, decide_eq_true_eq] at hbase
  obtain ⟨⟨⟨⟨⟨hemp, hn1⟩, hn2⟩, hf10⟩, hf0⟩, hfM⟩ := hbase
  rcases hce : c.extra with ⟨eb, es, ec, eo⟩
  unfold extrasOkB at hext
  rw [hce] at hext
  rcases eb with _ | b
  · simp at hext
  rcases es with _ | s
  · simp at hext
  rcases ec with _ | v
  · simp at hext
  rcases eo with _ | q
  · simp at hext
  simp only [Bool.and_eq_true, decide_eq_true_eq] at hext
  obtain ⟨⟨⟨⟨hb3, hs1⟩, hs8⟩, hv2⟩, hq2⟩ := hext
  unfold powerOk at hpow
  rcases hp : c.power with _ | i
  · rw [hp] at hpow
    simp at hpow
  rw [hp] at hpow
  simp only [decide_eq_true_eq] at hpow
  replace hpow : i < 2 := hpow
  replace hn2 : c.number ≤ 30 := hn2
  unfold duplexOk at hdup
  cases hd : c.duplex <;> rw [hd] at hdup <;> dsimp only at hdup
  case offAir => exact absurd hdup (by decide)
  case split => exact absurd hdup (by decide)
  case simplex =>
    simp only [beq_iff_eq] at hdup
    have hg : (setMem ModelName.rb17a c prior sk).1
        = applyExtras ModelName.rb17a c.extra
            (highpowerSet ModelName.rb17a (if c.power = some 1 then 1 else 0)
              (txToneSet (toneValues c).2
                (rxToneSet (toneValues c).1
                  (wideSet ModelName.rb17a (if c.wide then 1 else 0)
                    (txfreqSet (c.freq / 10)
                      (rxfreqSet (c.freq / 10)
                        (defaultFill ModelName.rb17a prior)))))))
        ∧ (setMem ModelName.rb17a c prior sk).2
            = skipUpdate c.number c.skipS sk := by
      unfold setMem
      rw [hemp, hd]
      exact ⟨rfl, rfl⟩
    rw [hg.1, hg.2]
    refine getMem_canonical_decode ModelName.rb17a d0 c _ _ hd0e hd0t hemp hf0
      ?_ ?_ ?_ ?_ ?_ ?_ htone ?_ ?_ ?_
    · rw [rxfreqGet_applyExtras, rxfreqGet_highpowerSet, rxfreqGet_txToneSet,
        rxfreqGet_rxToneSet, rxfreqGet_wideSet, rxfreqGet_txfreqSet,
        rxfreq_get_set (c.freq / 10) _ (by omega)]
      omega
    · rw [rxRawFF_applyExtras, rxRawFF_highpowerSet, rxRawFF_txToneSet,
        rxRawFF_rxToneSet, rxRawFF_wideSet, rxRawFF_txfreqSet,
        rxRawFF_rxfreqSet]
    · rw [rxfreqGet_applyExtras, rxfreqGet_highpowerSet, rxfreqGet_txToneSet,
        rxfreqGet_rxToneSet, rxfreqGet_wideSet, rxfreqGet_txfreqSet,
        rxfreq_get_set (c.freq / 10) _ (by omega),
        txfreqGet_applyExtras, txfreqGet_highpowerSet, txfreqGet_txToneSet,
        txfreqGet_rxToneSet, txfreqGet_wideSet,
        txfreq_get_set (c.freq / 10) _ (by omega)]
      rw [if_pos rfl, hd, hdup]
    · rw [wideGet_applyExtras, wideGet_highpowerSet, wideGet_txToneSet,
        wideGet_rxToneSet, wideGet_wideSet]
      cases c.wide <;> rfl
    · rw [rxToneGet_applyExtras, rxToneGet_highpowerSet, rxToneGet_txToneSet,
        rxtone_get_set _ _ (toneValues_lt d0 c htone).1]
    · rw [txToneGet_applyExtras, txToneGet_highpowerSet,
        txtone_get_set _ _ (toneValues_lt d0 c htone).2]
    · rw [if_neg (show ¬ (isRT29 ModelName.rb17a = true) from by decide)]
      rw [highpowerGet_applyExtras, highpowerGet_highpowerSet, hp]
      interval_cases i <;> rfl
    · rw [if_pos (show ModelName.rb17a ≠ ModelName.rt76 from by decide)]
      exact skip_decode_eq c.number c.skipS sk (by omega)
    · rw [hce]
      exact extrasOf_rb17a b s v q _ hb3 hs1 hs8 hv2 hq2
  case plus =>
    simp only [Bool.and_eq_true, beq_iff_eq, decide_eq_true_eq] at hdup
    obtain ⟨⟨ho1, ho2⟩, ho3⟩ := hdup
    have hg : (setMem ModelName.rb17a c prior sk).1
        = applyExtras ModelName.rb17a c.extra
            (highpowerSet ModelName.rb17a (if c.power = some 1 then 1 else 0)
              (txToneSet (toneValues c).2
                (rxToneSet (toneValues c).1
                  (wideSet ModelName.rb17a (if c.wide then 1 else 0)
                    (txfreqSet ((c.freq + c.offset) / 10)
                      (rxfreqSet (c.freq / 10)
                        (defaultFill ModelName.rb17a prior)))))))
        ∧ (setMem ModelName.rb17a c prior sk).2
            = skipUpdate c.number c.skipS sk := by
      unfold setMem
      rw [hemp, hd]
      exact ⟨rfl, rfl⟩
    rw [hg.1, hg.2]
    refine getMem_canonical_decode ModelName.rb17a d0 c _ _ hd0e hd0t hemp hf0
      ?_ ?_ ?_ ?_ ?_ ?_ htone ?_ ?_ ?_
    · rw [rxfreqGet_applyExtras, rxfreqGet_highpowerSet, rxfreqGet_txToneSet,
        rxfreqGet_rxToneSet, rxfreqGet_wideSet, rxfreqGet_txfreqSet,
        rxfreq_get_set (c.freq / 10) _ (by omega)]
      omega
    · rw [rxRawFF_applyExtras, rxRawFF_highpowerSet, rxRawFF_txToneSet,
        rxRawFF_rxToneSet, rxRawFF_wideSet, rxRawFF_txfreqSet,
        rxRawFF_rxfreqSet]
    · rw [rxfreqGet_applyExtras, rxfreqGet_highpowerSet, rxfreqGet_txToneSet,
        rxfreqGet_rxToneSet, rxfreqGet_wideSet, rxfreqGet_txfreqSet,
        rxfreq_get_set (c.freq / 10) _ (by omega),
        txfreqGet_applyExtras, txfreqGet_highpowerSet, txfreqGet_txToneSet,
        txfreqGet_rxToneSet, txfreqGet_wideSet,
        txfreq_get_set ((c.freq + c.offset) / 10) _ (by omega)]
      rw [if_neg (by omega), if_neg (by omega), hd]
      simp only [Prod.mk.injEq, true_and]
      omega
    · rw [wideGet_applyExtras, wideGet_highpowerSet, wideGet_txToneSet,
        wideGet_rxToneSet, wideGet_wideSet]
      cases c.wide <;> rfl
    · rw [rxToneGet_applyExtras, rxToneGet_highpowerSet, rxToneGet_txToneSet,
        rxtone_get_set _ _ (toneValues_lt d0 c htone).1]
    · rw [txToneGet_applyExtras, txToneGet_highpowerSet,
        txtone_get_set _ _ (toneValues_lt d0 c htone).2]
    · rw [if_neg (show ¬ (isRT29 ModelName.rb17a = true) from by decide)]
      rw [highpowerGet_applyExtras, highpowerGet_highpowerSet, hp]
      interval_cases i <;> rfl
    · rw [if_pos (show ModelName.rb17a ≠ ModelName.rt76 from by decide)]
      exact skip_decode_eq c.number c.skipS sk (by omega)
    · rw [hce]
      exact extrasOf_rb17a b s v q _ hb3 hs1 hs8 hv2 hq2
  case minus =>
    simp only [Bool.and_eq_true, beq_iff_eq, decide_eq_true_eq] at hdup
    obtain ⟨⟨ho1, ho2⟩, ho3⟩ := hdup
    have hg : (setMem ModelName.rb17a c prior sk).1
        = applyExtras ModelName.rb17a c.extra
            (highpowerSet ModelName.rb17a (if c.power = some 1 then 1 else 0)
              (txToneSet (toneValues c).2
                (rxToneSet (toneValues c).1
                  (wideSet ModelName.rb17a (if c.wide then 1 else 0)
                    (txfreqSet ((c.freq - c.offset) / 10)
                      (rxfreqSet (c.freq / 10)
                        (defaultFill ModelName.rb17a prior)))))))
        ∧ (setMem ModelName.rb17a c prior sk).2
            = skipUpdate c.number c.skipS sk := by
      unfold setMem
      rw [hemp, hd]
      exact ⟨rfl, rfl⟩
    rw [hg.1, hg.2]
    refine getMem_canonical_decode ModelName.rb17a d0 c _ _ hd0e hd0t hemp hf0
      ?_ ?_ ?_ ?_ ?_ ?_ htone ?_ ?_ ?_
    · rw [rxfreqGet_applyExtras, rxfreqGet_highpowerSet, rxfreqGet_txToneSet,
        rxfreqGet_rxToneSet, rxfreqGet_wideSet, rxfreqGet_txfreqSet,
        rxfreq_get_set (c.freq / 10) _ (by omega)]
      omega
    · rw [rxRawFF_applyExtras, rxRawFF_highpowerSet, rxRawFF_txToneSet,
        rxRawFF_rxToneSet, rxRawFF_wideSet, rxRawFF_txfreqSet,
        rxRawFF_rxfreqSet]
    · rw [rxfreqGet_applyExtras, rxfreqGet_highpowerSet, rxfreqGet_txToneSet,
        rxfreqGet_rxToneSet, rxfreqGet_wideSet, rxfreqGet_txfreqSet,
        rxfreq_get_set (c.freq / 10) _ (by omega),
        txfreqGet_applyExtras, txfreqGet_highpowerSet, txfreqGet_txToneSet,
        txfreqGet_rxToneSet, txfreqGet_wideSet,
        txfreq_get_set ((c.freq - c.offset) / 10) _ (by omega)]
      rw [if_neg (by omega), if_pos (by omega), hd]
      simp only [Prod.mk.injEq, true_and]
      omega
    · rw [wideGet_applyExtras, wideGet_highpowerSet, wideGet_txToneSet,
        wideGet_rxToneSet, wideGet_wideSet]
      cases c.wide <;> rfl
    · rw [rxToneGet_applyExtras, rxToneGet_highpowerSet, rxToneGet_txToneSet,
        rxtone_get_set _ _ (toneValues_lt d0 c htone).1]
    · rw [txToneGet_applyExtras, txToneGet_highpowerSet,
        txtone_get_set _ _ (toneValues_lt d0 c htone).2]
    · rw [if_neg (show ¬ (isRT29 ModelName.rb17a = true) from by decide)]
      rw [highpowerGet_applyExtras, highpowerGet_highpowerSet, hp]
      interval_cases i <;> rfl
    · rw [if_pos (show ModelName.rb17a ≠ ModelName.rt76 from by decide)]
      exact skip_decode_eq c.number c.skipS sk (by omega)
    · rw [hce]
      exact extrasOf_rb17a b s v q _ hb3 hs1 hs8 hv2 hq2

theorem roundtrip_rb26 (d0 c : CMem) (prior : Rec) (sk : List Nat)
    (hd0e : d0.empty = false) (hd0t : d0.tmode = TMode.tnone)
    (hsk : sk.length = 4)
    (hc : canonB ModelName.rb26 d0 c = true) :
    getMem ModelName.rb26 d0 (setMem ModelName.rb26 c prior sk).1
      (setMem ModelName.rb26 c prior sk).2 c.number = c := by
  unfold canonB at hc
  simp only [Bool.and_eq_true] at hc
  obtain ⟨⟨⟨⟨⟨hbase, hdup⟩, htone⟩, hpow⟩, hskip⟩, hext⟩ := hc
  unfold baseOk at hbase
  simp only [Bool.and_eq_true, beq_iff_eq, decide_eq_true_eq] at hbase
  obtain ⟨⟨⟨⟨⟨hemp, hn1⟩, hn2⟩, hf10⟩, hf0⟩, hfM⟩ := hbase
  rcases hce : c.extra with ⟨eb, es, ec, eo⟩
  unfold extrasOkB at hext
  rw [hce] at hext
  rcases eb with _ | b
  · simp at hext
  rcases es with _ | esx
  swap
  · simp at hext
  rcases ec with _ | ecx
  swap
  · simp at hext
  rcases eo with _ | q
  · simp at hext
  simp only [Bool.and_eq_true, decide_eq_true_eq] at hext
  obtain ⟨hb2, hq2⟩ := hext
  unfold powerOk at hpow
  rcases hp : c.power with _ | i
  · rw [hp] at hpow
    simp at hpow
  rw [hp] at hpow
  simp only [decide_eq_true_eq] at hpow
  replace hpow : i < 2 := hpow
  replace hn2 : c.number ≤ 30 := hn2
  unfold duplexOk at hdup
  cases hd : c.duplex <;> rw [hd] at hdup <;> dsimp only at hdup
  case offAir => exact absurd hdup (by decide)
  case split => exact absurd hdup (by decide)
  case simplex =>
    simp only [beq_iff_eq] at hdup
    have hg : (setMem ModelName.rb26 c prior sk).1
        = applyExtras ModelName.rb26 c.extra
            (highpowerSet ModelName.rb26 (if c.power = some 1 then 1 else 0)
              (txToneSet (toneValues c).2
                (rxToneSet (toneValues c).1
                  (wideSet ModelName.rb26 (if c.wide then 1 else 0)
                    (txfreqSet (c.freq / 10)
                      (rxfreqSet (c.freq / 10)
                        (defaultFill ModelName.rb26 prior)))))))
        ∧ (setMem ModelName.rb26 c prior sk).2
            = skipUpdate c.number c.skipS sk := by
      unfold setMem
      rw [hemp, hd]
      exact ⟨rfl, rfl⟩
    rw [hg.1, hg.2]
    refine getMem_canonical_decode ModelName.rb26 d0 c _ _ hd0e hd0t hemp hf0
      ?_ ?_ ?_ ?_ ?_ ?_ htone ?_ ?_ ?_
    · rw [rxfreqGet_applyExtras, rxfreqGet_highpowerSet, rxfreqGet_txToneSet,
        rxfreqGet_rxToneSet, rxfreqGet_wideSet, rxfreqGet_txfreqSet,
        rxfreq_get_set (c.freq / 10) _ (by omega)]
      omega
    · rw [rxRawFF_applyExtras, rxRawFF_highpowerSet, rxRawFF_txToneSet,
        rxRawFF_rxToneSet, rxRawFF_wideSet, rxRawFF_txfreqSet,
        rxRawFF_rxfreqSet]
    · rw [rxfreqGet_applyExtras, rxfreqGet_highpowerSet, rxfreqGet_txToneSet,
        rxfreqGet_rxToneSet, rxfreqGet_wideSet, rxfreqGet_txfreqSet,
        rxfreq_get_set (c.freq / 10) _ (by omega),
        txfreqGet_applyExtras, txfreqGet_highpowerSet, txfreqGet_txToneSet,
        txfreqGet_rxToneSet, txfreqGet_wideSet,
        txfreq_get_set (c.freq / 10) _ (by omega)]
      rw [if_pos rfl, hd, hdup]
    · rw [wideGet_applyExtras, wideGet_highpowerSet, wideGet_txToneSet,
        wideGet_rxToneSet, wideGet_wideSet]
      cases c.wide <;> rfl
    · rw [rxToneGet_applyExtras, rxToneGet_highpowerSet, rxToneGet_txToneSet,
        rxtone_get_set _ _ (toneValues_lt d0 c htone).1]
    · rw [txToneGet_applyExtras, txToneGet_highpowerSet,
        txtone_get_set _ _ (toneValues_lt d0 c htone).2]
    · rw [if_neg (show ¬ (isRT29 ModelName.rb26 = true) from by decide)]
      rw [highpowerGet_applyExtras, highpowerGet_highpowerSet, hp]
      interval_cases i <;> rfl
    · rw [if_pos (show ModelName.rb26 ≠ ModelName.rt76 from by decide)]
      exact skip_decode_eq c.number c.skipS sk (by omega)
    · rw [hce]
      exact extrasOf_rb26 b q _ hb2 hq2
  case plus =>
    simp only [Bool.and_eq_true, beq_iff_eq, decide_eq_true_eq] at hdup
    obtain ⟨⟨ho1, ho2⟩, ho3⟩ := hdup
    have hg : (setMem ModelName.rb26 c prior sk).1
        = applyExtras ModelName.rb26 c.extra
            (highpowerSet ModelName.rb26 (if c.power = some 1 then 1 else 0)
              (txToneSet (toneValues c).2
                (rxToneSet (toneValues c).1
                  (wideSet ModelName.rb26 (if c.wide then 1 else 0)
                    (txfreqSet ((c.freq + c.offset) / 10)
                      (rxfreqSet (c.freq / 10)
                        (defaultFill ModelName.rb26 prior)))))))
        ∧ (setMem ModelName.rb26 c prior sk).2
            = skipUpdate c.number c.skipS sk := by
      unfold setMem
      rw [hemp, hd]
      exact ⟨rfl, rfl⟩
    rw [hg.1, hg.2]
    refine getMem_canonical_decode ModelName.rb26 d0 c _ _ hd0e hd0t hemp hf0
      ?_ ?_ ?_ ?_ ?_ ?_ htone ?_ ?_ ?_
    · rw [rxfreqGet_applyExtras, rxfreqGet_highpowerSet, rxfreqGet_txToneSet,
        rxfreqGet_rxToneSet, rxfreqGet_wideSet, rxfreqGet_txfreqSet,
        rxfreq_get_set (c.freq / 10) _ (by omega)]
      omega
    · rw [rxRawFF_applyExtras, rxRawFF_highpowerSet, rxRawFF_txToneSet,
        rxRawFF_rxToneSet, rxRawFF_wideSet, rxRawFF_txfreqSet,
        rxRawFF_rxfreqSet]
    · rw [rxfreqGet_applyExtras, rxfreqGet_highpowerSet, rxfreqGet_txToneSet,
        rxfreqGet_rxToneSet, rxfreqGet_wideSet, rxfreqGet_txfreqSet,
        rxfreq_get_set (c.freq / 10) _ (by omega),
        txfreqGet_applyExtras, txfreqGet_highpowerSet, txfreqGet_txToneSet,
        txfreqGet_rxToneSet, txfreqGet_wideSet,
        txfreq_get_set ((c.freq + c.offset) / 10) _ (by omega)]
      rw [if_neg (by omega), if_neg (by omega), hd]
      simp only [Prod.mk.injEq, true_and]
      omega
    · rw [wideGet_applyExtras, wideGet_highpowerSet, wideGet_txToneSet,
        wideGet_rxToneSet, wideGet_wideSet]
      cases c.wide <;> rfl
    · rw [rxToneGet_applyExtras, rxToneGet_highpowerSet, rxToneGet_txToneSet,
        rxtone_get_set _ _ (toneValues_lt d0 c htone).1]
    · rw [txToneGet_applyExtras, txToneGet_highpowerSet,
        txtone_get_set _ _ (toneValues_lt d0 c htone).2]
    · rw [if_neg (show ¬ (isRT29 ModelName.rb26 = true) from by decide)]
      rw [highpowerGet_applyExtras, highpowerGet_highpowerSet, hp]
      interval_cases i <;> rfl
    · rw [if_pos (show ModelName.rb26 ≠ ModelName.rt76 from by decide)]
      exact skip_decode_eq c.number c.skipS sk (by omega)
    · rw [hce]
      exact extrasOf_rb26 b q _ hb2 hq2
  case minus =>
    simp only [Bool.and_eq_true, beq_iff_eq, decide_eq_true_eq] at hdup
    obtain ⟨⟨ho1, ho2⟩, ho3⟩ := hdup
    have hg : (setMem ModelName.rb26 c prior sk).1
        = applyExtras ModelName.rb26 c.extra
            (highpowerSet ModelName.rb26 (if c.power = some 1 then 1 else 0)
              (txToneSet (toneValues c).2
                (rxToneSet (toneValues c).1
                  (wideSet ModelName.rb26 (if c.wide then 1 else 0)
                    (txfreqSet ((c.freq - c.offset) / 10)
                      (rxfreqSet (c.freq / 10)
                        (defaultFill ModelName.rb26 prior)))))))
        ∧ (setMem ModelName.rb26 c prior sk).2
            = skipUpdate c.number c.skipS sk := by
      unfold setMem
      rw [hemp, hd]
      exact ⟨rfl, rfl⟩
    rw [hg.1, hg.2]
    refine getMem_canonical_decode ModelName.rb26 d0 c _ _ hd0e hd0t hemp hf0
      ?_ ?_ ?_ ?_ ?_ ?_ htone ?_ ?_ ?_
    · rw [rxfreqGet_applyExtras, rxfreqGet_highpowerSet, rxfreqGet_txToneSet,
        rxfreqGet_rxToneSet, rxfreqGet_wideSet, rxfreqGet_txfreqSet,
        rxfreq_get_set (c.freq / 10) _ (by omega)]
      omega
    · rw [rxRawFF_applyExtras, rxRawFF_highpowerSet, rxRawFF_txToneSet,
        rxRawFF_rxToneSet, rxRawFF_wideSet, rxRawFF_txfreqSet,
        rxRawFF_rxfreqSet]
    · rw [rxfreqGet_applyExtras, rxfreqGet_highpowerSet, rxfreqGet_txToneSet,
        rxfreqGet_rxToneSet, rxfreqGet_wideSet, rxfreqGet_txfreqSet,
        rxfreq_get_set (c.freq / 10) _ (by omega),
        txfreqGet_applyExtras, txfreqGet_highpowerSet, txfreqGet_txToneSet,
        txfreqGet_rxToneSet, txfreqGet_wideSet,
        txfreq_get_set ((c.freq - c.offset) / 10) _ (by omega)]
      rw [if_neg (by omega), if_pos (by omega), hd]
      simp only [Prod.mk.injEq, true_and]
      omega
    · rw [wideGet_applyExtras, wideGet_highpowerSet, wideGet_txToneSet,
        wideGet_rxToneSet, wideGet_wideSet]
      cases c.wide <;> rfl
    · rw [rxToneGet_applyExtras, rxToneGet_highpowerSet, rxToneGet_txToneSet,
        rxtone_get_set _ _ (toneValues_lt d0 c htone).1]
    · rw [txToneGet_applyExtras, txToneGet_highpowerSet,
        txtone_get_set _ _ (toneValues_lt d0 c htone).2]
    · rw [if_neg (show ¬ (isRT29 ModelName.rb26 = true) from by decide)]
      rw [highpowerGet_applyExtras, highpowerGet_highpowerSet, hp]
      interval_cases i <;> rfl
    · rw [if_pos (show ModelName.rb26 ≠ ModelName.rt76 from by decide)]
      exact skip_decode_eq c.number c.skipS sk (by omega)
    · rw [hce]
      exact extrasOf_rb26 b q _ hb2 hq2

theorem roundtrip_rt76 (d0 c : CMem) (prior : Rec) (sk : List Nat)
    (hd0e : d0.empty = false) (hd0t : d0.tmode = TMode.tnone)
    (hc : canonB ModelName.rt76 d0 c = true) :
    getMem ModelName.rt76 d0 (setMem ModelName.rt76 c prior sk).1
      (setMem ModelName.rt76 c prior sk).2 c.number = c := by
  unfold canonB at hc
  simp only [Bool.and_eq_true] at hc
  obtain ⟨⟨⟨⟨⟨hbase, hdup⟩, htone⟩, hpow⟩, hskip⟩, hext⟩ := hc
  unfold baseOk at hbase
  simp only [Bool.and_eq_true, beq_iff_eq, decide_eq_true_eq] at hbase
  obtain ⟨⟨⟨⟨⟨hemp, hn1⟩, hn2⟩, hf10⟩, hf0⟩, hfM⟩ := hbase
  rcases hce : c.extra with ⟨eb, es, ec, eo⟩
  unfold extrasOkB at hext
  rw [hce] at hext
  rcases eb with _ | ebx
  swap
  · simp at hext
  rcases es with _ | esx
  swap
  · simp at hext
  rcases ec with _ | ecx
  swap
  · simp at hext
  rcases eo with _ | q
  · simp at hext
  simp only [Bool.and_eq_true, decide_eq_true_eq] at hext
  replace hext : q < 2 := hext
  unfold powerOk at hpow
  rcases hp : c.power with _ | i
  · rw [hp] at hpow
    simp at hpow
  rw [hp] at hpow
  simp only [decide_eq_true_eq] at hpow
  replace hpow : i < 2 := hpow
  replace hn2 : c.number ≤ 30 := hn2
  unfold duplexOk at hdup
  cases hd : c.duplex <;> rw [hd] at hdup <;> dsimp only at hdup
  case offAir => exact absurd hdup (by decide)
  case split => exact absurd hdup (by decide)
  case simplex =>
    simp only [beq_iff_eq] at hdup
    have hg : (setMem ModelName.rt76 c prior sk).1
        = applyExtras ModelName.rt76 c.extra
            (highpowerSet ModelName.rt76 (if c.power = some 1 then 1 else 0)
              (txToneSet (toneValues c).2
                (rxToneSet (toneValues c).1
                  (wideSet ModelName.rt76 (if c.wide then 1 else 0)
                    (txfreqSet (c.freq / 10)
                      (rxfreqSet (c.freq / 10)
                        (defaultFill ModelName.rt76 prior)))))))
        ∧ (setMem ModelName.rt76 c prior sk).2
            = sk := by
      unfold setMem
      rw [hemp, hd]
      exact ⟨rfl, rfl⟩
    rw [hg.1, hg.2]
    refine getMem_canonical_decode ModelName.rt76 d0 c _ _ hd0e hd0t hemp hf0
      ?_ ?_ ?_ ?_ ?_ ?_ htone ?_ ?_ ?_
    · rw [rxfreqGet_applyExtras, rxfreqGet_highpowerSet, rxfreqGet_txToneSet,
        rxfreqGet_rxToneSet, rxfreqGet_wideSet, rxfreqGet_txfreqSet,
        rxfreq_get_set (c.freq / 10) _ (by omega)]
      omega
    · rw [rxRawFF_applyExtras, rxRawFF_highpowerSet, rxRawFF_txToneSet,
        rxRawFF_rxToneSet, rxRawFF_wideSet, rxRawFF_txfreqSet,
        rxRawFF_rxfreqSet]
    · rw [rxfreqGet_applyExtras, rxfreqGet_highpowerSet, rxfreqGet_txToneSet,
        rxfreqGet_rxToneSet, rxfreqGet_wideSet, rxfreqGet_txfreqSet,
        rxfreq_get_set (c.freq / 10) _ (by omega),
        txfreqGet_applyExtras, txfreqGet_highpowerSet, txfreqGet_txToneSet,
        txfreqGet_rxToneSet, txfreqGet_wideSet,
        txfreq_get_set (c.freq / 10) _ (by omega)]
      rw [if_pos rfl, hd, hdup]
    · rw [wideGet_applyExtras, wideGet_highpowerSet, wideGet_txToneSet,
        wideGet_rxToneSet, wideGet_wideSet]
      cases c.wide <;> rfl
    · rw [rxToneGet_applyExtras, rxToneGet_highpowerSet, rxToneGet_txToneSet,
        rxtone_get_set _ _ (toneValues_lt d0 c htone).1]
    · rw [txToneGet_applyExtras, txToneGet_highpowerSet,
        txtone_get_set _ _ (toneValues_lt d0 c htone).2]
    · rw [if_neg (show ¬ (isRT29 ModelName.rt76 = true) from by decide)]
      rw [highpowerGet_applyExtras, highpowerGet_highpowerSet, hp]
      interval_cases i <;> rfl
    · rw [if_neg (show ¬ (ModelName.rt76 ≠ ModelName.rt76) from by decide)]
      simp only [skipOk, reduceIte, beq_iff_eq] at hskip
      exact hskip.symm
    · rw [hce]
      exact extrasOf_rt76 q _ hext
  case plus =>
    simp only [Bool.and_eq_true, beq_iff_eq, decide_eq_true_eq] at hdup
    obtain ⟨⟨ho1, ho2⟩, ho3⟩ := hdup
    have hg : (setMem ModelName.rt76 c prior sk).1
        = applyExtras ModelName.rt76 c.extra
            (highpowerSet ModelName.rt76 (if c.power = some 1 then 1 else 0)
              (txToneSet (toneValues c).2
                (rxToneSet (toneValues c).1
                  (wideSet ModelName.rt76 (if c.wide then 1 else 0)
                    (txfreqSet ((c.freq + c.offset) / 10)
                      (rxfreqSet (c.freq / 10)
                        (defaultFill ModelName.rt76 prior)))))))
        ∧ (setMem ModelName.rt76 c prior sk).2
            = sk := by
      unfold setMem
      rw [hemp, hd]
      exact ⟨rfl, rfl⟩
    rw [hg.1, hg.2]
    refine getMem_canonical_decode ModelName.rt76 d0 c _ _ hd0e hd0t hemp hf0
      ?_ ?_ ?_ ?_ ?_ ?_ htone ?_ ?_ ?_
    · rw [rxfreqGet_applyExtras, rxfreqGet_highpowerSet, rxfreqGet_txToneSet,
        rxfreqGet_rxToneSet, rxfreqGet_wideSet, rxfreqGet_txfreqSet,
        rxfreq_get_set (c.freq / 10) _ (by omega)]
      omega
    · rw [rxRawFF_applyExtras, rxRawFF_highpowerSet, rxRawFF_txToneSet,
        rxRawFF_rxToneSet, rxRawFF_wideSet, rxRawFF_txfreqSet,
        rxRawFF_rxfreqSet]
    · rw [rxfreqGet_applyExtras, rxfreqGet_highpowerSet, rxfreqGet_txToneSet,
        rxfreqGet_rxToneSet, rxfreqGet_wideSet, rxfreqGet_txfreqSet,
        rxfreq_get_set (c.freq / 10) _ (by omega),
        txfreqGet_applyExtras, txfreqGet_highpowerSet, txfreqGet_txToneSet,
        txfreqGet_rxToneSet, txfreqGet_wideSet,
        txfreq_get_set ((c.freq + c.offset) / 10) _ (by omega)]
      rw [if_neg (by omega), if_neg (by omega), hd]
      simp only [Prod.mk.injEq, true_and]
      omega
    · rw [wideGet_applyExtras, wideGet_highpowerSet, wideGet_txToneSet,
        wideGet_rxToneSet, wideGet_wideSet]
      cases c.wide <;> rfl
    · rw [rxToneGet_applyExtras, rxToneGet_highpowerSet, rxToneGet_txToneSet,
        rxtone_get_set _ _ (toneValues_lt d0 c htone).1]
    · rw [txToneGet_applyExtras, txToneGet_highpowerSet,
        txtone_get_set _ _ (toneValues_lt d0 c htone).2]
    · rw [if_neg (show ¬ (isRT29 ModelName.rt76 = true) from by decide)]
      rw [highpowerGet_applyExtras, highpowerGet_highpowerSet, hp]
      interval_cases i <;> rfl
    · rw [if_neg (show ¬ (ModelName.rt76 ≠ ModelName.rt76) from by decide)]
      simp only [skipOk, reduceIte, beq_iff_eq] at hskip
      exact hskip.symm
    · rw [hce]
      exact extrasOf_rt76 q _ hext
  case minus =>
    simp only [Bool.and_eq_true, beq_iff_eq, decide_eq_true_eq] at hdup
    obtain ⟨⟨ho1, ho2⟩, ho3⟩ := hdup
    have hg : (setMem ModelName.rt76 c prior sk).1
        = applyExtras ModelName.rt76 c.extra
            (highpowerSet ModelName.rt76 (if c.power = some 1 then 1 else 0)
              (txToneSet (toneValues c).2
                (rxToneSet (toneValues c).1
                  (wideSet ModelName.rt76 (if c.wide then 1 else 0)
                    (txfreqSet ((c.freq - c.offset) / 10)
                      (rxfreqSet (c.freq / 10)
                        (defaultFill ModelName.rt76 prior)))))))
        ∧ (setMem ModelName.rt76 c prior sk).2
            = sk := by
      unfold setMem
      rw [hemp, hd]
      exact ⟨rfl, rfl⟩
    rw [hg.1, hg.2]
    refine getMem_canonical_decode ModelName.rt76 d0 c _ _ hd0e hd0t hemp hf0
      ?_ ?_ ?_ ?_ ?_ ?_ htone ?_ ?_ ?_
    · rw [rxfreqGet_applyExtras, rxfreqGet_highpowerSet, rxfreqGet_txToneSet,
        rxfreqGet_rxToneSet, rxfreqGet_wideSet, rxfreqGet_txfreqSet,
        rxfreq_get_set (c.freq / 10) _ (by omega)]
      omega
    · rw [rxRawFF_applyExtras, rxRawFF_highpowerSet, rxRawFF_txToneSet,
        rxRawFF_rxToneSet, rxRawFF_wideSet, rxRawFF_txfreqSet,
        rxRawFF_rxfreqSet]
    · rw [rxfreqGet_applyExtras, rxfreqGet_highpowerSet, rxfreqGet_txToneSet,
        rxfreqGet_rxToneSet, rxfreqGet_wideSet, rxfreqGet_txfreqSet,
        rxfreq_get_set (c.freq / 10) _ (by omega),
        txfreqGet_applyExtras, txfreqGet_highpowerSet, txfreqGet_txToneSet,
        txfreqGet_rxToneSet, txfreqGet_wideSet,
        txfreq_get_set ((c.freq - c.offset) / 10) _ (by omega)]
      rw [if_neg (by omega), if_pos (by omega), hd]
      simp only [Prod.mk.injEq, true_and]
      omega
    · rw [wideGet_applyExtras, wideGet_highpowerSet, wideGet_txToneSet,
        wideGet_rxToneSet, wideGet_wideSet]
      cases c.wide <;> rfl
    · rw [rxToneGet_applyExtras, rxToneGet_highpowerSet, rxToneGet_txToneSet,
        rxtone_get_set _ _ (toneValues_lt d0 c htone).1]
    · rw [txToneGet_applyExtras, txToneGet_highpowerSet,
        txtone_get_set _ _ (toneValues_lt d0 c htone).2]
    · rw [if_neg (show ¬ (isRT29 ModelName.rt76 = true) from by decide)]
      rw [highpowerGet_applyExtras, highpowerGet_highpowerSet, hp]
      interval_cases i <;> rfl
    · rw [if_neg (show ¬ (ModelName.rt76 ≠ ModelName.rt76) from by decide)]
      simp only [skipOk, reduceIte, beq_iff_eq] at hskip
      exact hskip.symm
    · rw [hce]
      exact extrasOf_rt76 q _ hext

theorem roundtrip_rt29u (d0 c : CMem) (prior : Rec) (sk : List Nat)
    (hd0e : d0.empty = false) (hd0t : d0.tmode = TMode.tnone)
    (hsk : sk.length = 2)
    (hc : canonB ModelName.rt29u d0 c = true) :
    getMem ModelName.rt29u d0 (setMem ModelName.rt29u c prior sk).1
      (setMem ModelName.rt29u c prior sk).2 c.number = c := by
  unfold canonB at hc
  simp only [Bool.and_eq_true] at hc
  obtain ⟨⟨⟨⟨⟨hbase, hdup⟩, htone⟩, hpow⟩, hskip⟩, hext⟩ := hc
  unfold baseOk at hbase
  simp only [Bool.and_eq_true, beq_iff_eq, decide_eq_true_eq] at hbase
  obtain ⟨⟨⟨⟨⟨hemp, hn1⟩, hn2⟩, hf10⟩, hf0⟩, hfM⟩ := hbase
  rcases hce : c.extra with ⟨eb, es, ec, eo⟩
  unfold extrasOkB at hext
  rw [hce] at hext
  rcases eb with _ | b
  · simp at hext
  rcases es with _ | s
  · simp at hext
  rcases ec with _ | v
  · simp at hext
  rcases eo with _ | q
  · simp at hext
  simp only [Bool.and_eq_true, decide_eq_true_eq] at hext
  obtain ⟨⟨⟨⟨hb3, hs1⟩, hs8⟩, hv2⟩, hq2⟩ := hext
  unfold powerOk at hpow
  rcases hp : c.power with _ | i
  · rw [hp] at hpow
    simp at hpow
  rw [hp] at hpow
  simp only [decide_eq_true_eq] at hpow
  replace hpow : i < 3 := hpow
  replace hn2 : c.number ≤ 16 := hn2
  unfold duplexOk at hdup
  cases hd : c.duplex <;> rw [hd] at hdup <;> dsimp only at hdup
  case offAir => exact absurd hdup (by decide)
  case split => exact absurd hdup (by decide)
  case simplex =>
    simp only [beq_iff_eq] at hdup
    have hg : (setMem ModelName.rt29u c prior sk).1
        = applyExtras ModelName.rt29u c.extra
            (txpowerSet (if i = 2 then 2 else if i = 1 then 0 else 1)
              (txToneSet (toneValues c).2
                (rxToneSet (toneValues c).1
                  (wideSet ModelName.rt29u (if c.wide then 1 else 0)
                    (txfreqSet (c.freq / 10)
                      (rxfreqSet (c.freq / 10)
                        (defaultFill ModelName.rt29u prior)))))))
        ∧ (setMem ModelName.rt29u c prior sk).2
            = skipUpdate c.number c.skipS sk := by
      unfold setMem
      rw [hemp, hd, hp]
      interval_cases i <;> exact ⟨rfl, rfl⟩
    rw [hg.1, hg.2]
    refine getMem_canonical_decode ModelName.rt29u d0 c _ _ hd0e hd0t hemp hf0
      ?_ ?_ ?_ ?_ ?_ ?_ htone ?_ ?_ ?_
    · rw [rxfreqGet_applyExtras, rxfreqGet_txpowerSet, rxfreqGet_txToneSet,
        rxfreqGet_rxToneSet, rxfreqGet_wideSet, rxfreqGet_txfreqSet,
        rxfreq_get_set (c.freq / 10) _ (by omega)]
      omega
    · rw [rxRawFF_applyExtras, rxRawFF_txpowerSet, rxRawFF_txToneSet,
        rxRawFF_rxToneSet, rxRawFF_wideSet, rxRawFF_txfreqSet,
        rxRawFF_rxfreqSet]
    · rw [rxfreqGet_applyExtras, rxfreqGet_txpowerSet, rxfreqGet_txToneSet,
        rxfreqGet_rxToneSet, rxfreqGet_wideSet, rxfreqGet_txfreqSet,
        rxfreq_get_set (c.freq / 10) _ (by omega),
        txfreqGet_applyExtras, txfreqGet_txpowerSet, txfreqGet_txToneSet,
        txfreqGet_rxToneSet, txfreqGet_wideSet,
        txfreq_get_set (c.freq / 10) _ (by omega)]
      rw [if_pos rfl, hd, hdup]
    · rw [wideGet_applyExtras, wideGet_txpowerSet, wideGet_txToneSet,
        wideGet_rxToneSet, wideGet_wideSet]
      cases c.wide <;> rfl
    · rw [rxToneGet_applyExtras, rxToneGet_txpowerSet, rxToneGet_txToneSet,
        rxtone_get_set _ _ (toneValues_lt d0 c htone).1]
    · rw [txToneGet_applyExtras, txToneGet_txpowerSet,
        txtone_get_set _ _ (toneValues_lt d0 c htone).2]
    · rw [if_pos (show isRT29 ModelName.rt29u = true from by decide)]
      rw [txpowerGet_applyExtras, txpowerGet_txpowerSet, hp]
      interval_cases i <;> rfl
    · rw [if_pos (show ModelName.rt29u ≠ ModelName.rt76 from by decide)]
      exact skip_decode_eq c.number c.skipS sk (by omega)
    · rw [hce]
      exact extrasOf_rt29u b s v q _ hb3 hs1 hs8 hv2 hq2
  case plus =>
    simp only [Bool.and_eq_true, beq_iff_eq, decide_eq_true_eq] at hdup
    obtain ⟨⟨ho1, ho2⟩, ho3⟩ := hdup
    have hg : (setMem ModelName.rt29u c prior sk).1
        = applyExtras ModelName.rt29u c.extra
            (txpowerSet (if i = 2 then 2 else if i = 1 then 0 else 1)
              (txToneSet (toneValues c).2
                (rxToneSet (toneValues c).1
                  (wideSet ModelName.rt29u (if c.wide then 1 else 0)
                    (txfreqSet ((c.freq + c.offset) / 10)
                      (rxfreqSet (c.freq / 10)
                        (defaultFill ModelName.rt29u prior)))))))
        ∧ (setMem ModelName.rt29u c prior sk).2
            = skipUpdate c.number c.skipS sk := by
      unfold setMem
      rw [hemp, hd, hp]
      interval_cases i <;> exact ⟨rfl, rfl⟩
    rw [hg.1, hg.2]
    refine getMem_canonical_decode ModelName.rt29u d0 c _ _ hd0e hd0t hemp hf0
      ?_ ?_ ?_ ?_ ?_ ?_ htone ?_ ?_ ?_
    · rw [rxfreqGet_applyExtras, rxfreqGet_txpowerSet, rxfreqGet_txToneSet,
        rxfreqGet_rxToneSet, rxfreqGet_wideSet, rxfreqGet_txfreqSet,
        rxfreq_get_set (c.freq / 10) _ (by omega)]
      omega
    · rw [rxRawFF_applyExtras, rxRawFF_txpowerSet, rxRawFF_txToneSet,
        rxRawFF_rxToneSet, rxRawFF_wideSet, rxRawFF_txfreqSet,
        rxRawFF_rxfreqSet]
    · rw [rxfreqGet_applyExtras, rxfreqGet_txpowerSet, rxfreqGet_txToneSet,
        rxfreqGet_rxToneSet, rxfreqGet_wideSet, rxfreqGet_txfreqSet,
        rxfreq_get_set (c.freq / 10) _ (by omega),
        txfreqGet_applyExtras, txfreqGet_txpowerSet, txfreqGet_txToneSet,
        txfreqGet_rxToneSet, txfreqGet_wideSet,
        txfreq_get_set ((c.freq + c.offset) / 10) _ (by omega)]
      rw [if_neg (by omega), if_neg (by omega), hd]
      simp only [Prod.mk.injEq, true_and]
      omega
    · rw [wideGet_applyExtras, wideGet_txpowerSet, wideGet_txToneSet,
        wideGet_rxToneSet, wideGet_wideSet]
      cases c.wide <;> rfl
    · rw [rxToneGet_applyExtras, rxToneGet_txpowerSet, rxToneGet_txToneSet,
        rxtone_get_set _ _ (toneValues_lt d0 c htone).1]
    · rw [txToneGet_applyExtras, txToneGet_txpowerSet,
        txtone_get_set _ _ (toneValues_lt d0 c htone).2]
    · rw [if_pos (show isRT29 ModelName.rt29u = true from by decide)]
      rw [txpowerGet_applyExtras, txpowerGet_txpowerSet, hp]
      interval_cases i <;> rfl
    · rw [if_pos (show ModelName.rt29u ≠ ModelName.rt76 from by decide)]
      exact skip_decode_eq c.number c.skipS sk (by omega)
    · rw [hce]
      exact extrasOf_rt29u b s v q _ hb3 hs1 hs8 hv2 hq2
  case minus =>
    simp only [Bool.and_eq_true, beq_iff_eq, decide_eq_true_eq] at hdup
    obtain ⟨⟨ho1, ho2⟩, ho3⟩ := hdup
    have hg : (setMem ModelName.rt29u c prior sk).1
        = applyExtras ModelName.rt29u c.extra
            (txpowerSet (if i = 2 then 2 else if i = 1 then 0 else 1)
              (txToneSet (toneValues c).2
                (rxToneSet (toneValues c).1
                  (wideSet ModelName.rt29u (if c.wide then 1 else 0)
                    (txfreqSet ((c.freq - c.offset) / 10)
                      (rxfreqSet (c.freq / 10)
                        (defaultFill ModelName.rt29u prior)))))))
        ∧ (setMem ModelName.rt29u c prior sk).2
            = skipUpdate c.number c.skipS sk := by
      unfold setMem
      rw [hemp, hd, hp]
      interval_cases i <;> exact ⟨rfl, rfl⟩
    rw [hg.1, hg.2]
    refine getMem_canonical_decode ModelName.rt29u d0 c _ _ hd0e hd0t hemp hf0
      ?_ ?_ ?_ ?_ ?_ ?_ htone ?_ ?_ ?_
    · rw [rxfreqGet_applyExtras, rxfreqGet_txpowerSet, rxfreqGet_txToneSet,
        rxfreqGet_rxToneSet, rxfreqGet_wideSet, rxfreqGet_txfreqSet,
        rxfreq_get_set (c.freq / 10) _ (by omega)]
      omega
    · rw [rxRawFF_applyExtras, rxRawFF_txpowerSet, rxRawFF_txToneSet,
        rxRawFF_rxToneSet, rxRawFF_wideSet, rxRawFF_txfreqSet,
        rxRawFF_rxfreqSet]
    · rw [rxfreqGet_applyExtras, rxfreqGet_txpowerSet, rxfreqGet_txToneSet,
        rxfreqGet_rxToneSet, rxfreqGet_wideSet, rxfreqGet_txfreqSet,
        rxfreq_get_set (c.freq / 10) _ (by omega),
        txfreqGet_applyExtras, txfreqGet_txpowerSet, txfreqGet_txToneSet,
        txfreqGet_rxToneSet, txfreqGet_wideSet,
        txfreq_get_set ((c.freq - c.offset) / 10) _ (by omega)]
      rw [if_neg (by omega), if_pos (by omega), hd]
      simp only [Prod.mk.injEq, true_and]
      omega
    · rw [wideGet_applyExtras, wideGet_txpowerSet, wideGet_txToneSet,
        wideGet_rxToneSet, wideGet_wideSet]
      cases c.wide <;> rfl
    · rw [rxToneGet_applyExtras, rxToneGet_txpowerSet, rxToneGet_txToneSet,
        rxtone_get_set _ _ (toneValues_lt d0 c htone).1]
    · rw [txToneGet_applyExtras, txToneGet_txpowerSet,
        txtone_get_set _ _ (toneValues_lt d0 c htone).2]
    · rw [if_pos (show isRT29 ModelName.rt29u = true from by decide)]
      rw [txpowerGet_applyExtras, txpowerGet_txpowerSet, hp]
      interval_cases i <;> rfl
    · rw [if_pos (show ModelName.rt29u ≠ ModelName.rt76 from by decide)]
      exact skip_decode_eq c.number c.skipS sk (by omega)
    · rw [hce]
      exact extrasOf_rt29u b s v q _ hb3 hs1 hs8 hv2 hq2

theorem roundtrip_rt29v (d0 c : CMem) (prior : Rec) (sk : List Nat)
    (hd0e : d0.empty = false) (hd0t : d0.tmode = TMode.tnone)
    (hsk : sk.length = 2)
    (hc : canonB ModelName.rt29v d0 c = true) :
    getMem ModelName.rt29v d0 (setMem ModelName.rt29v c prior sk).1
      (setMem ModelName.rt29v c prior sk).2 c.number = c := by
  unfold canonB at hc
  simp only [Bool.and_eq_true] at hc
  obtain ⟨⟨⟨⟨⟨hbase, hdup⟩, htone⟩, hpow⟩, hskip⟩, hext⟩ := hc
  unfold baseOk at hbase
  simp only [Bool.and_eq_true, beq_iff_eq, decide_eq_true_eq] at hbase
  obtain ⟨⟨⟨⟨⟨hemp, hn1⟩, hn2⟩, hf10⟩, hf0⟩, hfM⟩ := hbase
  rcases hce : c.extra with ⟨eb, es, ec, eo⟩
  unfold extrasOkB at hext
  rw [hce] at hext
  rcases eb with _ | b
  · simp at hext
  rcases es with _ | s
  · simp at hext
  rcases ec with _ | v
  · simp at hext
  rcases eo with _ | q
  · simp at hext
  simp only [Bool.and_eq_true, decide_eq_true_eq] at hext
  obtain ⟨⟨⟨⟨hb3, hs1⟩, hs8⟩, hv2⟩, hq2⟩ := hext
  unfold powerOk at hpow
  rcases hp : c.power with _ | i
  · rw [hp] at hpow
    simp at hpow
  rw [hp] at hpow
  simp only [decide_eq_true_eq] at hpow
  replace hpow : i < 3 := hpow
  replace hn2 : c.number ≤ 16 := hn2
  unfold duplexOk at hdup
  cases hd : c.duplex <;> rw [hd] at hdup <;> dsimp only at hdup
  case offAir => exact absurd hdup (by decide)
  case split => exact absurd hdup (by decide)
  case simplex =>
    simp only [beq_iff_eq] at hdup
    have hg : (setMem ModelName.rt29v c prior sk).1
        = applyExtras ModelName.rt29v c.extra
            (txpowerSet (if i = 2 then 2 else if i = 1 then 0 else 1)
              (txToneSet (toneValues c).2
                (rxToneSet (toneValues c).1
                  (wideSet ModelName.rt29v (if c.wide then 1 else 0)
                    (txfreqSet (c.freq / 10)
                      (rxfreqSet (c.freq / 10)
                        (defaultFill ModelName.rt29v prior)))))))
        ∧ (setMem ModelName.rt29v c prior sk).2
            = skipUpdate c.number c.skipS sk := by
      unfold setMem
      rw [hemp, hd, hp]
      interval_cases i <;> exact ⟨rfl, rfl⟩
    rw [hg.1, hg.2]
    refine getMem_canonical_decode ModelName.rt29v d0 c _ _ hd0e hd0t hemp hf0
      ?_ ?_ ?_ ?_ ?_ ?_ htone ?_ ?_ ?_
    · rw [rxfreqGet_applyExtras, rxfreqGet_txpowerSet, rxfreqGet_txToneSet,
        rxfreqGet_rxToneSet, rxfreqGet_wideSet, rxfreqGet_txfreqSet,
        rxfreq_get_set (c.freq / 10) _ (by omega)]
      omega
    · rw [rxRawFF_applyExtras, rxRawFF_txpowerSet, rxRawFF_txToneSet,
        rxRawFF_rxToneSet, rxRawFF_wideSet, rxRawFF_txfreqSet,
        rxRawFF_rxfreqSet]
    · rw [rxfreqGet_applyExtras, rxfreqGet_txpowerSet, rxfreqGet_txToneSet,
        rxfreqGet_rxToneSet, rxfreqGet_wideSet, rxfreqGet_txfreqSet,
        rxfreq_get_set (c.freq / 10) _ (by omega),
        txfreqGet_applyExtras, txfreqGet_txpowerSet, txfreqGet_txToneSet,
        txfreqGet_rxToneSet, txfreqGet_wideSet,
        txfreq_get_set (c.freq / 10) _ (by omega)]
      rw [if_pos rfl, hd, hdup]
    · rw [wideGet_applyExtras, wideGet_txpowerSet, wideGet_txToneSet,
        wideGet_rxToneSet, wideGet_wideSet]
      cases c.wide <;> rfl
    · rw [rxToneGet_applyExtras, rxToneGet_txpowerSet, rxToneGet_txToneSet,
        rxtone_get_set _ _ (toneValues_lt d0 c htone).1]
    · rw [txToneGet_applyExtras, txToneGet_txpowerSet,
        txtone_get_set _ _ (toneValues_lt d0 c htone).2]
    · rw [if_pos (show isRT29 ModelName.rt29v = true from by decide)]
      rw [txpowerGet_applyExtras, txpowerGet_txpowerSet, hp]
      interval_cases i <;> rfl
    · rw [if_pos (show ModelName.rt29v ≠ ModelName.rt76 from by decide)]
      exact skip_decode_eq c.number c.skipS sk (by omega)
    · rw [hce]
      exact extrasOf_rt29v b s v q _ hb3 hs1 hs8 hv2 hq2
  case plus =>
    simp only [Bool.and_eq_true, beq_iff_eq, decide_eq_true_eq] at hdup
    obtain ⟨⟨ho1, ho2⟩, ho3⟩ := hdup
    have hg : (setMem ModelName.rt29v c prior sk).1
        = applyExtras ModelName.rt29v c.extra
            (txpowerSet (if i = 2 then 2 else if i = 1 then 0 else 1)
              (txToneSet (toneValues c).2
                (rxToneSet (toneValues c).1
                  (wideSet ModelName.rt29v (if c.wide then 1 else 0)
                    (txfreqSet ((c.freq + c.offset) / 10)
                      (rxfreqSet (c.freq / 10)
                        (defaultFill ModelName.rt29v prior)))))))
        ∧ (setMem ModelName.rt29v c prior sk).2
            = skipUpdate c.number c.skipS sk := by
      unfold setMem
      rw [hemp, hd, hp]
      interval_cases i <;> exact ⟨rfl, rfl⟩
    rw [hg.1, hg.2]
    refine getMem_canonical_decode ModelName.rt29v d0 c _ _ hd0e hd0t hemp hf0
      ?_ ?_ ?_ ?_ ?_ ?_ htone ?_ ?_ ?_
    · rw [rxfreqGet_applyExtras, rxfreqGet_txpowerSet, rxfreqGet_txToneSet,
        rxfreqGet_rxToneSet, rxfreqGet_wideSet, rxfreqGet_txfreqSet,
        rxfreq_get_set (c.freq / 10) _ (by omega)]
      omega
    · rw [rxRawFF_applyExtras, rxRawFF_txpowerSet, rxRawFF_txToneSet,
        rxRawFF_rxToneSet, rxRawFF_wideSet, rxRawFF_txfreqSet,
        rxRawFF_rxfreqSet]
    · rw [rxfreqGet_applyExtras, rxfreqGet_txpowerSet, rxfreqGet_txToneSet,
        rxfreqGet_rxToneSet, rxfreqGet_wideSet, rxfreqGet_txfreqSet,
        rxfreq_get_set (c.freq / 10) _ (by omega),
        txfreqGet_applyExtras, txfreqGet_txpowerSet, txfreqGet_txToneSet,
        txfreqGet_rxToneSet, txfreqGet_wideSet,
        txfreq_get_set ((c.freq + c.offset) / 10) _ (by omega)]
      rw [if_neg (by omega), if_neg (by omega), hd]
      simp only [Prod.mk.injEq, true_and]
      omega
    · rw [wideGet_applyExtras, wideGet_txpowerSet, wideGet_txToneSet,
        wideGet_rxToneSet, wideGet_wideSet]
      cases c.wide <;> rfl
    · rw [rxToneGet_applyExtras, rxToneGet_txpowerSet, rxToneGet_txToneSet,
        rxtone_get_set _ _ (toneValues_lt d0 c htone).1]
    · rw [txToneGet_applyExtras, txToneGet_txpowerSet,
        txtone_get_set _ _ (toneValues_lt d0 c htone).2]
    · rw [if_pos (show isRT29 ModelName.rt29v = true from by decide)]
      rw [txpowerGet_applyExtras, txpowerGet_txpowerSet, hp]
      interval_cases i <;> rfl
    · rw [if_pos (show ModelName.rt29v ≠ ModelName.rt76 from by decide)]
      exact skip_decode_eq c.number c.skipS sk (by omega)
    · rw [hce]
      exact extrasOf_rt29v b s v q _ hb3 hs1 hs8 hv2 hq2
  case minus =>
    simp only [Bool.and_eq_true, beq_iff_eq, decide_eq_true_eq] at hdup
    obtain ⟨⟨ho1, ho2⟩, ho3⟩ := hdup
    have hg : (setMem ModelName.rt29v c prior sk).1
        = applyExtras ModelName.rt29v c.extra
            (txpowerSet (if i = 2 then 2 else if i = 1 then 0 else 1)
              (txToneSet (toneValues c).2
                (rxToneSet (toneValues c).1
                  (wideSet ModelName.rt29v (if c.wide then 1 else 0)
                    (txfreqSet ((c.freq - c.offset) / 10)
                      (rxfreqSet (c.freq / 10)
                        (defaultFill ModelName.rt29v prior)))))))
        ∧ (setMem ModelName.rt29v c prior sk).2
            = skipUpdate c.number c.skipS sk := by
      unfold setMem
      rw [hemp, hd, hp]
      interval_cases i <;> exact ⟨rfl, rfl⟩
    rw [hg.1, hg.2]
    refine getMem_canonical_decode ModelName.rt29v d0 c _ _ hd0e hd0t hemp hf0
      ?_ ?_ ?_ ?_ ?_ ?_ htone ?_ ?_ ?_
    · rw [rxfreqGet_applyExtras, rxfreqGet_txpowerSet, rxfreqGet_txToneSet,
        rxfreqGet_rxToneSet, rxfreqGet_wideSet, rxfreqGet_txfreqSet,
        rxfreq_get_set (c.freq / 10) _ (by omega)]
      omega
    · rw [rxRawFF_applyExtras, rxRawFF_txpowerSet, rxRawFF_txToneSet,
        rxRawFF_rxToneSet, rxRawFF_wideSet, rxRawFF_txfreqSet,
        rxRawFF_rxfreqSet]
    · rw [rxfreqGet_applyExtras, rxfreqGet_txpowerSet, rxfreqGet_txToneSet,
        rxfreqGet_rxToneSet, rxfreqGet_wideSet, rxfreqGet_txfreqSet,
        rxfreq_get_set (c.freq / 10) _ (by omega),
        txfreqGet_applyExtras, txfreqGet_txpowerSet, txfreqGet_txToneSet,
        txfreqGet_rxToneSet, txfreqGet_wideSet,
        txfreq_get_set ((c.freq - c.offset) / 10) _ (by omega)]
      rw [if_neg (by omega), if_pos (by omega), hd]
      simp only [Prod.mk.injEq, true_and]
      omega
    · rw [wideGet_applyExtras, wideGet_txpowerSet, wideGet_txToneSet,
        wideGet_rxToneSet, wideGet_wideSet]
      cases c.wide <;> rfl
    · rw [rxToneGet_applyExtras, rxToneGet_txpowerSet, rxToneGet_txToneSet,
        rxtone_get_set _ _ (toneValues_lt d0 c htone).1]
    · rw [txToneGet_applyExtras, txToneGet_txpowerSet,
        txtone_get_set _ _ (toneValues_lt d0 c htone).2]
    · rw [if_pos (show isRT29 ModelName.rt29v = true from by decide)]
      rw [txpowerGet_applyExtras, txpowerGet_txpowerSet, hp]
      interval_cases i <;> rfl
    · rw [if_pos (show ModelName.rt29v ≠ ModelName.rt76 from by decide)]
      exact skip_decode_eq c.number c.skipS sk (by omega)
    · rw [hce]
      exact extrasOf_rt29v b s v q _ hb3 hs1 hs8 hv2 hq2

/-- C3 counterexample: a valid in-bounds non-empty RT21 channel using
the supported duplex value off (transmit inhibit) does not survive the
encode/decode round trip: set_memory stores the all-ones transmit
sentinel, and get_memory reads it back as the BCD value 166666665 tens
of Hz, decoding the channel as duplex plus with a 1216.6665 MHz offset
instead of duplex off. -/
theorem roundtrip_duplex_off_fails :
    (getMem ModelName.rt21 freshMem0
      (setMem ModelName.rt21
        { freshMem0 with
            number := 1, freq := 450000000, offset := 0,
            duplex := Duplex.offAir, power := some 1,
            extra := ⟨some 0, some 1, none, none⟩ } recZero [0, 0]).1
      (setMem ModelName.rt21
        { freshMem0 with
            number := 1, freq := 450000000, offset := 0,
            duplex := Duplex.offAir, power := some 1,
            extra := ⟨some 0, some 1, none, none⟩ } recZero [0, 0]).2
      1).duplex = Duplex.plus ∧
    (getMem ModelName.rt21 freshMem0
      (setMem ModelName.rt21
        { freshMem0 with
            number := 1, freq := 450000000, offset := 0,
            duplex := Duplex.offAir, power := some 1,
            extra := ⟨some 0, some 1, none, none⟩ } recZero [0, 0]).1
      (setMem ModelName.rt21
        { freshMem0 with
            number := 1, freq := 450000000, offset := 0,
            duplex := Duplex.offAir, power := some 1,
            extra := ⟨some 0, some 1, none, none⟩ } recZero [0, 0]).2
      1).offset = 1216666650 ∧
    getMem ModelName.rt21 freshMem0
      (setMem ModelName.rt21
        { freshMem0 with
            number := 1, freq := 450000000, offset := 0,
            duplex := Duplex.offAir, power := some 1,
            extra := ⟨some 0, some 1, none, none⟩ } recZero [0, 0]).1
      (setMem ModelName.rt21
        { freshMem0 with
            number := 1, freq := 450000000, offset := 0,
            duplex := Duplex.offAir, power := some 1,
            extra := ⟨some 0, some 1, none, none⟩ } recZero [0, 0]).2
      1 ≠ { freshMem0 with
            number := 1, freq := 450000000, offset := 0,
            duplex := Duplex.offAir, power := some 1,
            extra := ⟨some 0, some 1, none, none⟩ } := by
  refine ⟨by decide, by decide, ?_⟩
  intro h
  have hd := congrArg CMem.duplex h
  revert hd
  decide

/-- C3 (amended): for every model and every logical channel in the
decoder-canonical form (non-empty, frequency a positive multiple of
10 Hz below 1 GHz, channel number within the model's range, duplex
none/plus/minus with an exactly representable offset, tone fields in
bounds with the fields unused by the selected squelch mode left at the
fresh-channel defaults, a power index within the model's level list,
and exactly the extra settings the model's decoder rebuilds, each
within its stored field width), encoding the channel with set_memory
and decoding the same channel number with get_memory returns the
identical logical channel. -/
theorem channel_roundtrip_canonical (m : ModelName) (d0 c : CMem)
    (prior : Rec) (sk : List Nat)
    (hd0e : d0.empty = false) (hd0t : d0.tmode = TMode.tnone)
    (hsk : sk.length = skipflagsLen m)
    (hc : canonB m d0 c = true) :
    getMem m d0 (setMem m c prior sk).1 (setMem m c prior sk).2 c.number
      = c := by
  cases m
  · exact roundtrip_rt21 d0 c prior sk hd0e hd0t hsk hc
  · exact roundtrip_rb17a d0 c prior sk hd0e hd0t hsk hc
  · exact roundtrip_rb26 d0 c prior sk hd0e hd0t hsk hc
  · exact roundtrip_rt76 d0 c prior sk hd0e hd0t hc
  · exact roundtrip_rt29u d0 c prior sk hd0e hd0t hsk hc
  · exact roundtrip_rt29v d0 c prior sk hd0e hd0t hsk hc

/-- C3 witness: a concrete canonical RT21 channel (number 3,
446.00625 MHz simplex, wide, high power, busy lockout 2, scramble 8)
round-trips to itself. -/
theorem channel_roundtrip_canonical_witness :
    freshMem0.empty = false ∧ freshMem0.tmode = TMode.tnone ∧
    ([0, 0] : List Nat).length = skipflagsLen ModelName.rt21 ∧
    canonB ModelName.rt21 freshMem0
      { freshMem0 with
          number := 3, freq := 446006250, offset := 0,
          duplex := Duplex.simplex, power := some 1, skipS := true,
          extra := ⟨some 2, some 8, none, none⟩ } = true ∧
    getMem ModelName.rt21 freshMem0
      (setMem ModelName.rt21
        { freshMem0 with
            number := 3, freq := 446006250, offset := 0,
            duplex := Duplex.simplex, power := some 1, skipS := true,
            extra := ⟨some 2, some 8, none, none⟩ } recZero [0, 0]).1
      (setMem ModelName.rt21
        { freshMem0 with
            number := 3, freq := 446006250, offset := 0,
            duplex := Duplex.simplex, power := some 1, skipS := true,
            extra := ⟨some 2, some 8, none, none⟩ } recZero [0, 0]).2
      ({ freshMem0 with
            number := 3, freq := 446006250, offset := 0,
            duplex := Duplex.simplex, power := some 1, skipS := true,
            extra := ⟨some 2, some 8, none, none⟩ } : CMem).number
      = { freshMem0 with
            number := 3, freq := 446006250, offset := 0,
            duplex := Duplex.simplex, power := some 1, skipS := true,
            extra := ⟨some 2, some 8, none, none⟩ } :=
  ⟨rfl, rfl, rfl, by decide,
   channel_roundtrip_canonical ModelName.rt21 freshMem0
     { freshMem0 with
         number := 3, freq := 446006250, offset := 0,
         duplex := Duplex.simplex, power := some 1, skipS := true,
         extra := ⟨some 2, some 8, none, none⟩ } recZero [0, 0]
     rfl rfl rfl (by decide)⟩
